import Mathlib

/-!
Swap chain and flip scheduling of `meta-renderer-native.c`.

A shallow embedding of the KMS presentation backend
(`src/backends/native/meta-renderer-native.c`).

* Pointers and kernel object ids are natural numbers, `0` standing for
  `NULL` / `EGL_NO_SURFACE` / "no framebuffer".
* `flip->pending` is a C `int`; it is an `Int` here (it is only ever
  incremented once per controller and decremented once per event).
* Every call to the kernel, to the buffer allocator, to EGL or to the host
  event loop is appended to `State.trace`, in program order.
* What the outside world answers (the result of `drmModePageFlip`, of
  `drmModeAddFB`, the buffer returned by `gbm_surface_lock_front_buffer`,
  the events delivered by `drmHandleEvent`) is a parameter of the operation.
-/

namespace MetaRendererNativeModel

/-- The value of `EACCES` in `errno.h`. -/
def EACCES : Int := 13

/-- The controller descriptor `CoglKmsCrtc`. `connectors` is the array the
pointer designates and `count` the separate element count the code tests. -/
structure CoglKmsCrtc where
  id : Nat
  x : Int
  y : Int
  mode : Nat
  connectors : List Nat
  count : Nat
  ignore : Bool
deriving DecidableEq, Repr

/-- The calls the renderer makes to its collaborators, as recorded in the
trace. -/
inductive Call where
  | drmModeRmFB (fb_id : Nat)
  | drmModeAddFB (width height : Int) (bo : Nat)
  | drmModeSetCrtc (crtc_id fb_id : Nat) (x y : Int) (connectors : List Nat)
      (count : Nat) (mode : Option Nat)
  | drmModePageFlip (crtc_id fb_id : Nat)
  | drmHandleEvent
  | gbm_surface_create (width height : Int)
  | gbm_surface_destroy (surface : Nat)
  | gbm_surface_lock_front_buffer (surface : Nat)
  | gbm_surface_release_buffer (surface bo : Nat)
  | eglCreateWindowSurface (surface : Nat)
  | eglDestroySurface (egl_surface : Nat)
  | parent_swap_buffers_with_damage
  | update_size (width height : Int)
  | add_idle
  | closure_disconnect
  | notify_frame_sync (onscreen : Nat) (info : Option Nat)
  | notify_complete (onscreen : Nat) (info : Option Nat)
  | cogl_object_ref (onscreen : Nat)
  | cogl_object_unref (onscreen : Nat)
  | cogl_object_unref_info (info : Option Nat)
deriving DecidableEq, Repr

/-- The device-level renderer `struct _MetaRendererNative`.
`swap_notify_idle` and `onscreen` are pointers of which only nullness is
observed. -/
structure MetaRendererNative where
  kms_fd : Int
  gbm : Nat
  swap_notify_idle : Bool
  page_flips_not_supported : Bool
  crtcs : List CoglKmsCrtc
  width : Int
  height : Int
  pending_set_crtc : Bool
  dummy_gbm_surface : Nat
  onscreen : Bool
deriving DecidableEq, Repr

/-- The flip request `CoglFlipKMS`; the back pointer is the id of the
onscreen it belongs to. -/
structure CoglFlipKMS where
  onscreen : Nat
  pending : Int
deriving DecidableEq, Repr

/-- The swap chain `CoglOnscreenKMS`. -/
structure CoglOnscreenKMS where
  surface : Nat
  current_fb_id : Nat
  next_fb_id : Nat
  current_bo : Nat
  next_bo : Nat
  pending_swap_notify : Bool
  pending_egl_surface : Nat
  pending_surface : Nat
deriving DecidableEq, Repr

/-- A `CoglOnscreen` with its `CoglOnscreenEGL` (`egl_surface`) and
`CoglOnscreenKMS` (`kms`) parts. `winsys` tells whether `onscreen->winsys`
is non-NULL, `id` is the identity of the object and `pending_frame_infos`
the queue of frame infos. -/
structure CoglOnscreen where
  id : Nat
  winsys : Bool
  egl_surface : Nat
  kms : CoglOnscreenKMS
  pending_frame_infos : List Nat
deriving DecidableEq, Repr

/-- The tag `framebuffer->type`. -/
inductive CoglFramebufferType where
  | ONSCREEN
  | OFFSCREEN
deriving DecidableEq, Repr

/-- A member of `context->framebuffers`. `onscreen` is what the cast
`COGL_ONSCREEN (framebuffer)` yields; the code reads it only when `type`
is `ONSCREEN`. -/
structure CoglFramebuffer where
  type : CoglFramebufferType
  onscreen : CoglOnscreen
deriving DecidableEq, Repr

/-- The whole program state: the renderer, the onscreen the operations are
applied to, the other members of `context->framebuffers` (those listed
before and those listed after that onscreen), the flip request that is
allocated at the moment, whether `COGL_FRAMEBUFFER_STATE_BIND` is set in
`context->current_draw_buffer_changes`, and the trace of calls. -/
structure State where
  renderer_native : MetaRendererNative
  onscreen : CoglOnscreen
  fbs_before : List CoglFramebuffer
  fbs_after : List CoglFramebuffer
  flip : Option CoglFlipKMS
  draw_buffer_bind : Bool
  trace : List Call
deriving DecidableEq, Repr

/-- Append one call to the trace. -/
def State.call (s : State) (c : Call) : State :=
  { s with trace := s.trace ++ [c] }

/-- Update the `CoglOnscreenKMS` of the onscreen. -/
def State.setKms (s : State) (k : CoglOnscreenKMS) : State :=
  { s with onscreen := { s.onscreen with kms := k } }

/-- Update the renderer. -/
def State.setRenderer (s : State) (r : MetaRendererNative) : State :=
  { s with renderer_native := r }

/-! ## Notification scheduler -/

/-- The function `flush_pending_swap_notify_cb`, applied to one framebuffer:
the framebuffer afterwards and the calls made. -/
def flush_pending_swap_notify_cb (framebuffer : CoglFramebuffer) :
    CoglFramebuffer × List Call :=
  if framebuffer.type = CoglFramebufferType.ONSCREEN then
    let onscreen := framebuffer.onscreen
    if onscreen.kms.pending_swap_notify then
      let info := onscreen.pending_frame_infos.head?
      let onscreen := { onscreen with
        pending_frame_infos := onscreen.pending_frame_infos.tail }
      let onscreen := { onscreen with
        kms := { onscreen.kms with pending_swap_notify := false } }
      ({ framebuffer with onscreen := onscreen },
        [Call.notify_frame_sync onscreen.id info,
         Call.notify_complete onscreen.id info,
         Call.cogl_object_unref_info info])
    else (framebuffer, [])
  else (framebuffer, [])

/-- The loop `g_list_foreach (framebuffers, flush_pending_swap_notify_cb)`. -/
def g_list_foreach_flush : List CoglFramebuffer → List CoglFramebuffer × List Call
  | [] => ([], [])
  | fb :: rest =>
    let r := flush_pending_swap_notify_cb fb
    let rs := g_list_foreach_flush rest
    (r.1 :: rs.1, r.2 ++ rs.2)

/-- The context's framebuffer list `context->framebuffers`. -/
def State.framebuffers (s : State) : List CoglFramebuffer :=
  s.fbs_before ++ [⟨CoglFramebufferType.ONSCREEN, s.onscreen⟩] ++ s.fbs_after

/-- The function `flush_pending_swap_notify_idle`: the closure is
disconnected and forgotten, then every framebuffer of the context is
visited in list order. -/
def flush_pending_swap_notify_idle (s : State) : State :=
  let s := s.call Call.closure_disconnect
  let s := s.setRenderer { s.renderer_native with swap_notify_idle := false }
  let b := g_list_foreach_flush s.fbs_before
  let o := flush_pending_swap_notify_cb ⟨CoglFramebufferType.ONSCREEN, s.onscreen⟩
  let a := g_list_foreach_flush s.fbs_after
  { s with
    fbs_before := b.1
    onscreen := o.1.onscreen
    fbs_after := a.1
    trace := s.trace ++ (b.2 ++ o.2 ++ a.2) }

/-- The function `queue_swap_notify_for_onscreen`. -/
def queue_swap_notify_for_onscreen (s : State) : State :=
  let s :=
    if !s.renderer_native.swap_notify_idle then
      (s.call Call.add_idle).setRenderer
        { s.renderer_native with swap_notify_idle := true }
    else s
  s.setKms { s.onscreen.kms with pending_swap_notify := true }

/-! ## Buffer slots and flip requests -/

/-- The function `free_current_bo`. -/
def free_current_bo (s : State) : State :=
  let s :=
    if s.onscreen.kms.current_fb_id ≠ 0 then
      (s.call (Call.drmModeRmFB s.onscreen.kms.current_fb_id)).setKms
        { s.onscreen.kms with current_fb_id := 0 }
    else s
  if s.onscreen.kms.current_bo ≠ 0 then
    (s.call (Call.gbm_surface_release_buffer s.onscreen.kms.surface
        s.onscreen.kms.current_bo)).setKms
      { s.onscreen.kms with current_bo := 0 }
  else s

/-- The function `process_flip`, called with the request `flip`. When the
counter does not reach zero the decremented request stays allocated. -/
def process_flip (flip : CoglFlipKMS) (s : State) : State :=
  let flip := { flip with pending := flip.pending - 1 }
  if flip.pending = 0 then
    let s := queue_swap_notify_for_onscreen s
    let s := free_current_bo s
    let s := s.setKms { s.onscreen.kms with current_fb_id := s.onscreen.kms.next_fb_id }
    let s := s.setKms { s.onscreen.kms with next_fb_id := 0 }
    let s := s.setKms { s.onscreen.kms with current_bo := s.onscreen.kms.next_bo }
    let s := s.setKms { s.onscreen.kms with next_bo := 0 }
    let s := s.call (Call.cogl_object_unref flip.onscreen)
    { s with flip := none }
  else
    { s with flip := some flip }

/-- The function `page_flip_handler`: the kernel hands back the request it
was given with the flip, which is the allocated one. -/
def page_flip_handler (s : State) : State :=
  match s.flip with
  | some flip => process_flip flip s
  | none => s

/-- The function `handle_drm_event`; `n` is the number of page-flip events
that `drmHandleEvent` reads and dispatches in this call. -/
def handle_drm_event (n : Nat) (s : State) : State :=
  if s.renderer_native.page_flips_not_supported then s
  else page_flip_handler^[n] (s.call Call.drmHandleEvent)

/-- The function `dispatch_kms_events`. -/
def dispatch_kms_events (revents : Nat) (n : Nat) (s : State) : State :=
  if revents = 0 then s else handle_drm_event n s

/-! ## Controller fan-out -/

/-- The function `setup_crtc_modes`: one `drmModeSetCrtc` per list entry. The
return value only decides whether a warning is printed. -/
def setup_crtc_modes (fb_id : Nat) (s : State) : State :=
  s.renderer_native.crtcs.foldl
    (fun s crtc => s.call (Call.drmModeSetCrtc crtc.id fb_id crtc.x crtc.y
      crtc.connectors crtc.count (if crtc.count ≠ 0 then some crtc.mode else none)))
    s

/-- The state of the loop of `flip_all_crtcs`. -/
structure FlipLoop where
  pending : Int
  needs_flip : Bool
  page_flips_not_supported : Bool
  calls : List Call
deriving DecidableEq, Repr

/-- The loop of `flip_all_crtcs` over the controllers from position `i` on.
`page_flip j` is what `drmModePageFlip` returns for the controller at
position `j` of the list. -/
def flip_loop (page_flip : Nat → Int) (fb_id : Nat) :
    Nat → List CoglKmsCrtc → FlipLoop → FlipLoop
  | _, [], st => st
  | i, crtc :: l, st =>
    if crtc.count = 0 ∨ crtc.ignore = true then
      flip_loop page_flip fb_id (i + 1) l st
    else
      let st := { st with needs_flip := true }
      if !st.page_flips_not_supported then
        let ret := page_flip i
        let st := { st with calls := st.calls ++ [Call.drmModePageFlip crtc.id fb_id] }
        if ret ≠ 0 ∧ ret ≠ -EACCES then
          { st with page_flips_not_supported := true }
        else if ret = 0 then
          flip_loop page_flip fb_id (i + 1) l { st with pending := st.pending + 1 }
        else
          flip_loop page_flip fb_id (i + 1) l st
      else
        flip_loop page_flip fb_id (i + 1) l { st with pending := st.pending + 1 }

/-- The function `flip_all_crtcs`: the request afterwards and the state
afterwards. -/
def flip_all_crtcs (page_flip : Nat → Int) (flip : CoglFlipKMS) (fb_id : Nat)
    (s : State) : CoglFlipKMS × State :=
  let st := flip_loop page_flip fb_id 0 s.renderer_native.crtcs
    ⟨flip.pending, false, s.renderer_native.page_flips_not_supported, []⟩
  let s := { s with trace := s.trace ++ st.calls }
  let s := s.setRenderer
    { s.renderer_native with page_flips_not_supported := st.page_flips_not_supported }
  let flip := { flip with pending := st.pending }
  if st.page_flips_not_supported ∧ st.needs_flip then
    ({ flip with pending := 1 }, s)
  else (flip, s)

/-! ## Submission -/

/-- What the outside world answers during one call of
`_cogl_winsys_onscreen_swap_buffers_with_damage`: the number of events
dispatched by each successive `drmHandleEvent` of the blocking loop, the
buffer returned by `gbm_surface_lock_front_buffer`, the outcome of
`drmModeAddFB` (`none` when rejected, the new framebuffer id otherwise) and
the result of `drmModePageFlip` for each position of the controller list. -/
structure SwapEnv where
  events : List Nat
  front_bo : Nat
  add_fb : Option Nat
  page_flip : Nat → Int

/-- The loop `while (kms_onscreen->next_fb_id != 0) handle_drm_event (...)`.
`none` when the answers in `events` are used up and a flip is still
pending: the call has not come back. -/
def swap_wait : List Nat → State → Option State
  | [], s => if s.onscreen.kms.next_fb_id ≠ 0 then none else some s
  | n :: events, s =>
    if s.onscreen.kms.next_fb_id ≠ 0 then swap_wait events (handle_drm_event n s)
    else some s

/-- The block `if (kms_onscreen->pending_egl_surface) ...` of the
submission. -/
def swap_pending_egl_surface (s : State) : State :=
  if s.onscreen.kms.pending_egl_surface ≠ 0 then
    let s := s.call (Call.eglDestroySurface s.onscreen.egl_surface)
    let s := { s with onscreen :=
      { s.onscreen with egl_surface := s.onscreen.kms.pending_egl_surface } }
    let s := s.setKms { s.onscreen.kms with pending_egl_surface := 0 }
    let s := s.call (Call.update_size s.renderer_native.width s.renderer_native.height)
    { s with draw_buffer_bind := true }
  else s

/-- The block `if (kms_onscreen->pending_surface) ...` of the submission. -/
def swap_pending_surface (s : State) : State :=
  if s.onscreen.kms.pending_surface ≠ 0 then
    let s := free_current_bo s
    let s :=
      if s.onscreen.kms.surface ≠ 0 then
        s.call (Call.gbm_surface_destroy s.onscreen.kms.surface)
      else s
    let s := s.setKms { s.onscreen.kms with surface := s.onscreen.kms.pending_surface }
    s.setKms { s.onscreen.kms with pending_surface := 0 }
  else s

/-- The block `if (renderer_native->pending_set_crtc) ...` of the
submission. -/
def swap_set_crtc (s : State) : State :=
  if s.renderer_native.pending_set_crtc then
    let s := setup_crtc_modes s.onscreen.kms.next_fb_id s
    s.setRenderer { s.renderer_native with pending_set_crtc := false }
  else s

/-- The block `if (flip->pending == 0) ... else ...` that ends the
submission, for the request `flip` as the fan-out left it. -/
def swap_resolve (flip : CoglFlipKMS) (s : State) : State :=
  if flip.pending = 0 then
    let s := s.call (Call.drmModeRmFB s.onscreen.kms.next_fb_id)
    let s := s.call (Call.gbm_surface_release_buffer s.onscreen.kms.surface
      s.onscreen.kms.next_bo)
    let s := s.setKms { s.onscreen.kms with next_bo := 0 }
    let s := s.setKms { s.onscreen.kms with next_fb_id := 0 }
    queue_swap_notify_for_onscreen s
  else
    let s := s.call (Call.cogl_object_ref flip.onscreen)
    let s := { s with flip := some flip }
    if s.renderer_native.page_flips_not_supported then
      let s := setup_crtc_modes s.onscreen.kms.next_fb_id s
      process_flip flip s
    else s

/-- The end of the submission, from the test of `pending_set_crtc` on, once
`drmModeAddFB` has stored the new id in `next_fb_id`. The new request is
`g_slice_new0`, with `flip->onscreen` set. -/
def swap_present (page_flip : Nat → Int) (s : State) : State :=
  let s := swap_set_crtc s
  let flip : CoglFlipKMS := ⟨s.onscreen.id, 0⟩
  let r := flip_all_crtcs page_flip flip s.onscreen.kms.next_fb_id s
  swap_resolve r.1 r.2

/-- The submission between its blocking loop and the call of
`gbm_surface_lock_front_buffer`: the pending rendering surface is
installed, the parent implementation swaps, the pending pool is installed. -/
def swap_prepare (s : State) : State :=
  let s := swap_pending_egl_surface s
  let s := s.call Call.parent_swap_buffers_with_damage
  swap_pending_surface s

/-- The submission from the call of `gbm_surface_lock_front_buffer` on. -/
def swap_submit (env : SwapEnv) (s : State) : State :=
  let s := s.call (Call.gbm_surface_lock_front_buffer s.onscreen.kms.surface)
  let s := s.setKms { s.onscreen.kms with next_bo := env.front_bo }
  let s := s.call (Call.drmModeAddFB s.renderer_native.width s.renderer_native.height
    s.onscreen.kms.next_bo)
  match env.add_fb with
  | none =>
    let s := s.call (Call.gbm_surface_release_buffer s.onscreen.kms.surface
      s.onscreen.kms.next_bo)
    let s := s.setKms { s.onscreen.kms with next_bo := 0 }
    s.setKms { s.onscreen.kms with next_fb_id := 0 }
  | some fb_id =>
    let s := s.setKms { s.onscreen.kms with next_fb_id := fb_id }
    swap_present env.page_flip s

/-- The submission after its blocking loop. -/
def swap_body (env : SwapEnv) (s : State) : State :=
  swap_submit env (swap_prepare s)

/-- The function `_cogl_winsys_onscreen_swap_buffers_with_damage`; `none`
when the blocking loop does not come back on the answers of `env`. -/
def _cogl_winsys_onscreen_swap_buffers_with_damage (env : SwapEnv) (s : State) :
    Option State :=
  (swap_wait env.events s).map (swap_body env)

/-! ## Surface set-up, tear-down and layout -/

/-- The function `_cogl_winsys_egl_display_setup`. -/
def _cogl_winsys_egl_display_setup (s : State) : State :=
  s.setRenderer { s.renderer_native with pending_set_crtc := true }

/-- The zeroed `CoglOnscreenKMS` that `g_slice_new0` returns. -/
def CoglOnscreenKMS.zero : CoglOnscreenKMS :=
  ⟨0, 0, 0, 0, 0, false, 0, 0⟩

/-- The function `_cogl_winsys_onscreen_init`. `egl_context` tells whether
`egl_display->egl_context` is set, `surface` and `egl_surface` are what
`gbm_surface_create` and `eglCreateWindowSurface` return. The result is the
returned boolean and the state. -/
def _cogl_winsys_onscreen_init (egl_context : Bool) (surface egl_surface : Nat)
    (s : State) : Bool × State :=
  if !egl_context then (false, s)
  else if s.renderer_native.onscreen then (false, s)
  else
    let s := s.setRenderer { s.renderer_native with onscreen := true }
    let s := { s with onscreen :=
      { s.onscreen with winsys := true, egl_surface := 0, kms := CoglOnscreenKMS.zero } }
    if s.renderer_native.width = 0 ∨ s.renderer_native.height = 0 then (true, s)
    else
      let s := s.call (Call.gbm_surface_create s.renderer_native.width
        s.renderer_native.height)
      let s := s.setKms { s.onscreen.kms with surface := surface }
      if s.onscreen.kms.surface = 0 then (false, s)
      else
        let s := s.call (Call.eglCreateWindowSurface s.onscreen.kms.surface)
        let s := { s with onscreen := { s.onscreen with egl_surface := egl_surface } }
        if s.onscreen.egl_surface = 0 then (false, s)
        else
          (true, s.call (Call.update_size s.renderer_native.width
            s.renderer_native.height))

/-- The function `_cogl_winsys_onscreen_deinit`. -/
def _cogl_winsys_onscreen_deinit (s : State) : State :=
  if !s.onscreen.winsys then s
  else
    let s := s.setRenderer { s.renderer_native with onscreen := false }
    if s.onscreen.kms.next_fb_id ≠ 0 then s
    else
      let s := free_current_bo s
      let s :=
        if s.onscreen.egl_surface ≠ 0 then
          let s := s.call (Call.eglDestroySurface s.onscreen.egl_surface)
          { s with onscreen := { s.onscreen with egl_surface := 0 } }
        else s
      let s :=
        if s.onscreen.kms.surface ≠ 0 then
          let s := s.call (Call.gbm_surface_destroy s.onscreen.kms.surface)
          s.setKms { s.onscreen.kms with surface := 0 }
        else s
      { s with onscreen := { s.onscreen with winsys := false } }

/-- The function `meta_renderer_native_queue_modes_reset`. -/
def meta_renderer_native_queue_modes_reset (s : State) : State :=
  s.setRenderer { s.renderer_native with pending_set_crtc := true }

/-- The function `crtc_copy`: the structure is copied and the first `count`
connectors are duplicated. -/
def crtc_copy (src : CoglKmsCrtc) : CoglKmsCrtc :=
  { src with connectors := src.connectors.take src.count }

/-- The end of `meta_renderer_native_set_layout`, from the assignment of
`renderer_native->width` on. -/
def set_layout_crtcs (width height : Int) (crtcs : List CoglKmsCrtc) (s : State) :
    State :=
  let s := s.setRenderer { s.renderer_native with width := width }
  let s := s.setRenderer { s.renderer_native with height := height }
  let crtc_list := crtcs.foldl (fun acc crtc => crtc_copy crtc :: acc) []
  let crtc_list := crtc_list.reverse
  let s := s.setRenderer { s.renderer_native with crtcs := crtc_list }
  s.setRenderer { s.renderer_native with pending_set_crtc := true }

/-- The function `meta_renderer_native_set_layout`. `new_surface` and
`new_egl_surface` are what `gbm_surface_create` and `eglCreateWindowSurface`
return; `crtcs` is the array of `n_crtcs` descriptors. The result is the
returned boolean and the state. -/
def meta_renderer_native_set_layout (new_surface new_egl_surface : Nat)
    (width height : Int) (crtcs : List CoglKmsCrtc) (s : State) : Bool × State :=
  if (width ≠ s.renderer_native.width ∨ height ≠ s.renderer_native.height) ∧
      s.renderer_native.onscreen = true then
    let s := s.call (Call.gbm_surface_create width height)
    if new_surface = 0 then (false, s)
    else
      let s := s.call (Call.eglCreateWindowSurface new_surface)
      if new_egl_surface = 0 then
        (false, s.call (Call.gbm_surface_destroy new_surface))
      else
        let s :=
          if s.onscreen.kms.pending_egl_surface ≠ 0 then
            s.call (Call.eglDestroySurface s.onscreen.kms.pending_egl_surface)
          else s
        let s :=
          if s.onscreen.kms.pending_surface ≠ 0 then
            s.call (Call.gbm_surface_destroy s.onscreen.kms.pending_surface)
          else s
        let s :=
          if s.onscreen.kms.surface ≠ 0 then
            let s := s.setKms { s.onscreen.kms with pending_surface := new_surface }
            s.setKms { s.onscreen.kms with pending_egl_surface := new_egl_surface }
          else
            let s := s.setKms { s.onscreen.kms with surface := new_surface }
            let s := { s with onscreen :=
              { s.onscreen with egl_surface := new_egl_surface } }
            s.call (Call.update_size width height)
        (true, set_layout_crtcs width height crtcs s)
  else (true, set_layout_crtcs width height crtcs s)

/-- The loop of `meta_renderer_native_set_ignore_crtc`. -/
def set_ignore_loop (id : Nat) (ignore : Bool) : List CoglKmsCrtc → List CoglKmsCrtc
  | [] => []
  | crtc :: l =>
    if crtc.id = id then { crtc with ignore := ignore } :: l
    else crtc :: set_ignore_loop id ignore l

/-- The function `meta_renderer_native_set_ignore_crtc`. -/
def meta_renderer_native_set_ignore_crtc (id : Nat) (ignore : Bool) (s : State) :
    State :=
  s.setRenderer
    { s.renderer_native with crtcs := set_ignore_loop id ignore s.renderer_native.crtcs }

/-! ## Operations -/

/-- The entry points of the renderer, each with the answers of the outside
world it consumes. `flip_event` is `process_flip` for one flip event
delivered to the allocated request, `dispatch` is `dispatch_kms_events` and
`free_bo` is `free_current_bo`. -/
inductive Op where
  | swap_buffers_with_damage (env : SwapEnv)
  | flip_event
  | dispatch (revents n : Nat)
  | set_layout (new_surface new_egl_surface : Nat) (width height : Int)
      (crtcs : List CoglKmsCrtc)
  | set_ignore_crtc (id : Nat) (ignore : Bool)
  | queue_modes_reset
  | flush
  | display_setup
  | onscreen_init (egl_context : Bool) (surface egl_surface : Nat)
  | onscreen_deinit
  | free_bo

/-- One operation. `none` when the operation does not come back (a
submission whose blocking loop never ends) or cannot take place (an event
for a request that does not exist). -/
def Op.run : Op → State → Option State
  | .swap_buffers_with_damage env, s => _cogl_winsys_onscreen_swap_buffers_with_damage env s
  | .flip_event, s =>
    match s.flip with
    | some flip => some (process_flip flip s)
    | none => none
  | .dispatch revents n, s => some (dispatch_kms_events revents n s)
  | .set_layout new_surface new_egl_surface width height crtcs, s =>
    some (meta_renderer_native_set_layout new_surface new_egl_surface width height crtcs s).2
  | .set_ignore_crtc id ignore, s => some (meta_renderer_native_set_ignore_crtc id ignore s)
  | .queue_modes_reset, s => some (meta_renderer_native_queue_modes_reset s)
  | .flush, s => some (flush_pending_swap_notify_idle s)
  | .display_setup, s => some (_cogl_winsys_egl_display_setup s)
  | .onscreen_init egl_context surface egl_surface, s =>
    some (_cogl_winsys_onscreen_init egl_context surface egl_surface s).2
  | .onscreen_deinit, s => some (_cogl_winsys_onscreen_deinit s)
  | .free_bo, s => some (free_current_bo s)

/-- A sequence of operations, first to last. -/
def runOps : List Op → State → Option State
  | [], s => some s
  | op :: ops, s => (op.run s).bind (runOps ops)

/-- A controller takes part in the fan-out: it has connectors and is not
ignored. -/
def CoglKmsCrtc.active (crtc : CoglKmsCrtc) : Bool :=
  !(crtc.count == 0 || crtc.ignore)

/-- The number of active controllers of a list. -/
def activeCount (crtcs : List CoglKmsCrtc) : Nat :=
  (crtcs.filter CoglKmsCrtc.active).length

/-- The number of active controllers of `crtcs` (which starts at position `i`
of the controller list) for which `drmModePageFlip` answers `0`. -/
def acceptCount (page_flip : Nat → Int) : Nat → List CoglKmsCrtc → Nat
  | _, [] => 0
  | i, crtc :: l =>
    (if crtc.active ∧ page_flip i = 0 then 1 else 0) + acceptCount page_flip (i + 1) l

/-- No active controller of `crtcs` (which starts at position `i`) gets an
answer other than `0` and `-EACCES` from `drmModePageFlip`. -/
def noHardFailure (page_flip : Nat → Int) : Nat → List CoglKmsCrtc → Prop
  | _, [] => True
  | i, crtc :: l =>
    (crtc.active = true → page_flip i = 0 ∨ page_flip i = -EACCES) ∧
      noHardFailure page_flip (i + 1) l

/-- The `drmModePageFlip` calls of a fan-out in which every active
controller of `crtcs` is asked. -/
def flipCalls (fb_id : Nat) (crtcs : List CoglKmsCrtc) : List Call :=
  (crtcs.filter CoglKmsCrtc.active).map (fun crtc => Call.drmModePageFlip crtc.id fb_id)

/-- The number of list entries before the first active controller of
`crtcs` (which starts at position `i`) whose `drmModePageFlip` answer is
neither `0` nor `-EACCES`; `none` when there is no such controller. -/
def hardFailure (page_flip : Nat → Int) : Nat → List CoglKmsCrtc → Option Nat
  | _, [] => none
  | i, crtc :: l =>
    if crtc.active = true ∧ page_flip i ≠ 0 ∧ page_flip i ≠ -EACCES then some 0
    else (hardFailure page_flip (i + 1) l).map (· + 1)

/-- The `drmModeSetCrtc` calls of `setup_crtc_modes`. -/
def setCrtcCalls (fb_id : Nat) (crtcs : List CoglKmsCrtc) : List Call :=
  crtcs.map (fun crtc => Call.drmModeSetCrtc crtc.id fb_id crtc.x crtc.y
    crtc.connectors crtc.count (if crtc.count ≠ 0 then some crtc.mode else none))

/-- The calls of `free_current_bo` on a swap chain. -/
def freeCalls (kms : CoglOnscreenKMS) : List Call :=
  (if kms.current_fb_id ≠ 0 then [Call.drmModeRmFB kms.current_fb_id] else []) ++
  (if kms.current_bo ≠ 0 then [Call.gbm_surface_release_buffer kms.surface kms.current_bo]
   else [])

/-- The calls of `queue_swap_notify_for_onscreen`. -/
def queueCalls (renderer_native : MetaRendererNative) : List Call :=
  if renderer_native.swap_notify_idle then [] else [Call.add_idle]

/-- A controller with one connector that is not ignored. -/
def exampleCrtc (id : Nat) : CoglKmsCrtc :=
  { id := id, x := 0, y := 0, mode := 1, connectors := [40 + id], count := 1, ignore := false }

/-- A renderer with page flips supported, no mode-set due and the given
controllers. -/
def exampleRenderer (crtcs : List CoglKmsCrtc) : MetaRendererNative :=
  { kms_fd := 3, gbm := 1, swap_notify_idle := false, page_flips_not_supported := false,
    crtcs := crtcs, width := 640, height := 480, pending_set_crtc := false,
    dummy_gbm_surface := 0, onscreen := true }

/-- A state in which frame `10` (buffer `20` of pool `5`) is on screen, no
flip is pending and nothing is marked for notification. -/
def exampleState (crtcs : List CoglKmsCrtc) : State :=
  { renderer_native := exampleRenderer crtcs
    onscreen :=
      { id := 1, winsys := true, egl_surface := 6
        kms := { surface := 5, current_fb_id := 10, next_fb_id := 0, current_bo := 20,
                 next_bo := 0, pending_swap_notify := false, pending_egl_surface := 0,
                 pending_surface := 0 }
        pending_frame_infos := [100] }
    fbs_before := []
    fbs_after := []
    flip := none
    draw_buffer_bind := false
    trace := [] }

/-- The answers of a kernel that accepts every flip and registers the
locked buffer `21` as framebuffer `11`. -/
def exampleEnv : SwapEnv :=
  { events := [], front_bo := 21, add_fb := some 11, page_flip := fun _ => 0 }

instance noHardFailureDecidable (page_flip : Nat → Int) :
    ∀ (i : Nat) (l : List CoglKmsCrtc), Decidable (noHardFailure page_flip i l)
  | _, [] => isTrue trivial
  | i, crtc :: l =>
    have := noHardFailureDecidable page_flip (i + 1) l
    inferInstanceAs (Decidable
      ((crtc.active = true → page_flip i = 0 ∨ page_flip i = -EACCES) ∧
        noHardFailure page_flip (i + 1) l))

/-! ## Reachable states -/

/-- What the kernel guarantees about the answers of one submission: a
framebuffer id handed out by a successful `drmModeAddFB` is not `0`. -/
def SwapEnv.valid (env : SwapEnv) : Prop :=
  env.add_fb ≠ some 0

/-- The operations on an onscreen between its initialisation and its
tear-down: submissions (with answers the kernel can give), flip events,
event dispatch, layout changes, flushes and the setters of the renderer. -/
def Op.presents : Op → Prop
  | .swap_buffers_with_damage env => env.valid
  | .flip_event => True
  | .dispatch _ _ => True
  | .set_layout _ _ _ _ _ => True
  | .set_ignore_crtc _ _ => True
  | .queue_modes_reset => True
  | .flush => True
  | .display_setup => True
  | .onscreen_init _ _ _ => False
  | .onscreen_deinit => False
  | .free_bo => False

/-- A freshly initialised onscreen: the state in which
`_cogl_winsys_onscreen_init` has just returned `TRUE`, no flip request
having been allocated before. -/
def FreshOnscreen (s : State) : Prop :=
  ∃ (s0 : State) (egl_context : Bool) (surface egl_surface : Nat),
    s0.flip = none ∧
    _cogl_winsys_onscreen_init egl_context surface egl_surface s0 = (true, s)

/-- The next slot and the flip request go together: without a request the
next slot is empty, and a request that is allocated waits for at least one
acknowledgement of a frame that sits in the next slot. -/
def SwapChainInv (s : State) : Prop :=
  (s.flip = none → s.onscreen.kms.next_fb_id = 0 ∧ s.onscreen.kms.next_bo = 0) ∧
  (∀ flip, s.flip = some flip → 1 ≤ flip.pending ∧ s.onscreen.kms.next_fb_id ≠ 0)

/-- A state before any onscreen is initialised: the layout is known
(640x480, two controllers) and the first mode-set is due. -/
def examplePreInit : State :=
  { renderer_native :=
      { exampleRenderer [exampleCrtc 1, exampleCrtc 2] with
        onscreen := false, pending_set_crtc := true }
    onscreen :=
      { id := 1, winsys := false, egl_surface := 0, kms := CoglOnscreenKMS.zero,
        pending_frame_infos := [100, 101] }
    fbs_before := []
    fbs_after := []
    flip := none
    draw_buffer_bind := false
    trace := [] }

/-- The onscreen of `examplePreInit` once initialised with pool `5` and
rendering surface `6`. -/
def exampleFresh : State :=
  (_cogl_winsys_onscreen_init true 5 6 examplePreInit).2

/-- Whether a call unregisters a framebuffer or releases a buffer. -/
def Call.releasesSlot : Call → Bool
  | .drmModeRmFB _ => true
  | .gbm_surface_release_buffer _ _ => true
  | _ => false

/-- The request and the state at the end of the fan-out of a submission
whose framebuffer was registered as `fb_id`: the submission up to the test
`if (flip->pending == 0)`. -/
def swap_fan_out (env : SwapEnv) (fb_id : Nat) (s : State) : CoglFlipKMS × State :=
  let s := swap_prepare s
  let s := s.call (Call.gbm_surface_lock_front_buffer s.onscreen.kms.surface)
  let s := s.setKms { s.onscreen.kms with next_bo := env.front_bo }
  let s := s.call (Call.drmModeAddFB s.renderer_native.width s.renderer_native.height
    s.onscreen.kms.next_bo)
  let s := s.setKms { s.onscreen.kms with next_fb_id := fb_id }
  let s := swap_set_crtc s
  flip_all_crtcs env.page_flip ⟨s.onscreen.id, 0⟩ s.onscreen.kms.next_fb_id s

/-- A state in which a replacement pool (`7`, rendering surface `8`) waits
to be installed while frame `10` is on screen. -/
def examplePendingPool : State :=
  { exampleState [exampleCrtc 1] with
    onscreen :=
      { id := 1, winsys := true, egl_surface := 6
        kms := { surface := 5, current_fb_id := 10, next_fb_id := 0, current_bo := 20,
                 next_bo := 0, pending_swap_notify := false, pending_egl_surface := 8,
                 pending_surface := 7 }
        pending_frame_infos := [100] } }

/-- Whether a call is a `drmModePageFlip`. -/
def Call.isPageFlip : Call → Bool
  | .drmModePageFlip _ _ => true
  | _ => false

/-- A call that neither registers the idle closure nor asks for a page
flip. -/
def Call.quiet (c : Call) : Prop :=
  c ≠ Call.add_idle ∧ c.isPageFlip = false

/-- The degraded regime: page flips are unsupported, no flip is pending and
no request is allocated. -/
def Degraded (s : State) : Prop :=
  s.renderer_native.page_flips_not_supported = true ∧
  s.onscreen.kms.next_fb_id = 0 ∧ s.flip = none

/-- The submission `env` of a frame registered as `fb_id`, made in state `s`,
goes the degraded way: the fan-out leaves `flip->pending` at `1`; the call
comes back with no request allocated (no kernel event is awaited), the new
frame in the current slot, the next slot empty, the onscreen marked and
the idle closure registered, the flag set; the call registered the closure
once if it was not registered and not at all otherwise; and when the flag
was already set on entry the call asked for no page flip. -/
def ResolvesInCall (env : SwapEnv) (fb_id : Nat) (s : State) : Prop :=
  (swap_fan_out env fb_id s).1.pending = 1 ∧
  ∃ s' T, _cogl_winsys_onscreen_swap_buffers_with_damage env s = some s' ∧
    s'.flip = none ∧
    s'.onscreen.kms.current_fb_id = fb_id ∧
    s'.onscreen.kms.current_bo = env.front_bo ∧
    s'.onscreen.kms.next_fb_id = 0 ∧
    s'.onscreen.kms.next_bo = 0 ∧
    s'.onscreen.kms.pending_swap_notify = true ∧
    s'.renderer_native.swap_notify_idle = true ∧
    s'.renderer_native.page_flips_not_supported = true ∧
    s'.trace = s.trace ++ T ∧
    List.count Call.add_idle T = (if s.renderer_native.swap_notify_idle then 0 else 1) ∧
    (s.renderer_native.page_flips_not_supported = true →
      T.filter Call.isPageFlip = [])

/-- The state `exampleState` with page flips marked unsupported. -/
def exampleUnsupported : State :=
  { exampleState [exampleCrtc 1, exampleCrtc 2] with
    renderer_native :=
      { exampleRenderer [exampleCrtc 1, exampleCrtc 2] with
        page_flips_not_supported := true } }

/-- The callbacks the notification scheduler owes a framebuffer: for an
onscreen that is marked, one frame-sync and then one frame-complete for the
frame info at the head of its queue (followed by the unref of that info);
nothing for an onscreen that is not marked and nothing for a framebuffer
that is not an onscreen. -/
def notifyCalls (fb : CoglFramebuffer) : List Call :=
  if fb.type = CoglFramebufferType.ONSCREEN ∧ fb.onscreen.kms.pending_swap_notify = true then
    [Call.notify_frame_sync fb.onscreen.id fb.onscreen.pending_frame_infos.head?,
     Call.notify_complete fb.onscreen.id fb.onscreen.pending_frame_infos.head?,
     Call.cogl_object_unref_info fb.onscreen.pending_frame_infos.head?]
  else []

/-- Whether a call is a frame-complete callback for the onscreen `id`. -/
def Call.completesFor (id : Nat) : Call → Bool
  | .notify_complete onscreen _ => onscreen == id
  | _ => false

/-- The other framebuffers of the context are other objects than the
onscreen of the state. -/
def OthersDistinct (s : State) : Prop :=
  ∀ fb ∈ s.fbs_before ++ s.fbs_after,
    fb.type = CoglFramebufferType.ONSCREEN → fb.onscreen.id ≠ s.onscreen.id

/-- A context with an offscreen framebuffer, the onscreen of `exampleState`
and a second onscreen that is marked for notification. -/
def exampleContext : State :=
  { exampleState [exampleCrtc 1] with
    fbs_before := [⟨CoglFramebufferType.OFFSCREEN,
      { id := 2, winsys := false, egl_surface := 0, kms := CoglOnscreenKMS.zero,
        pending_frame_infos := [] }⟩]
    fbs_after := [⟨CoglFramebufferType.ONSCREEN,
      { id := 3, winsys := true, egl_surface := 9,
        kms := { CoglOnscreenKMS.zero with pending_swap_notify := true },
        pending_frame_infos := [300] }⟩] }

/-- Whether a call is a `drmModeSetCrtc`. -/
def Call.isSetCrtc : Call → Bool
  | .drmModeSetCrtc _ _ _ _ _ _ _ => true
  | _ => false

/-- The answers of a kernel that rejects the framebuffer of buffer `21`. -/
def exampleEnvRejected : SwapEnv :=
  { events := [], front_bo := 21, add_fb := none, page_flip := fun _ => 0 }

/-- The state `exampleState` after a submission that its one controller
accepted: frame `11` (buffer `21`) waits in the next slot for one event. -/
def exampleMidFlight : State :=
  swap_body exampleEnv (exampleState [exampleCrtc 1])

/-- The `drmModePageFlip` calls of the fan-out of a frame registered as
`fb_id`, for a renderer and the answers `page_flip`. -/
def fanOutCalls (page_flip : Nat → Int) (fb_id : Nat) (r : MetaRendererNative) :
    List Call :=
  (flip_loop page_flip fb_id 0 r.crtcs ⟨0, false, r.page_flips_not_supported, []⟩).calls

/-- The state `exampleState` with two controllers, the second of which is
ignored, and the mode-set due. -/
def examplePendingSetCrtc : State :=
  { exampleState [exampleCrtc 1, { exampleCrtc 2 with ignore := true }] with
    renderer_native :=
      { exampleRenderer [exampleCrtc 1, { exampleCrtc 2 with ignore := true }] with
        pending_set_crtc := true } }

/-- The buffer-slot invariant: a slot that holds a framebuffer id holds a
buffer. -/
def BufferSlotInv (s : State) : Prop :=
  (s.onscreen.kms.current_fb_id ≠ 0 → s.onscreen.kms.current_bo ≠ 0) ∧
  (s.onscreen.kms.next_fb_id ≠ 0 → s.onscreen.kms.next_bo ≠ 0)

/-- What is assumed of the outside world in one operation: in a submission,
`gbm_surface_lock_front_buffer` returns a buffer and a successful
`drmModeAddFB` hands out a framebuffer id that is not `0`. -/
def Op.kernelOk : Op → Prop
  | .swap_buffers_with_damage env => env.front_bo ≠ 0 ∧ env.add_fb ≠ some 0
  | _ => True

/-- The invariant of the flag: once page flips are unsupported no flip is
pending. -/
def FlagInv (s : State) : Prop :=
  s.renderer_native.page_flips_not_supported = true → s.onscreen.kms.next_fb_id = 0

/-- The state `exampleState` with frame `11` (buffer `21`) waiting in the
next slot. -/
def exampleFlipPending : State :=
  { exampleState [exampleCrtc 1] with
    onscreen :=
      { id := 1, winsys := true, egl_surface := 6
        kms := { surface := 5, current_fb_id := 10, next_fb_id := 11, current_bo := 20,
                 next_bo := 21, pending_swap_notify := false, pending_egl_surface := 0,
                 pending_surface := 0 }
        pending_frame_infos := [100] }
    flip := some ⟨1, 1⟩ }

/-! ## Properties -/

/-! ### The fan-out loop -/

theorem active_iff (crtc : CoglKmsCrtc) :
    crtc.active = true ↔ ¬ (crtc.count = 0 ∨ crtc.ignore = true) := by
  simp [CoglKmsCrtc.active]

theorem acceptCount_le_activeCount (page_flip : Nat → Int) (i : Nat)
    (l : List CoglKmsCrtc) : acceptCount page_flip i l ≤ activeCount l := by
  induction l generalizing i with
  | nil => simp [acceptCount, activeCount]
  | cons crtc l ih =>
    have h := ih (i + 1)
    simp only [acceptCount, activeCount, List.filter_cons] at h ⊢
    by_cases ha : crtc.active = true
    · simp only [ha, true_and, if_true, List.length_cons]
      split <;> omega
    · simp only [ha, false_and, if_false]
      simp at h ⊢
      exact h

/-- The loop with page flips supported and no answer other than `0` and
`-EACCES`: every active controller is asked, the accepted flips are counted
and the flag stays clear. -/
theorem flip_loop_soft (page_flip : Nat → Int) (fb_id : Nat) (i : Nat)
    (l : List CoglKmsCrtc) (st : FlipLoop)
    (hflag : st.page_flips_not_supported = false)
    (hok : noHardFailure page_flip i l) :
    flip_loop page_flip fb_id i l st =
      { pending := st.pending + acceptCount page_flip i l
        needs_flip := st.needs_flip || decide (0 < activeCount l)
        page_flips_not_supported := false
        calls := st.calls ++ flipCalls fb_id l } := by
  induction l generalizing i st with
  | nil =>
    cases st
    simp_all [flip_loop, acceptCount, activeCount, flipCalls]
  | cons crtc l ih =>
    obtain ⟨h1, h2⟩ := hok
    by_cases ha : crtc.active = true
    · have hna : ¬ (crtc.count = 0 ∨ crtc.ignore = true) := (active_iff crtc).1 ha
      rcases h1 ha with h0 | he
      · rw [flip_loop, if_neg hna]
        simp only [hflag, Bool.not_false, if_true, h0, ne_eq, not_true_eq_false,
          false_and, if_false]
        rw [ih (i + 1) _ rfl h2]
        simp [acceptCount, activeCount, flipCalls, ha, h0, List.filter_cons]
        omega
      · have hne : page_flip i ≠ 0 := by rw [he]; decide
        rw [flip_loop, if_neg hna]
        simp only [hflag, Bool.not_false, if_true, he, ne_eq, not_true_eq_false,
          and_false, if_false]
        rw [if_neg (by decide)]
        rw [ih (i + 1) _ rfl h2]
        simp [acceptCount, activeCount, flipCalls, ha, hne, List.filter_cons]
    · have hna : crtc.count = 0 ∨ crtc.ignore = true := by
        by_contra h
        exact ha ((active_iff crtc).2 h)
      rw [flip_loop, if_pos hna, ih (i + 1) st hflag h2]
      simp [acceptCount, activeCount, flipCalls, ha, List.filter_cons]

theorem hardFailure_none_iff (page_flip : Nat → Int) (i : Nat) (l : List CoglKmsCrtc) :
    hardFailure page_flip i l = none ↔ noHardFailure page_flip i l := by
  induction l generalizing i with
  | nil => simp [hardFailure, noHardFailure]
  | cons crtc l ih =>
    simp only [hardFailure, noHardFailure]
    by_cases h : crtc.active = true ∧ page_flip i ≠ 0 ∧ page_flip i ≠ -EACCES
    · rw [if_pos h]
      constructor
      · intro h'; cases h'
      · rintro ⟨h1, _⟩
        rcases h1 h.1 with h0 | he
        · exact absurd h0 h.2.1
        · exact absurd he h.2.2
    · rw [if_neg h]
      simp only [Option.map_eq_none', ih]
      constructor
      · intro h2
        refine ⟨fun ha => ?_, h2⟩
        by_contra hc
        push_neg at hc
        exact h ⟨ha, hc.1, hc.2⟩
      · exact fun h2 => h2.2

/-- What `hardFailure` finds: the controller at that place is active and its
answer is a hard failure, and no active controller before it has one. -/
theorem hardFailure_some (page_flip : Nat → Int) (i : Nat) (l : List CoglKmsCrtc)
    (k : Nat) (h : hardFailure page_flip i l = some k) :
    (∃ crtc, l[k]? = some crtc ∧ crtc.active = true ∧ page_flip (i + k) ≠ 0 ∧
      page_flip (i + k) ≠ -EACCES) ∧
    noHardFailure page_flip i (l.take k) := by
  induction l generalizing i k with
  | nil => simp [hardFailure] at h
  | cons crtc l ih =>
    simp only [hardFailure] at h
    by_cases hc : crtc.active = true ∧ page_flip i ≠ 0 ∧ page_flip i ≠ -EACCES
    · rw [if_pos hc] at h
      cases h
      exact ⟨⟨crtc, by simp, hc.1, by simpa using hc.2.1, by simpa using hc.2.2⟩,
        by simp [noHardFailure]⟩
    · rw [if_neg hc] at h
      simp only [Option.map_eq_some'] at h
      obtain ⟨k', hk', rfl⟩ := h
      obtain ⟨⟨c, hc1, hc2, hc3, hc4⟩, hpre⟩ := ih (i + 1) k' hk'
      refine ⟨⟨c, by simpa using hc1, hc2, ?_, ?_⟩, ?_⟩
      · rwa [show i + (k' + 1) = i + 1 + k' by omega]
      · rwa [show i + (k' + 1) = i + 1 + k' by omega]
      · simp only [List.take_succ_cons, noHardFailure]
        refine ⟨fun ha => ?_, hpre⟩
        by_contra hcc
        push_neg at hcc
        exact hc ⟨ha, hcc.1, hcc.2⟩

theorem noHardFailure_getElem (page_flip : Nat → Int) (i : Nat) (l : List CoglKmsCrtc)
    (h : noHardFailure page_flip i l) (k : Nat) (crtc : CoglKmsCrtc)
    (hget : l[k]? = some crtc) (hact : crtc.active = true)
    (h0 : page_flip (i + k) ≠ 0) (he : page_flip (i + k) ≠ -EACCES) : False := by
  induction l generalizing i k with
  | nil => simp at hget
  | cons c l ih =>
    obtain ⟨h1, h2⟩ := h
    cases k with
    | zero =>
      simp only [List.getElem?_cons_zero, Option.some.injEq] at hget
      subst hget
      rcases h1 hact with h | h
      · exact h0 h
      · exact he h
    | succ k =>
      simp only [List.getElem?_cons_succ] at hget
      exact ih (i + 1) h2 k hget (by rwa [show i + 1 + k = i + (k + 1) by omega])
        (by rwa [show i + 1 + k = i + (k + 1) by omega])

/-- The loop with page flips supported and a hard failure at place `k`: the
active controllers up to and including that one are asked, none after it,
and the flag is set. -/
theorem flip_loop_hard (page_flip : Nat → Int) (fb_id : Nat) (i : Nat)
    (l : List CoglKmsCrtc) (st : FlipLoop) (k : Nat)
    (hflag : st.page_flips_not_supported = false)
    (hk : hardFailure page_flip i l = some k) :
    flip_loop page_flip fb_id i l st =
      { pending := st.pending + acceptCount page_flip i (l.take k)
        needs_flip := true
        page_flips_not_supported := true
        calls := st.calls ++ flipCalls fb_id (l.take (k + 1)) } := by
  induction l generalizing i st k with
  | nil => simp [hardFailure] at hk
  | cons crtc l ih =>
    simp only [hardFailure] at hk
    by_cases hc : crtc.active = true ∧ page_flip i ≠ 0 ∧ page_flip i ≠ -EACCES
    · rw [if_pos hc] at hk
      cases hk
      have hna : ¬ (crtc.count = 0 ∨ crtc.ignore = true) := (active_iff crtc).1 hc.1
      rw [flip_loop, if_neg hna]
      simp only [hflag, Bool.not_false, if_true]
      rw [if_pos ⟨hc.2.1, hc.2.2⟩]
      simp [acceptCount, flipCalls, hc.1, List.filter_cons]
    · rw [if_neg hc] at hk
      simp only [Option.map_eq_some'] at hk
      obtain ⟨k', hk', rfl⟩ := hk
      by_cases ha : crtc.active = true
      · have hna : ¬ (crtc.count = 0 ∨ crtc.ignore = true) := (active_iff crtc).1 ha
        have hsoft : ¬ (page_flip i ≠ 0 ∧ page_flip i ≠ -EACCES) := fun h => hc ⟨ha, h⟩
        rw [flip_loop, if_neg hna]
        simp only [hflag, Bool.not_false, if_true]
        rw [if_neg hsoft]
        by_cases h0 : page_flip i = 0
        · rw [if_pos h0, ih (i + 1) _ k' rfl hk']
          simp [acceptCount, flipCalls, ha, h0, List.filter_cons]
          omega
        · rw [if_neg h0, ih (i + 1) _ k' rfl hk']
          simp [acceptCount, flipCalls, ha, h0, List.filter_cons]
      · have hna : crtc.count = 0 ∨ crtc.ignore = true := by
          by_contra h
          exact ha ((active_iff crtc).2 h)
        rw [flip_loop, if_pos hna, ih (i + 1) st k' hflag hk']
        simp [acceptCount, flipCalls, ha, List.filter_cons]

/-- The loop entered with page flips unsupported: no controller is asked
and every active controller is counted. -/
theorem flip_loop_unsupported (page_flip : Nat → Int) (fb_id : Nat) (i : Nat)
    (l : List CoglKmsCrtc) (st : FlipLoop)
    (hflag : st.page_flips_not_supported = true) :
    flip_loop page_flip fb_id i l st =
      { pending := st.pending + activeCount l
        needs_flip := st.needs_flip || decide (0 < activeCount l)
        page_flips_not_supported := true
        calls := st.calls } := by
  induction l generalizing i st with
  | nil =>
    cases st
    simp_all [flip_loop, activeCount]
  | cons crtc l ih =>
    by_cases ha : crtc.active = true
    · have hna : ¬ (crtc.count = 0 ∨ crtc.ignore = true) := (active_iff crtc).1 ha
      rw [flip_loop, if_neg hna]
      simp only [hflag, Bool.not_true, Bool.false_eq_true, if_false]
      rw [ih (i + 1) _ rfl]
      simp [activeCount, ha, List.filter_cons]
      omega
    · have hna : crtc.count = 0 ∨ crtc.ignore = true := by
        by_contra h
        exact ha ((active_iff crtc).2 h)
      rw [flip_loop, if_pos hna, ih (i + 1) st hflag]
      simp [activeCount, ha, List.filter_cons]

/-! ### The building blocks in closed form -/

theorem flip_all_crtcs_soft (page_flip : Nat → Int) (flip : CoglFlipKMS) (fb_id : Nat)
    (s : State) (hflag : s.renderer_native.page_flips_not_supported = false)
    (hok : noHardFailure page_flip 0 s.renderer_native.crtcs) :
    flip_all_crtcs page_flip flip fb_id s =
      ({ flip with pending := flip.pending + acceptCount page_flip 0 s.renderer_native.crtcs },
       { s with trace := s.trace ++ flipCalls fb_id s.renderer_native.crtcs }) := by
  unfold flip_all_crtcs
  rw [flip_loop_soft page_flip fb_id 0 _ _ hflag hok]
  obtain ⟨r, o, b, a, f, d, t⟩ := s
  obtain ⟨r1, r2, r3, r4, r5, r6, r7, r8, r9, r10⟩ := r
  simp only at hflag
  subst hflag
  simp [State.setRenderer]

theorem flip_all_crtcs_hard (page_flip : Nat → Int) (flip : CoglFlipKMS) (fb_id : Nat)
    (s : State) (k : Nat) (hflag : s.renderer_native.page_flips_not_supported = false)
    (hk : hardFailure page_flip 0 s.renderer_native.crtcs = some k) :
    flip_all_crtcs page_flip flip fb_id s =
      ({ flip with pending := 1 },
       { s with
         trace := s.trace ++ flipCalls fb_id (s.renderer_native.crtcs.take (k + 1))
         renderer_native :=
           { s.renderer_native with page_flips_not_supported := true } }) := by
  unfold flip_all_crtcs
  rw [flip_loop_hard page_flip fb_id 0 _ _ k hflag hk]
  simp [State.setRenderer]

theorem flip_all_crtcs_unsupported (page_flip : Nat → Int) (flip : CoglFlipKMS)
    (fb_id : Nat) (s : State)
    (hflag : s.renderer_native.page_flips_not_supported = true) :
    flip_all_crtcs page_flip flip fb_id s =
      ({ flip with pending :=
          if 0 < activeCount s.renderer_native.crtcs then 1 else flip.pending }, s) := by
  unfold flip_all_crtcs
  rw [flip_loop_unsupported page_flip fb_id 0 _ _ hflag]
  obtain ⟨r, o, b, a, f, d, t⟩ := s
  obtain ⟨r1, r2, r3, r4, r5, r6, r7, r8, r9, r10⟩ := r
  simp only at hflag
  subst hflag
  by_cases h : 0 < activeCount r5
  · simp [State.setRenderer, h]
  · have h0 : activeCount r5 = 0 := by omega
    simp [State.setRenderer, h0]

theorem setup_crtc_modes_eq (fb_id : Nat) (s : State) :
    setup_crtc_modes fb_id s =
      { s with trace := s.trace ++ setCrtcCalls fb_id s.renderer_native.crtcs } := by
  unfold setup_crtc_modes setCrtcCalls
  generalize s.renderer_native.crtcs = l
  induction l generalizing s with
  | nil => simp
  | cons crtc l ih =>
    rw [List.foldl_cons, ih]
    simp [State.call]

theorem free_current_bo_eq (s : State) :
    free_current_bo s =
      { s with
        onscreen := { s.onscreen with
          kms := { s.onscreen.kms with current_fb_id := 0, current_bo := 0 } }
        trace := s.trace ++ freeCalls s.onscreen.kms } := by
  obtain ⟨r, ⟨oid, ow, oe, ⟨k1, k2, k3, k4, k5, k6, k7, k8⟩, oq⟩, b, a, f, d, t⟩ := s
  by_cases h1 : k2 = 0 <;> by_cases h2 : k4 = 0 <;>
    simp [free_current_bo, freeCalls, State.call, State.setKms, h1, h2]

theorem queue_swap_notify_for_onscreen_eq (s : State) :
    queue_swap_notify_for_onscreen s =
      { s with
        renderer_native := { s.renderer_native with swap_notify_idle := true }
        onscreen := { s.onscreen with
          kms := { s.onscreen.kms with pending_swap_notify := true } }
        trace := s.trace ++ queueCalls s.renderer_native } := by
  obtain ⟨r, o, b, a, f, d, t⟩ := s
  obtain ⟨r1, r2, r3, r4, r5, r6, r7, r8, r9, r10⟩ := r
  cases r3 <;>
    simp [queue_swap_notify_for_onscreen, queueCalls, State.call, State.setKms,
      State.setRenderer]

/-- The last acknowledgement: `process_flip` on a request whose counter is
`1`. -/
theorem process_flip_last (flip : CoglFlipKMS) (s : State) (h : flip.pending = 1) :
    process_flip flip s =
      { s with
        renderer_native := { s.renderer_native with swap_notify_idle := true }
        onscreen := { s.onscreen with
          kms := { s.onscreen.kms with
            pending_swap_notify := true
            current_fb_id := s.onscreen.kms.next_fb_id
            next_fb_id := 0
            current_bo := s.onscreen.kms.next_bo
            next_bo := 0 } }
        flip := none
        trace := s.trace ++ queueCalls s.renderer_native ++ freeCalls s.onscreen.kms ++
          [Call.cogl_object_unref flip.onscreen] } := by
  unfold process_flip
  simp only [h, sub_self, if_true]
  rw [queue_swap_notify_for_onscreen_eq, free_current_bo_eq]
  simp [State.call, State.setKms, freeCalls]

/-- An acknowledgement that is not the last one only decrements the counter. -/
theorem process_flip_more (flip : CoglFlipKMS) (s : State) (h : flip.pending ≠ 1) :
    process_flip flip s = { s with flip := some { flip with pending := flip.pending - 1 } } := by
  unfold process_flip
  have : flip.pending - 1 ≠ 0 := by omega
  simp [this]

/-- The fan-out touches nothing but the trace and the flag. -/
theorem flip_all_crtcs_frame (page_flip : Nat → Int) (flip : CoglFlipKMS) (fb_id : Nat)
    (s : State) :
    (flip_all_crtcs page_flip flip fb_id s).2 =
      { s with
        trace := s.trace ++ (flip_loop page_flip fb_id 0 s.renderer_native.crtcs
          ⟨flip.pending, false, s.renderer_native.page_flips_not_supported, []⟩).calls
        renderer_native := { s.renderer_native with
          page_flips_not_supported :=
            (flip_all_crtcs page_flip flip fb_id s).2.renderer_native.page_flips_not_supported } } := by
  unfold flip_all_crtcs
  simp only [State.setRenderer]
  split <;> rfl

theorem flip_all_crtcs_onscreen (page_flip : Nat → Int) (flip : CoglFlipKMS) (fb_id : Nat)
    (s : State) : (flip_all_crtcs page_flip flip fb_id s).1.onscreen = flip.onscreen := by
  unfold flip_all_crtcs
  dsimp only
  split <;> rfl

/-- The three ways a fan-out on a fresh request can end: flag clear and the
accepted flips counted; flag set and the counter forced to `1`; flag set on
entry with no active controller and the counter left at `0`. -/
theorem flip_all_crtcs_cases (page_flip : Nat → Int) (flip : CoglFlipKMS) (fb_id : Nat)
    (s : State) (hfresh : flip.pending = 0) :
    ((flip_all_crtcs page_flip flip fb_id s).2.renderer_native.page_flips_not_supported = false ∧
      s.renderer_native.page_flips_not_supported = false ∧
      noHardFailure page_flip 0 s.renderer_native.crtcs ∧
      (flip_all_crtcs page_flip flip fb_id s).1.pending =
        acceptCount page_flip 0 s.renderer_native.crtcs) ∨
    ((flip_all_crtcs page_flip flip fb_id s).2.renderer_native.page_flips_not_supported = true ∧
      (flip_all_crtcs page_flip flip fb_id s).1.pending = 1 ∧
      0 < activeCount s.renderer_native.crtcs ∧
      (s.renderer_native.page_flips_not_supported = true ∨
        ¬ noHardFailure page_flip 0 s.renderer_native.crtcs)) ∨
    ((flip_all_crtcs page_flip flip fb_id s).2.renderer_native.page_flips_not_supported = true ∧
      (flip_all_crtcs page_flip flip fb_id s).1.pending = 0 ∧
      activeCount s.renderer_native.crtcs = 0 ∧
      s.renderer_native.page_flips_not_supported = true) := by
  cases hflag : s.renderer_native.page_flips_not_supported with
  | true =>
    rw [flip_all_crtcs_unsupported page_flip flip fb_id s hflag]
    by_cases h : 0 < activeCount s.renderer_native.crtcs
    · right; left
      simp [hflag, h]
    · right; right
      have h0 : activeCount s.renderer_native.crtcs = 0 := by omega
      simp [hflag, h0, hfresh]
  | false =>
    cases hk : hardFailure page_flip 0 s.renderer_native.crtcs with
    | none =>
      have hok := (hardFailure_none_iff page_flip 0 _).1 hk
      left
      rw [flip_all_crtcs_soft page_flip flip fb_id s hflag hok]
      simp [hflag, hok, hfresh]
    | some k =>
      right; left
      rw [flip_all_crtcs_hard page_flip flip fb_id s k hflag hk]
      obtain ⟨⟨crtc, hget, hact, _, _⟩, _⟩ :=
        hardFailure_some page_flip 0 s.renderer_native.crtcs k hk
      refine ⟨rfl, rfl, ?_, Or.inr ?_⟩
      · have hmem : crtc ∈ s.renderer_native.crtcs.filter CoglKmsCrtc.active :=
          List.mem_filter.2 ⟨List.getElem?_mem hget, hact⟩
        exact List.length_pos_of_mem hmem
      · intro hno
        rw [← hardFailure_none_iff, hk] at hno
        cases hno

theorem swap_resolve_zero (flip : CoglFlipKMS) (s : State) (h : flip.pending = 0) :
    swap_resolve flip s =
      { s with
        renderer_native := { s.renderer_native with swap_notify_idle := true }
        onscreen := { s.onscreen with
          kms := { s.onscreen.kms with
            pending_swap_notify := true, next_fb_id := 0, next_bo := 0 } }
        trace := s.trace ++ [Call.drmModeRmFB s.onscreen.kms.next_fb_id,
          Call.gbm_surface_release_buffer s.onscreen.kms.surface s.onscreen.kms.next_bo] ++
          queueCalls s.renderer_native } := by
  unfold swap_resolve
  rw [if_pos h, queue_swap_notify_for_onscreen_eq]
  simp [State.call, State.setKms, queueCalls]

theorem swap_resolve_sync (flip : CoglFlipKMS) (s : State) (h : flip.pending = 1)
    (hflag : s.renderer_native.page_flips_not_supported = true) :
    swap_resolve flip s =
      { s with
        renderer_native := { s.renderer_native with swap_notify_idle := true }
        onscreen := { s.onscreen with
          kms := { s.onscreen.kms with
            pending_swap_notify := true
            current_fb_id := s.onscreen.kms.next_fb_id
            next_fb_id := 0
            current_bo := s.onscreen.kms.next_bo
            next_bo := 0 } }
        flip := none
        trace := s.trace ++ [Call.cogl_object_ref flip.onscreen] ++
          setCrtcCalls s.onscreen.kms.next_fb_id s.renderer_native.crtcs ++
          queueCalls s.renderer_native ++ freeCalls s.onscreen.kms ++
          [Call.cogl_object_unref flip.onscreen] } := by
  unfold swap_resolve
  have h0 : flip.pending ≠ 0 := by omega
  rw [if_neg h0]
  simp only [State.call, hflag, if_true]
  rw [setup_crtc_modes_eq, process_flip_last _ _ h]
  simp [queueCalls, hflag]

theorem swap_resolve_async (flip : CoglFlipKMS) (s : State) (h : flip.pending ≠ 0)
    (hflag : s.renderer_native.page_flips_not_supported = false) :
    swap_resolve flip s =
      { s with
        flip := some flip
        trace := s.trace ++ [Call.cogl_object_ref flip.onscreen] } := by
  unfold swap_resolve
  rw [if_neg h]
  simp [State.call, hflag]

theorem swap_wait_idle (events : List Nat) (s : State)
    (h : s.onscreen.kms.next_fb_id = 0) : swap_wait events s = some s := by
  cases events <;> simp [swap_wait, h]

/-! ### The submission -/

theorem swap_pending_egl_surface_frame (s : State) :
    (swap_pending_egl_surface s).renderer_native = s.renderer_native ∧
    (swap_pending_egl_surface s).flip = s.flip ∧
    (swap_pending_egl_surface s).onscreen.id = s.onscreen.id ∧
    (swap_pending_egl_surface s).onscreen.kms =
      { s.onscreen.kms with pending_egl_surface := 0 } ∧
    (swap_pending_egl_surface s).fbs_before = s.fbs_before ∧
    (swap_pending_egl_surface s).fbs_after = s.fbs_after := by
  unfold swap_pending_egl_surface
  by_cases h : s.onscreen.kms.pending_egl_surface = 0
  · simp [h]
    rw [← h]
  · simp [h, State.call, State.setKms]

theorem swap_pending_surface_frame (s : State) :
    (swap_pending_surface s).renderer_native = s.renderer_native ∧
    (swap_pending_surface s).flip = s.flip ∧
    (swap_pending_surface s).onscreen.id = s.onscreen.id ∧
    (swap_pending_surface s).onscreen.kms.next_fb_id = s.onscreen.kms.next_fb_id ∧
    (swap_pending_surface s).onscreen.kms.next_bo = s.onscreen.kms.next_bo ∧
    (swap_pending_surface s).onscreen.kms.pending_swap_notify =
      s.onscreen.kms.pending_swap_notify ∧
    (swap_pending_surface s).onscreen.kms.pending_egl_surface =
      s.onscreen.kms.pending_egl_surface ∧
    (swap_pending_surface s).onscreen.kms.pending_surface = 0 ∧
    (swap_pending_surface s).fbs_before = s.fbs_before ∧
    (swap_pending_surface s).fbs_after = s.fbs_after := by
  unfold swap_pending_surface
  by_cases h : s.onscreen.kms.pending_surface = 0
  · simp [h]
  · rw [if_pos h, free_current_bo_eq]
    by_cases h2 : s.onscreen.kms.surface = 0 <;> simp [h2, State.call, State.setKms]

/-- With no pending pool the block leaves the state alone. -/
theorem swap_pending_surface_none (s : State) (h : s.onscreen.kms.pending_surface = 0) :
    swap_pending_surface s = s := by
  simp [swap_pending_surface, h]

/-- What the submission leaves alone before it locks the front buffer. -/
theorem swap_prepare_frame (s : State) :
    (swap_prepare s).renderer_native = s.renderer_native ∧
    (swap_prepare s).flip = s.flip ∧
    (swap_prepare s).onscreen.id = s.onscreen.id ∧
    (swap_prepare s).onscreen.kms.next_fb_id = s.onscreen.kms.next_fb_id ∧
    (swap_prepare s).onscreen.kms.next_bo = s.onscreen.kms.next_bo ∧
    (swap_prepare s).onscreen.kms.pending_swap_notify =
      s.onscreen.kms.pending_swap_notify := by
  unfold swap_prepare
  obtain ⟨a1, a2, a3, a4, a5, a6, a7, a8, _, _⟩ := swap_pending_surface_frame
    ((swap_pending_egl_surface s).call Call.parent_swap_buffers_with_damage)
  obtain ⟨b1, b2, b3, b4, _, _⟩ := swap_pending_egl_surface_frame s
  simp only [a1, a2, a3, a4, a5, a6]
  simp [State.call, b1, b2, b3, b4]

/-- With no pending pool the submission leaves the swap chain alone before
it locks the front buffer, but for the pending rendering surface. -/
theorem swap_prepare_kms_none (s : State) (h : s.onscreen.kms.pending_surface = 0) :
    (swap_prepare s).onscreen.kms = { s.onscreen.kms with pending_egl_surface := 0 } := by
  obtain ⟨_, _, _, b4, _, _⟩ := swap_pending_egl_surface_frame s
  unfold swap_prepare
  rw [swap_pending_surface_none _ (by simp [State.call, b4, h])]
  simp [State.call, b4]

/-- With a pending pool the submission installs it, and empties the current
slot, before it locks the front buffer. -/
theorem swap_prepare_kms_some (s : State) (h : s.onscreen.kms.pending_surface ≠ 0) :
    (swap_prepare s).onscreen.kms =
      { s.onscreen.kms with
        pending_egl_surface := 0, current_fb_id := 0, current_bo := 0,
        surface := s.onscreen.kms.pending_surface, pending_surface := 0 } := by
  obtain ⟨_, _, _, b4, _, _⟩ := swap_pending_egl_surface_frame s
  unfold swap_prepare swap_pending_surface
  rw [if_pos (by simpa [State.call, b4] using h), free_current_bo_eq]
  by_cases hs : s.onscreen.kms.surface = 0 <;> simp [State.call, State.setKms, b4, hs]

theorem swap_set_crtc_eq (s : State) :
    swap_set_crtc s =
      { s with
        renderer_native := { s.renderer_native with pending_set_crtc := false }
        trace := s.trace ++
          (if s.renderer_native.pending_set_crtc then
            setCrtcCalls s.onscreen.kms.next_fb_id s.renderer_native.crtcs else []) } := by
  unfold swap_set_crtc
  obtain ⟨r, o, b, a, f, d, t⟩ := s
  obtain ⟨r1, r2, r3, r4, r5, r6, r7, r8, r9, r10⟩ := r
  cases r8 <;> simp [setup_crtc_modes_eq, State.setRenderer]

/-- A submission resolves within the call as soon as the fan-out leaves the
counter at `0`, or at `1` with the flag set. -/
theorem swap_resolve_resolved (flip : CoglFlipKMS) (s : State)
    (h : flip.pending = 0 ∨
      (flip.pending = 1 ∧ s.renderer_native.page_flips_not_supported = true)) :
    (swap_resolve flip s).onscreen.kms.next_fb_id = 0 ∧
    (swap_resolve flip s).onscreen.kms.next_bo = 0 ∧
    (swap_resolve flip s).onscreen.kms.pending_swap_notify = true ∧
    (swap_resolve flip s).renderer_native.swap_notify_idle = true := by
  rcases h with h | ⟨h, hflag⟩
  · rw [swap_resolve_zero flip s h]
    simp
  · rw [swap_resolve_sync flip s h hflag]
    simp

/-- A fan-out in which no active controller accepts resolves within the
call. -/
theorem swap_present_resolved (page_flip : Nat → Int) (s : State)
    (hK : acceptCount page_flip 0 s.renderer_native.crtcs = 0) :
    (swap_present page_flip s).onscreen.kms.next_fb_id = 0 ∧
    (swap_present page_flip s).onscreen.kms.next_bo = 0 ∧
    (swap_present page_flip s).onscreen.kms.pending_swap_notify = true ∧
    (swap_present page_flip s).renderer_native.swap_notify_idle = true := by
  unfold swap_present
  apply swap_resolve_resolved
  rcases flip_all_crtcs_cases page_flip ⟨(swap_set_crtc s).onscreen.id, 0⟩
    (swap_set_crtc s).onscreen.kms.next_fb_id (swap_set_crtc s) rfl with hA | hB | hC
  · left
    rw [hA.2.2.2]
    simpa [swap_set_crtc_eq] using hK
  · right
    exact ⟨hB.2.1, hB.1⟩
  · left
    exact hC.2.1

/-! ### C1 -/

/-- C1, as the code has it. (1) When page flips are supported on entry and
no active controller gets an answer other than `0` and `-EACCES`, the
fan-out on a fresh request leaves `flip->pending` equal to the number `K` of
active controllers that accepted, which is at most the number `N` of active
controllers. When instead page flips are unsupported on entry or some
active controller gets another answer, and `N ≥ 1`, it leaves
`flip->pending` at `1`. (2) Whatever the answers, when `K = 0` a submission whose
framebuffer was registered and that had no flip to wait for resolves within
the call: `next_fb_id == 0`, `next_bo == NULL` and the swap notification is
queued on return. -/
theorem flip_all_crtcs_pending_eq_accepted (page_flip : Nat → Int) (flip : CoglFlipKMS)
    (fb_id : Nat) (env : SwapEnv) (s : State) :
    (flip.pending = 0 → s.renderer_native.page_flips_not_supported = false →
      noHardFailure page_flip 0 s.renderer_native.crtcs →
      (flip_all_crtcs page_flip flip fb_id s).1.pending =
          acceptCount page_flip 0 s.renderer_native.crtcs ∧
        acceptCount page_flip 0 s.renderer_native.crtcs ≤
          activeCount s.renderer_native.crtcs) ∧
    (flip.pending = 0 →
      (s.renderer_native.page_flips_not_supported = true ∨
        ¬ noHardFailure page_flip 0 s.renderer_native.crtcs) →
      0 < activeCount s.renderer_native.crtcs →
      (flip_all_crtcs page_flip flip fb_id s).1.pending = 1) ∧
    (acceptCount env.page_flip 0 s.renderer_native.crtcs = 0 →
      env.add_fb = some fb_id → s.onscreen.kms.next_fb_id = 0 →
      ∃ s', _cogl_winsys_onscreen_swap_buffers_with_damage env s = some s' ∧
        s'.onscreen.kms.next_fb_id = 0 ∧ s'.onscreen.kms.next_bo = 0 ∧
        s'.onscreen.kms.pending_swap_notify = true ∧
        s'.renderer_native.swap_notify_idle = true) := by
  refine ⟨?_, ?_, ?_⟩
  · intro hfresh hflag hok
    rw [flip_all_crtcs_soft page_flip flip fb_id s hflag hok]
    exact ⟨by simp [hfresh], acceptCount_le_activeCount _ _ _⟩
  · intro hfresh hdeg hact
    rcases flip_all_crtcs_cases page_flip flip fb_id s hfresh with hA | hB | hC
    · rcases hdeg with h | h
      · rw [hA.2.1] at h
        cases h
      · exact absurd hA.2.2.1 h
    · exact hB.2.1
    · omega
  · intro hK hadd hnext
    refine ⟨swap_body env s, by simp [_cogl_winsys_onscreen_swap_buffers_with_damage,
      swap_wait_idle _ _ hnext], ?_⟩
    obtain ⟨p1, _, _, _, _, _⟩ := swap_prepare_frame s
    simp only [swap_body, swap_submit, hadd]
    apply swap_present_resolved
    simpa [State.call, State.setKms, p1] using hK

/-- Three active controllers of which the first two accept the flip and the
third fails with `-EINVAL`: `N = 3`, `K = 2`, and `flip->pending` is `1`
after the fan-out. -/
theorem flip_all_crtcs_pending_counterexample :
    activeCount [exampleCrtc 1, exampleCrtc 2, exampleCrtc 3] = 3 ∧
    acceptCount (fun i => if i = 2 then -22 else 0) 0
      [exampleCrtc 1, exampleCrtc 2, exampleCrtc 3] = 2 ∧
    (exampleState [exampleCrtc 1, exampleCrtc 2, exampleCrtc 3]).renderer_native.page_flips_not_supported
      = false ∧
    (flip_all_crtcs (fun i => if i = 2 then -22 else 0) ⟨1, 0⟩ 11
      (exampleState [exampleCrtc 1, exampleCrtc 2, exampleCrtc 3])).1.pending = 1 := by
  decide

/-- The theorem of C1 at concrete inputs: two active controllers of which the
first accepts and the second answers `-EACCES` (so `K = 1`), and a
submission to two controllers that both answer `-EACCES` (so `K = 0`). -/
theorem flip_all_crtcs_pending_eq_accepted_witness :
    (flip_all_crtcs (fun i => if i = 1 then -13 else 0) ⟨1, 0⟩ 11
      (exampleState [exampleCrtc 1, exampleCrtc 2])).1.pending = 1 ∧
    acceptCount (fun i => if i = 1 then -13 else 0) 0 [exampleCrtc 1, exampleCrtc 2] = 1 ∧
    ∃ s', _cogl_winsys_onscreen_swap_buffers_with_damage
        { exampleEnv with page_flip := fun _ => -13 }
        (exampleState [exampleCrtc 1, exampleCrtc 2]) = some s' ∧
      s'.onscreen.kms.next_fb_id = 0 ∧ s'.onscreen.kms.next_bo = 0 ∧
      s'.onscreen.kms.pending_swap_notify = true ∧
      s'.renderer_native.swap_notify_idle = true := by
  have h := (flip_all_crtcs_pending_eq_accepted (fun i => if i = 1 then -13 else 0) ⟨1, 0⟩ 11
    exampleEnv (exampleState [exampleCrtc 1, exampleCrtc 2])).1 rfl rfl (by decide)
  have h2 := (flip_all_crtcs_pending_eq_accepted (fun _ => 0) ⟨1, 0⟩ 11
    { exampleEnv with page_flip := fun _ => -13 }
    (exampleState [exampleCrtc 1, exampleCrtc 2])).2.2 (by decide) rfl rfl
  exact ⟨by rw [h.1]; decide, by decide, h2⟩

/-! ### C2 -/

theorem noHardFailure_of_all_accept (page_flip : Nat → Int) (i : Nat)
    (l : List CoglKmsCrtc) (h : acceptCount page_flip i l = activeCount l) :
    noHardFailure page_flip i l := by
  induction l generalizing i with
  | nil => trivial
  | cons crtc l ih =>
    have hle := acceptCount_le_activeCount page_flip (i + 1) l
    simp only [acceptCount, activeCount, List.filter_cons] at h hle ⊢
    by_cases ha : crtc.active = true
    · simp only [ha, true_and, if_true, List.length_cons] at h
      by_cases h0 : page_flip i = 0
      · simp only [h0, if_true] at h
        exact ⟨fun _ => Or.inl h0, ih (i + 1) (by simp only [activeCount]; omega)⟩
      · simp only [h0, if_false] at h
        omega
    · simp only [ha, false_and, if_false] at h
      refine ⟨fun h' => absurd h' ha, ih (i + 1) ?_⟩
      simp only [activeCount]
      simp at h
      omega

/-- A submission that at least one controller accepts, with page flips
supported and no hard failure: the request stays allocated with the number
of accepted flips, and the frame waits in the next slot. -/
theorem swap_body_async (env : SwapEnv) (s : State) (fb_id : Nat)
    (hflag : s.renderer_native.page_flips_not_supported = false)
    (hok : noHardFailure env.page_flip 0 s.renderer_native.crtcs)
    (hK : 0 < acceptCount env.page_flip 0 s.renderer_native.crtcs)
    (hadd : env.add_fb = some fb_id) :
    (swap_body env s).flip =
      some ⟨s.onscreen.id, acceptCount env.page_flip 0 s.renderer_native.crtcs⟩ ∧
    (swap_body env s).onscreen.kms.next_fb_id = fb_id ∧
    (swap_body env s).onscreen.kms.next_bo = env.front_bo ∧
    (swap_body env s).onscreen.kms.pending_swap_notify =
      s.onscreen.kms.pending_swap_notify ∧
    (swap_body env s).renderer_native =
      { s.renderer_native with pending_set_crtc := false } ∧
    (swap_body env s).onscreen.id = s.onscreen.id := by
  obtain ⟨p1, p2, p3, p4, p5, p6⟩ := swap_prepare_frame s
  simp only [swap_body, swap_submit, hadd, swap_present]
  rw [swap_set_crtc_eq]
  rw [flip_all_crtcs_soft env.page_flip _ _ _ (by simp [State.call, State.setKms, p1, hflag])
    (by simpa [State.call, State.setKms, p1] using hok)]
  rw [swap_resolve_async _ _ (by simp [State.call, State.setKms, p1]; omega)
    (by simp [State.call, State.setKms, p1, hflag])]
  simp [State.call, State.setKms, p1, p3, p6]

/-- The events of a request that waits for `n + 1` acknowledgements: each of
the first `n` only decrements the counter. -/
theorem page_flip_handler_countdown (s : State) (o : Nat) (n : Nat)
    (h : s.flip = some ⟨o, (n : Int) + 1⟩) (j : Nat) (hj : j ≤ n) :
    page_flip_handler^[j] s = { s with flip := some ⟨o, (n : Int) + 1 - j⟩ } := by
  induction j with
  | zero =>
    obtain ⟨r, os, b, a, f, d, t⟩ := s
    simp only at h
    subst h
    simp
  | succ j ih =>
    rw [Function.iterate_succ_apply', ih (by omega)]
    simp only [page_flip_handler]
    rw [process_flip_more _ _ (by simp only; omega)]
    simp only [State.mk.injEq, Option.some.injEq, CoglFlipKMS.mk.injEq, true_and, and_true]
    push_cast
    ring

/-- The last of the events of a request that waits for `n + 1`
acknowledgements promotes the next slot. -/
theorem page_flip_handler_last (s : State) (o : Nat) (n : Nat)
    (h : s.flip = some ⟨o, (n : Int) + 1⟩) :
    page_flip_handler^[n + 1] s =
      { s with
        renderer_native := { s.renderer_native with swap_notify_idle := true }
        onscreen := { s.onscreen with
          kms := { s.onscreen.kms with
            pending_swap_notify := true
            current_fb_id := s.onscreen.kms.next_fb_id
            next_fb_id := 0
            current_bo := s.onscreen.kms.next_bo
            next_bo := 0 } }
        flip := none
        trace := s.trace ++ queueCalls s.renderer_native ++ freeCalls s.onscreen.kms ++
          [Call.cogl_object_unref o] } := by
  rw [Function.iterate_succ_apply', page_flip_handler_countdown s o n h n (le_refl n)]
  simp only [page_flip_handler]
  rw [process_flip_last _ _ (by simp)]

theorem count_add_idle_freeCalls (kms : CoglOnscreenKMS) :
    List.count Call.add_idle (freeCalls kms) = 0 := by
  unfold freeCalls
  by_cases h1 : kms.current_fb_id = 0 <;> by_cases h2 : kms.current_bo = 0 <;>
    simp [h1, h2, List.count_cons]

theorem count_add_idle_queueCalls (r : MetaRendererNative) :
    List.count Call.add_idle (queueCalls r) = if r.swap_notify_idle then 0 else 1 := by
  unfold queueCalls
  cases r.swap_notify_idle <;> simp

/-- C2. Frame A (buffer `env.front_bo`, registered as `fb_id`) is submitted
with page flips supported to `N ≥ 1` active controllers that all accept.
The submission returns with the request waiting for `N` acknowledgements.
Each of the first `N - 1` events changes nothing but the counter. After the
`N`-th event the onscreen is marked for notification and the idle closure
is registered, the only calls made being the registration of the closure
(when none was registered), the release of the previous current slot and
the unref of the onscreen, so that at most one closure was added; the
current slot holds A and the next slot is empty. This holds with or without
a pending pool replacement. -/
theorem swap_all_accept_then_events (env : SwapEnv) (s : State) (fb_id : Nat) (N : Nat)
    (hN : 1 ≤ N)
    (hact : activeCount s.renderer_native.crtcs = N)
    (hall : acceptCount env.page_flip 0 s.renderer_native.crtcs = N)
    (hflag : s.renderer_native.page_flips_not_supported = false)
    (hadd : env.add_fb = some fb_id)
    (hnext : s.onscreen.kms.next_fb_id = 0) :
    ∃ s1, _cogl_winsys_onscreen_swap_buffers_with_damage env s = some s1 ∧
      (∀ j, j < N →
        page_flip_handler^[j] s1 =
          { s1 with flip := some ⟨s.onscreen.id, (N : Int) - j⟩ }) ∧
      (page_flip_handler^[N] s1).onscreen.kms.pending_swap_notify = true ∧
      (page_flip_handler^[N] s1).renderer_native.swap_notify_idle = true ∧
      (page_flip_handler^[N] s1).trace =
        s1.trace ++ queueCalls s.renderer_native ++ freeCalls s1.onscreen.kms ++
          [Call.cogl_object_unref s.onscreen.id] ∧
      List.count Call.add_idle (page_flip_handler^[N] s1).trace =
        List.count Call.add_idle s1.trace +
          (if s.renderer_native.swap_notify_idle then 0 else 1) ∧
      (page_flip_handler^[N] s1).onscreen.kms.current_fb_id = fb_id ∧
      (page_flip_handler^[N] s1).onscreen.kms.current_bo = env.front_bo ∧
      (page_flip_handler^[N] s1).onscreen.kms.next_fb_id = 0 ∧
      (page_flip_handler^[N] s1).onscreen.kms.next_bo = 0 ∧
      (page_flip_handler^[N] s1).flip = none := by
  have hok : noHardFailure env.page_flip 0 s.renderer_native.crtcs :=
    noHardFailure_of_all_accept _ _ _ (by rw [hall, hact])
  obtain ⟨a1, a2, a3, a4, a5, a6⟩ :=
    swap_body_async env s fb_id hflag hok (by omega) hadd
  obtain ⟨n, rfl⟩ : ∃ n, N = n + 1 := ⟨N - 1, by omega⟩
  have hflip : (swap_body env s).flip = some ⟨s.onscreen.id, (n : Int) + 1⟩ := by
    rw [a1, hall]
    simp
  refine ⟨swap_body env s, by simp [_cogl_winsys_onscreen_swap_buffers_with_damage,
    swap_wait_idle _ _ hnext], ?_, ?_⟩
  · intro j hj
    rw [page_flip_handler_countdown _ _ n hflip j (by omega)]
    simp
  · rw [page_flip_handler_last _ _ n hflip]
    simp only [a2, a3, a5, List.count_append, count_add_idle_freeCalls,
      count_add_idle_queueCalls]
    simp [queueCalls]

/-- The theorem of C2 at a concrete input: three active controllers that all
accept the flip of frame `11` (buffer `21`); after three events the current
slot holds that frame and the next slot is empty. -/
theorem swap_all_accept_then_events_witness :
    ∃ s1, _cogl_winsys_onscreen_swap_buffers_with_damage exampleEnv
        (exampleState [exampleCrtc 1, exampleCrtc 2, exampleCrtc 3]) = some s1 ∧
      s1.flip = some ⟨1, 3⟩ ∧
      (page_flip_handler^[3] s1).onscreen.kms.current_fb_id = 11 ∧
      (page_flip_handler^[3] s1).onscreen.kms.current_bo = 21 ∧
      (page_flip_handler^[3] s1).onscreen.kms.next_fb_id = 0 ∧
      (page_flip_handler^[3] s1).onscreen.kms.next_bo = 0 ∧
      List.count Call.add_idle (page_flip_handler^[3] s1).trace = 1 := by
  obtain ⟨s1, h1, h2, _, _, _, h6, h7, h8, h9, h10, _⟩ :=
    swap_all_accept_then_events exampleEnv
      (exampleState [exampleCrtc 1, exampleCrtc 2, exampleCrtc 3]) 11 3
      (by decide) (by decide) (by decide) rfl rfl rfl
  refine ⟨s1, h1, ?_, h7, h8, h9, h10, ?_⟩
  · have := h2 0 (by decide)
    simp only [Function.iterate_zero, id_eq] at this
    rw [this]
    rfl
  · rw [h6]
    have hs : s1 = swap_body exampleEnv
        (exampleState [exampleCrtc 1, exampleCrtc 2, exampleCrtc 3]) := by
      have h' : _cogl_winsys_onscreen_swap_buffers_with_damage exampleEnv
        (exampleState [exampleCrtc 1, exampleCrtc 2, exampleCrtc 3]) =
          some (swap_body exampleEnv
            (exampleState [exampleCrtc 1, exampleCrtc 2, exampleCrtc 3])) := rfl
      rw [h'] at h1
      exact (Option.some.inj h1).symm
    rw [hs]
    decide

/-! ### The swap-chain invariant -/

theorem SwapChainInv_congr (s s' : State) (h1 : s'.flip = s.flip)
    (h2 : s'.onscreen.kms.next_fb_id = s.onscreen.kms.next_fb_id)
    (h3 : s'.onscreen.kms.next_bo = s.onscreen.kms.next_bo) (h : SwapChainInv s) :
    SwapChainInv s' := by
  unfold SwapChainInv at h ⊢
  rw [h1, h2, h3]
  exact h

theorem SwapChainInv_fresh (s : State) (h : FreshOnscreen s) : SwapChainInv s := by
  obtain ⟨s0, ctx, surface, egl_surface, hflip, hinit⟩ := h
  unfold _cogl_winsys_onscreen_init at hinit
  have key : s.flip = none ∧ s.onscreen.kms.next_fb_id = 0 ∧ s.onscreen.kms.next_bo = 0 := by
    split at hinit
    · simp at hinit
    · split at hinit
      · simp at hinit
      · simp only [State.setRenderer, State.call, State.setKms] at hinit
        split at hinit
        · obtain ⟨_, rfl⟩ := Prod.mk.inj hinit
          simp [hflip, CoglOnscreenKMS.zero]
        · split at hinit
          · simp at hinit
          · split at hinit
            · simp at hinit
            · obtain ⟨_, rfl⟩ := Prod.mk.inj hinit
              simp [hflip, CoglOnscreenKMS.zero]
  exact ⟨fun _ => ⟨key.2.1, key.2.2⟩, fun flip hf => by rw [key.1] at hf; cases hf⟩

theorem SwapChainInv_process_flip (s : State) (flip : CoglFlipKMS)
    (hflip : s.flip = some flip) (h : SwapChainInv s) :
    SwapChainInv (process_flip flip s) := by
  obtain ⟨hp, hn⟩ := h.2 flip hflip
  by_cases h1 : flip.pending = 1
  · rw [process_flip_last _ _ h1]
    exact ⟨fun _ => ⟨rfl, rfl⟩, fun f hf => by cases hf⟩
  · rw [process_flip_more _ _ h1]
    constructor
    · intro hf
      cases hf
    · intro f hf
      simp only [Option.some.injEq] at hf
      subst hf
      constructor
      · show 1 ≤ flip.pending - 1
        omega
      · exact hn

theorem SwapChainInv_page_flip_handler (s : State) (h : SwapChainInv s) :
    SwapChainInv (page_flip_handler s) := by
  unfold page_flip_handler
  split
  · next flip hflip => exact SwapChainInv_process_flip s flip hflip h
  · exact h

theorem SwapChainInv_iterate (n : Nat) (s : State) (h : SwapChainInv s) :
    SwapChainInv (page_flip_handler^[n] s) := by
  induction n with
  | zero => exact h
  | succ n ih =>
    rw [Function.iterate_succ_apply']
    exact SwapChainInv_page_flip_handler _ ih

theorem SwapChainInv_handle_drm_event (n : Nat) (s : State) (h : SwapChainInv s) :
    SwapChainInv (handle_drm_event n s) := by
  unfold handle_drm_event
  split
  · exact h
  · exact SwapChainInv_iterate n _ (SwapChainInv_congr s _ rfl rfl rfl h)

/-- The blocking loop keeps the invariant and, when it comes back, leaves
no flip pending. -/
theorem swap_wait_spec (events : List Nat) (s s1 : State) (h : SwapChainInv s)
    (hw : swap_wait events s = some s1) :
    SwapChainInv s1 ∧ s1.onscreen.kms.next_fb_id = 0 := by
  induction events generalizing s with
  | nil =>
    unfold swap_wait at hw
    split at hw
    · cases hw
    · next hn =>
      cases hw
      exact ⟨h, by simpa using hn⟩
  | cons n events ih =>
    unfold swap_wait at hw
    split at hw
    · exact ih _ (SwapChainInv_handle_drm_event n s h) hw
    · next hn =>
      cases hw
      exact ⟨h, by simpa using hn⟩

theorem SwapChainInv_swap_present (page_flip : Nat → Int) (s : State)
    (hflip : s.flip = none) (hfb : s.onscreen.kms.next_fb_id ≠ 0) :
    SwapChainInv (swap_present page_flip s) := by
  unfold swap_present
  dsimp only
  have hfr := flip_all_crtcs_frame page_flip ⟨(swap_set_crtc s).onscreen.id, 0⟩
    (swap_set_crtc s).onscreen.kms.next_fb_id (swap_set_crtc s)
  generalize hr : flip_all_crtcs page_flip ⟨(swap_set_crtc s).onscreen.id, 0⟩
    (swap_set_crtc s).onscreen.kms.next_fb_id (swap_set_crtc s) = r at hfr
  have hc := flip_all_crtcs_cases page_flip ⟨(swap_set_crtc s).onscreen.id, 0⟩
    (swap_set_crtc s).onscreen.kms.next_fb_id (swap_set_crtc s) rfl
  rw [hr] at hc
  have hrflip : r.2.flip = none := by rw [hfr, swap_set_crtc_eq]; exact hflip
  have hrfb : r.2.onscreen.kms.next_fb_id ≠ 0 := by rw [hfr, swap_set_crtc_eq]; exact hfb
  by_cases h0 : r.1.pending = 0
  · rw [swap_resolve_zero _ _ h0]
    exact ⟨fun _ => ⟨rfl, rfl⟩, fun f hf => by simp only [hrflip] at hf; cases hf⟩
  · rcases hc with hA | hB | hC
    · rw [swap_resolve_async _ _ h0 hA.1]
      constructor
      · intro hf
        cases hf
      · intro f hf
        simp only [Option.some.injEq] at hf
        subst hf
        refine ⟨?_, hrfb⟩
        have := hA.2.2.2
        omega
    · rw [swap_resolve_sync _ _ hB.2.1 hB.1]
      exact ⟨fun _ => ⟨rfl, rfl⟩, fun f hf => by cases hf⟩
    · exact absurd hC.2.1 h0

theorem SwapChainInv_swap_body (env : SwapEnv) (s : State) (henv : env.valid)
    (h : SwapChainInv s) (hn : s.onscreen.kms.next_fb_id = 0) :
    SwapChainInv (swap_body env s) := by
  obtain ⟨p1, p2, p3, p4, p5, p6⟩ := swap_prepare_frame s
  have hflip : s.flip = none := by
    cases hf : s.flip with
    | none => rfl
    | some f => exact absurd hn (h.2 f hf).2
  unfold swap_body swap_submit
  cases hadd : env.add_fb with
  | none =>
    simp only [State.call, State.setKms]
    exact ⟨fun _ => ⟨rfl, rfl⟩, fun f hf => by
      simp only [p2, hflip] at hf
      cases hf⟩
  | some fb_id =>
    have hfb : fb_id ≠ 0 := by
      rintro rfl
      exact henv hadd
    simp only
    apply SwapChainInv_swap_present
    · simp [State.call, State.setKms, p2, hflip]
    · simpa [State.call, State.setKms] using hfb

theorem set_layout_frame (new_surface new_egl_surface : Nat) (width height : Int)
    (crtcs : List CoglKmsCrtc) (s : State) :
    (meta_renderer_native_set_layout new_surface new_egl_surface width height crtcs s).2.flip
      = s.flip ∧
    (meta_renderer_native_set_layout new_surface new_egl_surface width height crtcs
      s).2.onscreen.kms.next_fb_id = s.onscreen.kms.next_fb_id ∧
    (meta_renderer_native_set_layout new_surface new_egl_surface width height crtcs
      s).2.onscreen.kms.next_bo = s.onscreen.kms.next_bo ∧
    (meta_renderer_native_set_layout new_surface new_egl_surface width height crtcs
      s).2.renderer_native.page_flips_not_supported =
        s.renderer_native.page_flips_not_supported := by
  unfold meta_renderer_native_set_layout set_layout_crtcs
  simp only [State.call, State.setKms, State.setRenderer]
  split
  · split
    · simp
    · split
      · simp
      · split <;> split <;> split <;> simp
  · simp

theorem flush_frame (s : State) :
    (flush_pending_swap_notify_idle s).flip = s.flip ∧
    (flush_pending_swap_notify_idle s).onscreen.kms.next_fb_id =
      s.onscreen.kms.next_fb_id ∧
    (flush_pending_swap_notify_idle s).onscreen.kms.next_bo = s.onscreen.kms.next_bo ∧
    (flush_pending_swap_notify_idle s).renderer_native.page_flips_not_supported =
      s.renderer_native.page_flips_not_supported := by
  unfold flush_pending_swap_notify_idle flush_pending_swap_notify_cb
  simp only [State.call, State.setRenderer]
  cases s.onscreen.kms.pending_swap_notify <;> simp

/-- Every operation on a running onscreen keeps the swap-chain invariant. -/
theorem SwapChainInv_run (op : Op) (s s' : State) (hop : op.presents)
    (h : SwapChainInv s) (hrun : op.run s = some s') : SwapChainInv s' := by
  cases op with
  | swap_buffers_with_damage env =>
    simp only [Op.run, _cogl_winsys_onscreen_swap_buffers_with_damage,
      Option.map_eq_some'] at hrun
    obtain ⟨s1, hw, rfl⟩ := hrun
    obtain ⟨h1, hn⟩ := swap_wait_spec _ _ _ h hw
    exact SwapChainInv_swap_body env s1 hop h1 hn
  | flip_event =>
    simp only [Op.run] at hrun
    split at hrun
    · next flip hflip =>
      cases hrun
      exact SwapChainInv_process_flip s flip hflip h
    · cases hrun
  | dispatch revents n =>
    simp only [Op.run, dispatch_kms_events, Option.some.injEq] at hrun
    subst hrun
    split
    · exact h
    · exact SwapChainInv_handle_drm_event n s h
  | set_layout new_surface new_egl_surface width height crtcs =>
    simp only [Op.run, Option.some.injEq] at hrun
    subst hrun
    obtain ⟨a, b, c, _⟩ := set_layout_frame new_surface new_egl_surface width height crtcs s
    exact SwapChainInv_congr s _ a b c h
  | set_ignore_crtc id ignore =>
    simp only [Op.run, Option.some.injEq] at hrun
    subst hrun
    exact SwapChainInv_congr s _ rfl rfl rfl h
  | queue_modes_reset =>
    simp only [Op.run, Option.some.injEq] at hrun
    subst hrun
    exact SwapChainInv_congr s _ rfl rfl rfl h
  | flush =>
    simp only [Op.run, Option.some.injEq] at hrun
    subst hrun
    obtain ⟨a, b, c, _⟩ := flush_frame s
    exact SwapChainInv_congr s _ a b c h
  | display_setup =>
    simp only [Op.run, Option.some.injEq] at hrun
    subst hrun
    exact SwapChainInv_congr s _ rfl rfl rfl h
  | onscreen_init _ _ _ => exact absurd hop (by simp [Op.presents])
  | onscreen_deinit => exact absurd hop (by simp [Op.presents])
  | free_bo => exact absurd hop (by simp [Op.presents])

theorem SwapChainInv_runOps (ops : List Op) (s s' : State)
    (hops : ∀ op ∈ ops, op.presents) (h : SwapChainInv s)
    (hrun : runOps ops s = some s') : SwapChainInv s' := by
  induction ops generalizing s with
  | nil =>
    simp only [runOps, Option.some.injEq] at hrun
    subst hrun
    exact h
  | cons op ops ih =>
    simp only [runOps, Option.bind_eq_some] at hrun
    obtain ⟨s1, h1, h2⟩ := hrun
    exact ih s1 (fun o ho => hops o (List.mem_cons_of_mem _ ho))
      (SwapChainInv_run op s s1 (hops op (List.mem_cons_self _ _)) h h1) h2

/-! ### C3 -/

/-- C3. In every state reached from a freshly initialised onscreen by
submissions, flip events, event dispatches, layout changes, flushes and the
renderer's setters, a further submission that gets past its blocking loop
finds the next slot empty (`next_fb_id == 0` and `next_bo == NULL`) at the
moment it locks the front buffer and stores it: no submitted buffer is
overwritten while its flip is outstanding. The kernel is taken to hand out
non-zero framebuffer ids. -/
theorem next_slot_empty_at_store (ops : List Op) (s0 s s1 : State) (env : SwapEnv)
    (hfresh : FreshOnscreen s0)
    (hops : ∀ op ∈ ops, op.presents)
    (hrun : runOps ops s0 = some s)
    (hwait : swap_wait env.events s = some s1) :
    (swap_prepare s1).onscreen.kms.next_fb_id = 0 ∧
    (swap_prepare s1).onscreen.kms.next_bo = 0 := by
  have hinv := SwapChainInv_runOps ops s0 s hops (SwapChainInv_fresh s0 hfresh) hrun
  obtain ⟨h1, hn⟩ := swap_wait_spec _ _ _ hinv hwait
  obtain ⟨_, _, _, p4, p5, _⟩ := swap_prepare_frame s1
  rw [p4, p5]
  refine ⟨hn, ?_⟩
  cases hf : s1.flip with
  | none => exact (h1.1 hf).2
  | some f => exact absurd hn (h1.2 f hf).2

/-- The theorem of C3 at a concrete run: a fresh onscreen, a first frame
that two controllers accept, and a second submission whose blocking loop
receives the two events. The first frame sat in the next slot (framebuffer
`11`) and the slot is empty when the second frame is stored. -/
theorem next_slot_empty_at_store_witness :
    FreshOnscreen exampleFresh ∧
    runOps [Op.swap_buffers_with_damage exampleEnv] exampleFresh =
      some (swap_body exampleEnv exampleFresh) ∧
    (swap_body exampleEnv exampleFresh).onscreen.kms.next_fb_id = 11 ∧
    ((swap_prepare (handle_drm_event 2 (swap_body exampleEnv exampleFresh))).onscreen.kms.next_fb_id
      = 0 ∧
     (swap_prepare (handle_drm_event 2 (swap_body exampleEnv exampleFresh))).onscreen.kms.next_bo
      = 0) := by
  have hfresh : FreshOnscreen exampleFresh := ⟨examplePreInit, true, 5, 6, rfl, rfl⟩
  have hrun : runOps [Op.swap_buffers_with_damage exampleEnv] exampleFresh =
      some (swap_body exampleEnv exampleFresh) := rfl
  have hwait : swap_wait ({ exampleEnv with events := [2] } : SwapEnv).events
      (swap_body exampleEnv exampleFresh) =
      some (handle_drm_event 2 (swap_body exampleEnv exampleFresh)) := by decide
  exact ⟨hfresh, hrun, by decide,
    next_slot_empty_at_store [Op.swap_buffers_with_damage exampleEnv] exampleFresh _ _
      { exampleEnv with events := [2] } hfresh
      (by simp [Op.presents, SwapEnv.valid, exampleEnv]) hrun hwait⟩

/-! ### C4 -/

theorem swap_body_eq_resolve (env : SwapEnv) (fb_id : Nat) (s : State)
    (hadd : env.add_fb = some fb_id) :
    swap_body env s =
      swap_resolve (swap_fan_out env fb_id s).1 (swap_fan_out env fb_id s).2 := by
  simp only [swap_body, swap_submit, hadd, swap_present, swap_fan_out]

theorem filter_releasesSlot_setCrtcCalls (fb_id : Nat) (l : List CoglKmsCrtc) :
    (setCrtcCalls fb_id l).filter Call.releasesSlot = [] := by
  induction l with
  | nil => rfl
  | cons c l ih =>
    simp only [setCrtcCalls, List.map_cons] at ih ⊢
    rw [List.filter_cons_of_neg (by simp [Call.releasesSlot])]
    exact ih

theorem filter_releasesSlot_flipCalls (fb_id : Nat) (l : List CoglKmsCrtc) :
    (flipCalls fb_id l).filter Call.releasesSlot = [] := by
  unfold flipCalls
  induction l.filter CoglKmsCrtc.active with
  | nil => rfl
  | cons c l ih =>
    rw [List.map_cons, List.filter_cons_of_neg (by simp [Call.releasesSlot])]
    exact ih

theorem filter_releasesSlot_queueCalls (r : MetaRendererNative) :
    (queueCalls r).filter Call.releasesSlot = [] := by
  unfold queueCalls
  cases r.swap_notify_idle <;> simp [Call.releasesSlot]

theorem filter_releasesSlot_freeCalls (kms : CoglOnscreenKMS) :
    (freeCalls kms).filter Call.releasesSlot = freeCalls kms := by
  unfold freeCalls
  by_cases h1 : kms.current_fb_id = 0 <;> by_cases h2 : kms.current_bo = 0 <;>
    simp [h1, h2, Call.releasesSlot]

/-- The `drmModePageFlip` calls of any fan-out release nothing. -/
theorem filter_releasesSlot_flip_loop (page_flip : Nat → Int) (fb_id : Nat) (i : Nat)
    (l : List CoglKmsCrtc) (st : FlipLoop)
    (h : st.calls.filter Call.releasesSlot = []) :
    (flip_loop page_flip fb_id i l st).calls.filter Call.releasesSlot = [] := by
  induction l generalizing i st with
  | nil => simpa [flip_loop] using h
  | cons crtc l ih =>
    rw [flip_loop]
    split
    · exact ih _ _ h
    · dsimp only
      split
      · split
        · simpa [Call.releasesSlot] using h
        · split
          · exact ih _ _ (by simpa [Call.releasesSlot] using h)
          · exact ih _ _ (by simpa [Call.releasesSlot] using h)
      · exact ih _ _ h

/-- With no pending pool, a submission releases nothing before the end of
its fan-out and leaves the current slot and the pool alone. -/
theorem swap_fan_out_frame (env : SwapEnv) (fb_id : Nat) (s : State)
    (hpool : s.onscreen.kms.pending_surface = 0) :
    (∃ T, (swap_fan_out env fb_id s).2.trace = s.trace ++ T ∧
      T.filter Call.releasesSlot = []) ∧
    (swap_fan_out env fb_id s).2.onscreen.kms.current_fb_id =
      s.onscreen.kms.current_fb_id ∧
    (swap_fan_out env fb_id s).2.onscreen.kms.current_bo = s.onscreen.kms.current_bo ∧
    (swap_fan_out env fb_id s).2.onscreen.kms.surface = s.onscreen.kms.surface := by
  obtain ⟨b1, b2, b3, b4, _, _⟩ := swap_pending_egl_surface_frame s
  have hprep : swap_prepare s =
      (swap_pending_egl_surface s).call Call.parent_swap_buffers_with_damage := by
    unfold swap_prepare
    exact swap_pending_surface_none _ (by simp [State.call, b4, hpool])
  have htr : ∃ T0, (swap_pending_egl_surface s).trace = s.trace ++ T0 ∧
      T0.filter Call.releasesSlot = [] := by
    unfold swap_pending_egl_surface
    by_cases h : s.onscreen.kms.pending_egl_surface = 0
    · exact ⟨[], by simp [h]⟩
    · exact ⟨[Call.eglDestroySurface s.onscreen.egl_surface,
        Call.update_size s.renderer_native.width s.renderer_native.height],
        by simp [h, State.call, State.setKms], by simp [Call.releasesSlot]⟩
  obtain ⟨T0, hT0, hT0f⟩ := htr
  unfold swap_fan_out
  rw [hprep, flip_all_crtcs_frame, swap_set_crtc_eq]
  simp only [State.call, State.setKms, b4, hT0]
  refine ⟨⟨_, by simp only [List.append_assoc]; rfl, ?_⟩, ?_⟩
  · simp only [List.filter_append, hT0f, List.nil_append]
    rw [filter_releasesSlot_flip_loop _ _ _ _ _ (by rfl)]
    split
    · simp [Call.releasesSlot, filter_releasesSlot_setCrtcCalls]
    · simp [Call.releasesSlot]
  · simp

/-- What the fan-out of a submission leaves alone, with or without a
pending pool. -/
theorem swap_fan_out_state (env : SwapEnv) (fb_id : Nat) (s : State) :
    (swap_fan_out env fb_id s).2.flip = s.flip ∧
    (swap_fan_out env fb_id s).2.onscreen.id = s.onscreen.id ∧
    (swap_fan_out env fb_id s).2.onscreen.kms.next_fb_id = fb_id ∧
    (swap_fan_out env fb_id s).2.onscreen.kms.next_bo = env.front_bo ∧
    (swap_fan_out env fb_id s).2.renderer_native.crtcs = s.renderer_native.crtcs ∧
    (swap_fan_out env fb_id s).2.renderer_native.swap_notify_idle =
      s.renderer_native.swap_notify_idle ∧
    (swap_fan_out env fb_id s).1.onscreen = s.onscreen.id := by
  obtain ⟨p1, p2, p3, p4, p5, p6⟩ := swap_prepare_frame s
  unfold swap_fan_out
  rw [flip_all_crtcs_frame, swap_set_crtc_eq]
  simp only [State.call, State.setKms, p1, p2, p3]
  refine ⟨trivial, trivial, trivial, trivial, trivial, trivial, ?_⟩
  rw [flip_all_crtcs_onscreen]
  simp [swap_set_crtc_eq, p3]

theorem fan_out_cases_of_renderer (page_flip : Nat → Int) (s2 s : State)
    (h : s2.renderer_native = s.renderer_native) :
    ((flip_all_crtcs page_flip ⟨(swap_set_crtc s2).onscreen.id, 0⟩
        (swap_set_crtc s2).onscreen.kms.next_fb_id
        (swap_set_crtc s2)).2.renderer_native.page_flips_not_supported = false ∧
      s.renderer_native.page_flips_not_supported = false ∧
      noHardFailure page_flip 0 s.renderer_native.crtcs ∧
      (flip_all_crtcs page_flip ⟨(swap_set_crtc s2).onscreen.id, 0⟩
        (swap_set_crtc s2).onscreen.kms.next_fb_id (swap_set_crtc s2)).1.pending =
        acceptCount page_flip 0 s.renderer_native.crtcs) ∨
    ((flip_all_crtcs page_flip ⟨(swap_set_crtc s2).onscreen.id, 0⟩
        (swap_set_crtc s2).onscreen.kms.next_fb_id
        (swap_set_crtc s2)).2.renderer_native.page_flips_not_supported = true ∧
      (flip_all_crtcs page_flip ⟨(swap_set_crtc s2).onscreen.id, 0⟩
        (swap_set_crtc s2).onscreen.kms.next_fb_id (swap_set_crtc s2)).1.pending = 1 ∧
      0 < activeCount s.renderer_native.crtcs ∧
      (s.renderer_native.page_flips_not_supported = true ∨
        ¬ noHardFailure page_flip 0 s.renderer_native.crtcs)) ∨
    ((flip_all_crtcs page_flip ⟨(swap_set_crtc s2).onscreen.id, 0⟩
        (swap_set_crtc s2).onscreen.kms.next_fb_id
        (swap_set_crtc s2)).2.renderer_native.page_flips_not_supported = true ∧
      (flip_all_crtcs page_flip ⟨(swap_set_crtc s2).onscreen.id, 0⟩
        (swap_set_crtc s2).onscreen.kms.next_fb_id (swap_set_crtc s2)).1.pending = 0 ∧
      activeCount s.renderer_native.crtcs = 0 ∧
      s.renderer_native.page_flips_not_supported = true) := by
  have hc := flip_all_crtcs_cases page_flip ⟨(swap_set_crtc s2).onscreen.id, 0⟩
    (swap_set_crtc s2).onscreen.kms.next_fb_id (swap_set_crtc s2) rfl
  have e1 : (swap_set_crtc s2).renderer_native.crtcs = s.renderer_native.crtcs := by
    rw [swap_set_crtc_eq, ← h]
  have e2 : (swap_set_crtc s2).renderer_native.page_flips_not_supported =
      s.renderer_native.page_flips_not_supported := by
    rw [swap_set_crtc_eq, ← h]
  rw [e1, e2] at hc
  exact hc

/-- How the fan-out of a submission ends, in terms of the state the
submission started from. -/
theorem swap_fan_out_cases (env : SwapEnv) (fb_id : Nat) (s : State) :
    ((swap_fan_out env fb_id s).2.renderer_native.page_flips_not_supported = false ∧
      s.renderer_native.page_flips_not_supported = false ∧
      noHardFailure env.page_flip 0 s.renderer_native.crtcs ∧
      (swap_fan_out env fb_id s).1.pending =
        acceptCount env.page_flip 0 s.renderer_native.crtcs) ∨
    ((swap_fan_out env fb_id s).2.renderer_native.page_flips_not_supported = true ∧
      (swap_fan_out env fb_id s).1.pending = 1 ∧
      0 < activeCount s.renderer_native.crtcs ∧
      (s.renderer_native.page_flips_not_supported = true ∨
        ¬ noHardFailure env.page_flip 0 s.renderer_native.crtcs)) ∨
    ((swap_fan_out env fb_id s).2.renderer_native.page_flips_not_supported = true ∧
      (swap_fan_out env fb_id s).1.pending = 0 ∧
      activeCount s.renderer_native.crtcs = 0 ∧
      s.renderer_native.page_flips_not_supported = true) := by
  obtain ⟨p1, _, _, _, _, _⟩ := swap_prepare_frame s
  unfold swap_fan_out
  exact fan_out_cases_of_renderer env.page_flip _ s (by simp [State.call, State.setKms, p1])

theorem freeCalls_congr (k k' : CoglOnscreenKMS) (h1 : k'.current_fb_id = k.current_fb_id)
    (h2 : k'.current_bo = k.current_bo) (h3 : k'.surface = k.surface) :
    freeCalls k' = freeCalls k := by
  unfold freeCalls
  rw [h1, h2, h3]

theorem queueCalls_congr (r r' : MetaRendererNative)
    (h : r'.swap_notify_idle = r.swap_notify_idle) : queueCalls r' = queueCalls r := by
  unfold queueCalls
  rw [h]

/-- The degraded end of a submission is `process_flip` on the state in which
the request was referenced and the mode was set again. -/
theorem swap_resolve_sync_def (flip : CoglFlipKMS) (s : State) (h : flip.pending ≠ 0)
    (hflag : s.renderer_native.page_flips_not_supported = true) :
    swap_resolve flip s =
      process_flip flip
        { s with
          flip := some flip
          trace := s.trace ++ [Call.cogl_object_ref flip.onscreen] ++
            setCrtcCalls s.onscreen.kms.next_fb_id s.renderer_native.crtcs } := by
  unfold swap_resolve
  rw [if_neg h]
  simp only [State.call, hflag, if_true]
  rw [setup_crtc_modes_eq]

/-- The release of the previous current slot for a submission made while no
replacement pool is pending: only the `process_flip` that brings the counter
to zero makes the calls of `freeCalls`. -/
theorem released_at_completion (env : SwapEnv) (fb_id : Nat) (s : State)
    (hpool : s.onscreen.kms.pending_surface = 0)
    (hadd : env.add_fb = some fb_id)
    (hnext : s.onscreen.kms.next_fb_id = 0) :
    (s.renderer_native.page_flips_not_supported = false →
      noHardFailure env.page_flip 0 s.renderer_native.crtcs →
      ∀ n : Nat, acceptCount env.page_flip 0 s.renderer_native.crtcs = n + 1 →
      ∃ s1 T, _cogl_winsys_onscreen_swap_buffers_with_damage env s = some s1 ∧
        s1.trace = s.trace ++ T ∧ T.filter Call.releasesSlot = [] ∧
        (∀ j, j ≤ n → page_flip_handler^[j] s1 =
          { s1 with flip := some ⟨s.onscreen.id, (n : Int) + 1 - j⟩ }) ∧
        (page_flip_handler^[n + 1] s1).flip = none ∧
        (page_flip_handler^[n + 1] s1).trace =
          s1.trace ++ queueCalls s.renderer_native ++ freeCalls s.onscreen.kms ++
            [Call.cogl_object_unref s.onscreen.id]) ∧
    ((s.renderer_native.page_flips_not_supported = true ∨
        ¬ noHardFailure env.page_flip 0 s.renderer_native.crtcs) →
      0 < activeCount s.renderer_native.crtcs →
      ∃ s_mid T flip, flip.pending = 1 ∧
        _cogl_winsys_onscreen_swap_buffers_with_damage env s =
          some (process_flip flip s_mid) ∧
        s_mid.trace = s.trace ++ T ∧ T.filter Call.releasesSlot = [] ∧
        (process_flip flip s_mid).flip = none ∧
        (process_flip flip s_mid).trace =
          s_mid.trace ++ queueCalls s.renderer_native ++ freeCalls s.onscreen.kms ++
            [Call.cogl_object_unref s.onscreen.id]) := by
  have hswap : _cogl_winsys_onscreen_swap_buffers_with_damage env s =
      some (swap_resolve (swap_fan_out env fb_id s).1 (swap_fan_out env fb_id s).2) := by
    simp [_cogl_winsys_onscreen_swap_buffers_with_damage, swap_wait_idle _ _ hnext,
      swap_body_eq_resolve env fb_id s hadd]
  obtain ⟨⟨T, hT, hTf⟩, f2, f3, f4⟩ := swap_fan_out_frame env fb_id s hpool
  obtain ⟨g1, g2, g3, g4, g5, g6, g7⟩ := swap_fan_out_state env fb_id s
  have hfree := freeCalls_congr s.onscreen.kms (swap_fan_out env fb_id s).2.onscreen.kms
    f2 f3 f4
  have hqueue := queueCalls_congr s.renderer_native
    (swap_fan_out env fb_id s).2.renderer_native g6
  constructor
  · intro hflag hok n hn
    rcases swap_fan_out_cases env fb_id s with hA | hB | hC
    · have hp : (swap_fan_out env fb_id s).1.pending = (n : Int) + 1 := by
        rw [hA.2.2.2, hn]
        simp
      have hflip : (swap_fan_out env fb_id s).1 = ⟨s.onscreen.id, (n : Int) + 1⟩ := by
        rw [← g7, ← hp]
      have hres := swap_resolve_async (swap_fan_out env fb_id s).1
        (swap_fan_out env fb_id s).2 (by rw [hp]; omega) hA.1
      have hsf : (swap_resolve (swap_fan_out env fb_id s).1
          (swap_fan_out env fb_id s).2).flip = some ⟨s.onscreen.id, (n : Int) + 1⟩ := by
        rw [hres, hflip]
      refine ⟨_, T ++ [Call.cogl_object_ref s.onscreen.id], hswap, ?_, ?_, ?_, ?_, ?_⟩
      · rw [hres, hT, g7]
        simp
      · simp [hTf, Call.releasesSlot]
      · intro j hj
        exact page_flip_handler_countdown _ _ n hsf j hj
      · rw [page_flip_handler_last _ _ n hsf]
      · rw [page_flip_handler_last _ _ n hsf]
        simp only [hres, hfree, hqueue]
    · rcases hB.2.2.2 with h | h
      · rw [hflag] at h
        cases h
      · exact absurd hok h
    · rw [hflag] at hC
      cases hC.2.2.2
  · intro hdeg hact
    rcases swap_fan_out_cases env fb_id s with hA | hB | hC
    · rcases hdeg with h | h
      · rw [hA.2.1] at h
        cases h
      · exact absurd hA.2.2.1 h
    · have hres := swap_resolve_sync_def (swap_fan_out env fb_id s).1
        (swap_fan_out env fb_id s).2 (by rw [hB.2.1]; decide) hB.1
      refine ⟨_, T ++ ([Call.cogl_object_ref s.onscreen.id] ++
        setCrtcCalls fb_id s.renderer_native.crtcs), (swap_fan_out env fb_id s).1, hB.2.1,
        by rw [hswap, hres], ?_, ?_, ?_, ?_⟩
      · simp only [hT, g7, g3, g5, List.append_assoc]
      · simp [hTf, Call.releasesSlot, filter_releasesSlot_setCrtcCalls]
      · rw [process_flip_last _ _ hB.2.1]
      · rw [process_flip_last _ _ hB.2.1]
        simp only [hfree, hqueue, g7]
    · omega


/-- The release of the previous current slot for a submission made while a
replacement pool is pending: it is made when the pool is installed, before
the front buffer is locked. -/
theorem released_at_install (s : State) (h : s.onscreen.kms.pending_surface ≠ 0) :
    ∃ T, (swap_prepare s).trace =
        s.trace ++ T ++ freeCalls s.onscreen.kms ++
          (if s.onscreen.kms.surface ≠ 0 then
            [Call.gbm_surface_destroy s.onscreen.kms.surface] else []) ∧
      T.filter Call.releasesSlot = [] ∧
      (swap_prepare s).onscreen.kms.current_fb_id = 0 ∧
      (swap_prepare s).onscreen.kms.current_bo = 0 := by
  obtain ⟨_, _, _, b4, _, _⟩ := swap_pending_egl_surface_frame s
  have htr : ∃ T0, (swap_pending_egl_surface s).trace = s.trace ++ T0 ∧
      T0.filter Call.releasesSlot = [] := by
    unfold swap_pending_egl_surface
    by_cases h : s.onscreen.kms.pending_egl_surface = 0
    · exact ⟨[], by simp [h]⟩
    · exact ⟨[Call.eglDestroySurface s.onscreen.egl_surface,
        Call.update_size s.renderer_native.width s.renderer_native.height],
        by simp [h, State.call, State.setKms], by simp [Call.releasesSlot]⟩
  obtain ⟨T0, hT0, hT0f⟩ := htr
  refine ⟨T0 ++ [Call.parent_swap_buffers_with_damage], ?_,
    by simp [hT0f, Call.releasesSlot], by rw [swap_prepare_kms_some s h],
    by rw [swap_prepare_kms_some s h]⟩
  unfold swap_prepare swap_pending_surface
  rw [if_pos (by simpa [State.call, b4] using h), free_current_bo_eq]
  have hfree : freeCalls ((swap_pending_egl_surface s).call
      Call.parent_swap_buffers_with_damage).onscreen.kms = freeCalls s.onscreen.kms :=
    freeCalls_congr _ _ (by simp [State.call, b4]) (by simp [State.call, b4])
      (by simp [State.call, b4])
  rw [hfree]
  by_cases hs : s.onscreen.kms.surface = 0
  · simp [State.call, State.setKms, b4, hs, hT0]
  · simp [State.call, State.setKms, b4, hs, hT0]

/-- C4, as the code has it. `freeCalls` of the swap chain at submission is
the unregistration of the previous current framebuffer (when there is one)
followed by the release of the previous current buffer (when there is
one), each once. For a submission made while no replacement pool is
pending: (1) when the request waits for `n + 1` events, the submission and
the first `n` events make no unregistration and no release, the counter
being `n + 1 - j` after `j` events; the last event, which brings the
counter to zero, makes exactly the calls of `freeCalls`; (2) when the
request is resolved within the submission (page flips unsupported), the
calls that precede the `process_flip` that brings the counter from `1` to
zero contain no unregistration and no release, and that `process_flip` makes
exactly the calls of `freeCalls`. For a submission made while a replacement
pool is pending: the calls of `freeCalls` are made when the pool is
installed, before the old pool is destroyed and the front buffer locked,
and the current slot is empty from then on. -/
theorem previous_slot_released_once (env : SwapEnv) (fb_id : Nat) (s : State)
    (hadd : env.add_fb = some fb_id)
    (hnext : s.onscreen.kms.next_fb_id = 0) :
    (s.onscreen.kms.pending_surface = 0 →
      (s.renderer_native.page_flips_not_supported = false →
        noHardFailure env.page_flip 0 s.renderer_native.crtcs →
        ∀ n : Nat, acceptCount env.page_flip 0 s.renderer_native.crtcs = n + 1 →
        ∃ s1 T, _cogl_winsys_onscreen_swap_buffers_with_damage env s = some s1 ∧
          s1.trace = s.trace ++ T ∧ T.filter Call.releasesSlot = [] ∧
          (∀ j, j ≤ n → page_flip_handler^[j] s1 =
            { s1 with flip := some ⟨s.onscreen.id, (n : Int) + 1 - j⟩ }) ∧
          (page_flip_handler^[n + 1] s1).flip = none ∧
          (page_flip_handler^[n + 1] s1).trace =
            s1.trace ++ queueCalls s.renderer_native ++ freeCalls s.onscreen.kms ++
              [Call.cogl_object_unref s.onscreen.id]) ∧
      ((s.renderer_native.page_flips_not_supported = true ∨
          ¬ noHardFailure env.page_flip 0 s.renderer_native.crtcs) →
        0 < activeCount s.renderer_native.crtcs →
        ∃ s_mid T flip, flip.pending = 1 ∧
          _cogl_winsys_onscreen_swap_buffers_with_damage env s =
            some (process_flip flip s_mid) ∧
          s_mid.trace = s.trace ++ T ∧ T.filter Call.releasesSlot = [] ∧
          (process_flip flip s_mid).flip = none ∧
          (process_flip flip s_mid).trace =
            s_mid.trace ++ queueCalls s.renderer_native ++ freeCalls s.onscreen.kms ++
              [Call.cogl_object_unref s.onscreen.id])) ∧
    (s.onscreen.kms.pending_surface ≠ 0 →
      ∃ T, (swap_prepare s).trace =
          s.trace ++ T ++ freeCalls s.onscreen.kms ++
            (if s.onscreen.kms.surface ≠ 0 then
              [Call.gbm_surface_destroy s.onscreen.kms.surface] else []) ∧
        T.filter Call.releasesSlot = [] ∧
        (swap_prepare s).onscreen.kms.current_fb_id = 0 ∧
        (swap_prepare s).onscreen.kms.current_bo = 0) :=
  ⟨fun hpool => released_at_completion env fb_id s hpool hadd hnext,
    fun hpool => released_at_install s hpool⟩

/-- A frame submitted while a replacement pool is pending: the submission
comes back with the request still waiting for its one acknowledgement, and
the previous current framebuffer `10` is already unregistered and its
buffer `20` already released to pool `5`. -/
theorem previous_slot_released_early_counterexample :
    examplePendingPool.onscreen.kms.current_fb_id = 10 ∧
    examplePendingPool.onscreen.kms.current_bo = 20 ∧
    (_cogl_winsys_onscreen_swap_buffers_with_damage exampleEnv examplePendingPool).map
      (fun s => (s.flip, s.trace.filter Call.releasesSlot)) =
      some (some ⟨1, 1⟩,
        [Call.drmModeRmFB 10, Call.gbm_surface_release_buffer 5 20]) := by
  decide

/-- The theorem of C4 at concrete inputs: frame `10` (buffer `20`) is on
screen; with no pool pending, one controller accepts the flip in the first
run and its flip fails with `-EINVAL` in the second; in the third a pool is
pending. -/
theorem previous_slot_released_once_witness :
    (∃ s1 T, _cogl_winsys_onscreen_swap_buffers_with_damage exampleEnv
        (exampleState [exampleCrtc 1]) = some s1 ∧
      s1.trace = (exampleState [exampleCrtc 1]).trace ++ T ∧
      T.filter Call.releasesSlot = [] ∧
      (page_flip_handler^[1] s1).trace =
        s1.trace ++ [Call.add_idle] ++
          [Call.drmModeRmFB 10, Call.gbm_surface_release_buffer 5 20] ++
          [Call.cogl_object_unref 1]) ∧
    (∃ s_mid T flip, flip.pending = 1 ∧
      _cogl_winsys_onscreen_swap_buffers_with_damage
        { exampleEnv with page_flip := fun _ => -22 }
        (exampleState [exampleCrtc 1]) = some (process_flip flip s_mid) ∧
      s_mid.trace = (exampleState [exampleCrtc 1]).trace ++ T ∧
      T.filter Call.releasesSlot = [] ∧
      (process_flip flip s_mid).trace =
        s_mid.trace ++ [Call.add_idle] ++
          [Call.drmModeRmFB 10, Call.gbm_surface_release_buffer 5 20] ++
          [Call.cogl_object_unref 1]) ∧
    (∃ T, (swap_prepare examplePendingPool).trace =
        examplePendingPool.trace ++ T ++ freeCalls examplePendingPool.onscreen.kms ++
          (if examplePendingPool.onscreen.kms.surface ≠ 0 then
            [Call.gbm_surface_destroy examplePendingPool.onscreen.kms.surface] else []) ∧
      T.filter Call.releasesSlot = [] ∧
      (swap_prepare examplePendingPool).onscreen.kms.current_fb_id = 0 ∧
      (swap_prepare examplePendingPool).onscreen.kms.current_bo = 0) := by
  obtain ⟨s1, T, h1, h2, h3, _, _, h6⟩ :=
    ((previous_slot_released_once exampleEnv 11 (exampleState [exampleCrtc 1])
      rfl rfl).1 rfl).1 rfl (by decide) 0 (by decide)
  obtain ⟨s_mid, T', flip, k1, k2, k3, k4, _, k6⟩ :=
    ((previous_slot_released_once { exampleEnv with page_flip := fun _ => -22 } 11
      (exampleState [exampleCrtc 1]) rfl rfl).1 rfl).2 (Or.inr (by decide)) (by decide)
  exact ⟨⟨s1, T, h1, h2, h3, h6⟩, ⟨s_mid, T', flip, k1, k2, k3, k4, k6⟩,
    (previous_slot_released_once exampleEnv 11 examplePendingPool rfl rfl).2 (by decide)⟩

/-! ### The sticky flag -/

theorem process_flip_flag (flip : CoglFlipKMS) (s : State) :
    (process_flip flip s).renderer_native.page_flips_not_supported =
      s.renderer_native.page_flips_not_supported := by
  by_cases h : flip.pending = 1
  · rw [process_flip_last _ _ h]
  · rw [process_flip_more _ _ h]

theorem page_flip_handler_flag (s : State) :
    (page_flip_handler s).renderer_native.page_flips_not_supported =
      s.renderer_native.page_flips_not_supported := by
  unfold page_flip_handler
  split
  · exact process_flip_flag _ _
  · rfl

theorem page_flip_handler_iterate_flag (n : Nat) (s : State) :
    (page_flip_handler^[n] s).renderer_native.page_flips_not_supported =
      s.renderer_native.page_flips_not_supported := by
  induction n with
  | zero => rfl
  | succ n ih => rw [Function.iterate_succ_apply', page_flip_handler_flag, ih]

theorem handle_drm_event_flag (n : Nat) (s : State) :
    (handle_drm_event n s).renderer_native.page_flips_not_supported =
      s.renderer_native.page_flips_not_supported := by
  unfold handle_drm_event
  split
  · rfl
  · rw [page_flip_handler_iterate_flag]
    rfl

theorem swap_wait_flag (events : List Nat) (s s1 : State)
    (h : swap_wait events s = some s1) :
    s1.renderer_native.page_flips_not_supported =
      s.renderer_native.page_flips_not_supported := by
  induction events generalizing s with
  | nil =>
    unfold swap_wait at h
    split at h
    · cases h
    · cases h; rfl
  | cons n events ih =>
    unfold swap_wait at h
    split at h
    · rw [ih _ h, handle_drm_event_flag]
    · cases h; rfl

theorem swap_resolve_flag (flip : CoglFlipKMS) (s : State) :
    (swap_resolve flip s).renderer_native.page_flips_not_supported =
      s.renderer_native.page_flips_not_supported := by
  by_cases h : flip.pending = 0
  · rw [swap_resolve_zero _ _ h]
  · cases hflag : s.renderer_native.page_flips_not_supported with
    | true =>
      rw [swap_resolve_sync_def _ _ h hflag, process_flip_flag]
      exact hflag
    | false =>
      rw [swap_resolve_async _ _ h hflag]
      exact hflag

/-- The fan-out never clears the flag. -/
theorem flip_all_crtcs_flag (page_flip : Nat → Int) (flip : CoglFlipKMS) (fb_id : Nat)
    (s : State) (h : s.renderer_native.page_flips_not_supported = true) :
    (flip_all_crtcs page_flip flip fb_id s).2.renderer_native.page_flips_not_supported
      = true := by
  rw [flip_all_crtcs_unsupported _ _ _ _ h]
  exact h

theorem swap_body_flag (env : SwapEnv) (s : State)
    (h : s.renderer_native.page_flips_not_supported = true) :
    (swap_body env s).renderer_native.page_flips_not_supported = true := by
  obtain ⟨p1, _, _, _, _, _⟩ := swap_prepare_frame s
  unfold swap_body swap_submit
  cases env.add_fb with
  | none => simp [State.call, State.setKms, p1, h]
  | some fb_id =>
    simp only [swap_present]
    rw [swap_resolve_flag]
    apply flip_all_crtcs_flag
    rw [swap_set_crtc_eq]
    simp [State.call, State.setKms, p1, h]

theorem onscreen_init_flag (egl_context : Bool) (surface egl_surface : Nat) (s : State) :
    (_cogl_winsys_onscreen_init egl_context surface egl_surface
      s).2.renderer_native.page_flips_not_supported =
      s.renderer_native.page_flips_not_supported := by
  unfold _cogl_winsys_onscreen_init
  simp only [State.call, State.setKms, State.setRenderer]
  split
  · rfl
  · split
    · rfl
    · split
      · rfl
      · split
        · rfl
        · split <;> rfl

theorem onscreen_deinit_flag (s : State) :
    (_cogl_winsys_onscreen_deinit s).renderer_native.page_flips_not_supported =
      s.renderer_native.page_flips_not_supported := by
  unfold _cogl_winsys_onscreen_deinit
  simp only [State.call, State.setKms, State.setRenderer, free_current_bo_eq]
  split
  · rfl
  · split
    · rfl
    · split <;> split <;> rfl

/-- No operation clears `page_flips_not_supported`. -/
theorem flag_sticky_run (op : Op) (s s' : State)
    (h : s.renderer_native.page_flips_not_supported = true) (hrun : op.run s = some s') :
    s'.renderer_native.page_flips_not_supported = true := by
  cases op with
  | swap_buffers_with_damage env =>
    simp only [Op.run, _cogl_winsys_onscreen_swap_buffers_with_damage,
      Option.map_eq_some'] at hrun
    obtain ⟨s1, hw, rfl⟩ := hrun
    exact swap_body_flag env s1 (by rw [swap_wait_flag _ _ _ hw, h])
  | flip_event =>
    simp only [Op.run] at hrun
    split at hrun
    · cases hrun
      rw [process_flip_flag, h]
    · cases hrun
  | dispatch revents n =>
    simp only [Op.run, dispatch_kms_events, Option.some.injEq] at hrun
    subst hrun
    split
    · exact h
    · rw [handle_drm_event_flag, h]
  | set_layout new_surface new_egl_surface width height crtcs =>
    simp only [Op.run, Option.some.injEq] at hrun
    subst hrun
    rw [(set_layout_frame new_surface new_egl_surface width height crtcs s).2.2.2, h]
  | set_ignore_crtc id ignore =>
    simp only [Op.run, Option.some.injEq] at hrun
    subst hrun
    exact h
  | queue_modes_reset =>
    simp only [Op.run, Option.some.injEq] at hrun
    subst hrun
    exact h
  | flush =>
    simp only [Op.run, Option.some.injEq] at hrun
    subst hrun
    rw [(flush_frame s).2.2.2, h]
  | display_setup =>
    simp only [Op.run, Option.some.injEq] at hrun
    subst hrun
    exact h
  | onscreen_init egl_context surface egl_surface =>
    simp only [Op.run, Option.some.injEq] at hrun
    subst hrun
    rw [onscreen_init_flag, h]
  | onscreen_deinit =>
    simp only [Op.run, Option.some.injEq] at hrun
    subst hrun
    rw [onscreen_deinit_flag, h]
  | free_bo =>
    simp only [Op.run, Option.some.injEq] at hrun
    subst hrun
    rw [free_current_bo_eq]
    exact h

theorem flag_sticky_runOps (ops : List Op) (s s' : State)
    (h : s.renderer_native.page_flips_not_supported = true)
    (hrun : runOps ops s = some s') :
    s'.renderer_native.page_flips_not_supported = true := by
  induction ops generalizing s with
  | nil =>
    simp only [runOps, Option.some.injEq] at hrun
    subst hrun
    exact h
  | cons op ops ih =>
    simp only [runOps, Option.bind_eq_some] at hrun
    obtain ⟨s1, h1, h2⟩ := hrun
    exact ih s1 (flag_sticky_run op s s1 h h1) h2

/-! ### C5 -/

theorem quiet_setCrtcCalls (fb_id : Nat) (l : List CoglKmsCrtc) :
    ∀ c ∈ setCrtcCalls fb_id l, c.quiet := by
  intro c hc
  simp only [setCrtcCalls, List.mem_map] at hc
  obtain ⟨crtc, _, rfl⟩ := hc
  exact ⟨by simp, rfl⟩

theorem quiet_freeCalls (kms : CoglOnscreenKMS) : ∀ c ∈ freeCalls kms, c.quiet := by
  intro c hc
  unfold freeCalls at hc
  by_cases h1 : kms.current_fb_id = 0 <;> by_cases h2 : kms.current_bo = 0 <;>
    simp [h1, h2] at hc
  · subst hc; exact ⟨by simp, rfl⟩
  · subst hc; exact ⟨by simp, rfl⟩
  · rcases hc with rfl | rfl <;> exact ⟨by simp, rfl⟩

theorem count_add_idle_of_quiet (T : List Call) (h : ∀ c ∈ T, c.quiet) :
    List.count Call.add_idle T = 0 :=
  List.count_eq_zero.2 (fun hm => (h _ hm).1 rfl)

theorem filter_isPageFlip_of_quiet (T : List Call) (h : ∀ c ∈ T, c.quiet) :
    T.filter Call.isPageFlip = [] :=
  List.filter_eq_nil_iff.2 (fun c hc => by simp [(h c hc).2])

/-- The calls of a submission before it locks the front buffer. -/
theorem swap_prepare_trace (s : State) :
    ∃ T, (swap_prepare s).trace = s.trace ++ T ∧ ∀ c ∈ T, c.quiet := by
  have h1 : ∃ T1, (swap_pending_egl_surface s).trace = s.trace ++ T1 ∧
      ∀ c ∈ T1, c.quiet := by
    unfold swap_pending_egl_surface
    by_cases h : s.onscreen.kms.pending_egl_surface = 0
    · exact ⟨[], by simp [h], by simp⟩
    · refine ⟨[Call.eglDestroySurface s.onscreen.egl_surface,
        Call.update_size s.renderer_native.width s.renderer_native.height],
        by simp [h, State.call, State.setKms], ?_⟩
      intro c hc
      simp only [List.mem_cons, List.mem_singleton, List.not_mem_nil, or_false] at hc
      rcases hc with rfl | rfl <;> exact ⟨by simp, rfl⟩
  have h2 : ∀ s2 : State, ∃ T2, (swap_pending_surface s2).trace = s2.trace ++ T2 ∧
      ∀ c ∈ T2, c.quiet := by
    intro s2
    unfold swap_pending_surface
    by_cases h : s2.onscreen.kms.pending_surface = 0
    · exact ⟨[], by simp [h], by simp⟩
    · rw [if_pos h, free_current_bo_eq]
      by_cases hs : s2.onscreen.kms.surface = 0
      · exact ⟨freeCalls s2.onscreen.kms, by simp [hs, State.setKms],
          quiet_freeCalls _⟩
      · refine ⟨freeCalls s2.onscreen.kms ++
          [Call.gbm_surface_destroy s2.onscreen.kms.surface],
          by simp [hs, State.setKms, State.call], ?_⟩
        intro c hc
        rcases List.mem_append.1 hc with hc | hc
        · exact quiet_freeCalls _ c hc
        · simp only [List.mem_singleton] at hc
          subst hc
          exact ⟨by simp, rfl⟩
  obtain ⟨T1, e1, q1⟩ := h1
  obtain ⟨T2, e2, q2⟩ :=
    h2 ((swap_pending_egl_surface s).call Call.parent_swap_buffers_with_damage)
  refine ⟨T1 ++ [Call.parent_swap_buffers_with_damage] ++ T2, ?_, ?_⟩
  · unfold swap_prepare
    rw [e2]
    simp [State.call, e1]
  · intro c hc
    simp only [List.mem_append, List.mem_singleton] at hc
    rcases hc with (hc | rfl) | hc
    · exact q1 c hc
    · exact ⟨by simp, rfl⟩
    · exact q2 c hc

/-- The calls of a submission up to the end of its fan-out when page flips
are unsupported on entry: the closure is not registered and no page flip is
asked for. -/
theorem swap_fan_out_trace_unsupported (env : SwapEnv) (fb_id : Nat) (s : State)
    (hflag : s.renderer_native.page_flips_not_supported = true) :
    ∃ T, (swap_fan_out env fb_id s).2.trace = s.trace ++ T ∧ ∀ c ∈ T, c.quiet := by
  obtain ⟨p1, _, _, _, _, _⟩ := swap_prepare_frame s
  obtain ⟨T0, e0, q0⟩ := swap_prepare_trace s
  unfold swap_fan_out
  rw [flip_all_crtcs_unsupported _ _ _ _
    (by rw [swap_set_crtc_eq]; simpa [State.call, State.setKms, p1] using hflag)]
  rw [swap_set_crtc_eq]
  simp only [State.call, State.setKms, e0, p1]
  refine ⟨_, by simp only [List.append_assoc]; rfl, ?_⟩
  intro c hc
  simp only [List.mem_append, List.mem_singleton, List.mem_cons, List.not_mem_nil,
    or_false] at hc
  rcases hc with hc | rfl | rfl | hc
  · exact q0 c hc
  · exact ⟨by simp, rfl⟩
  · exact ⟨by simp, rfl⟩
  · split at hc
    · exact quiet_setCrtcCalls _ _ c hc
    · cases hc

/-- The calls of any submission up to the end of its fan-out do not register
the closure. -/
theorem swap_fan_out_trace (env : SwapEnv) (fb_id : Nat) (s : State) :
    ∃ T, (swap_fan_out env fb_id s).2.trace = s.trace ++ T ∧
      List.count Call.add_idle T = 0 := by
  obtain ⟨T0, e0, q0⟩ := swap_prepare_trace s
  have hloop : ∀ (l : List CoglKmsCrtc) (i : Nat) (st : FlipLoop),
      List.count Call.add_idle st.calls = 0 →
      List.count Call.add_idle
        (flip_loop env.page_flip fb_id i l st).calls = 0 := by
    intro l
    induction l with
    | nil => intro i st h; simpa [flip_loop] using h
    | cons crtc l ih =>
      intro i st h
      rw [flip_loop]
      split
      · exact ih _ _ h
      · dsimp only
        split
        · split
          · simpa [List.count_cons] using h
          · split
            · exact ih _ _ (by simpa [List.count_cons] using h)
            · exact ih _ _ (by simpa [List.count_cons] using h)
        · exact ih _ _ h
  unfold swap_fan_out
  rw [flip_all_crtcs_frame, swap_set_crtc_eq]
  simp only [State.call, State.setKms, e0]
  refine ⟨_, by simp only [List.append_assoc]; rfl, ?_⟩
  simp only [List.count_append, count_add_idle_of_quiet T0 q0]
  rw [hloop _ _ _ (by simp)]
  split
  · simp [List.count_cons, count_add_idle_of_quiet _ (quiet_setCrtcCalls _ _)]
  · simp [List.count_cons]

theorem filter_isPageFlip_queueCalls (r : MetaRendererNative) :
    (queueCalls r).filter Call.isPageFlip = [] := by
  unfold queueCalls
  cases r.swap_notify_idle <;> simp [Call.isPageFlip]

/-- One frame in the degraded path: the flag is set when the fan-out ends
and at least one controller is active. -/
theorem degraded_frame (env : SwapEnv) (fb_id : Nat) (s : State)
    (hadd : env.add_fb = some fb_id)
    (hnext : s.onscreen.kms.next_fb_id = 0)
    (hend : (swap_fan_out env fb_id s).2.renderer_native.page_flips_not_supported = true)
    (hact : 0 < activeCount s.renderer_native.crtcs) :
    (swap_fan_out env fb_id s).1.pending = 1 ∧
    ∃ s' T, _cogl_winsys_onscreen_swap_buffers_with_damage env s = some s' ∧
      s'.flip = none ∧
      s'.onscreen.kms.current_fb_id = fb_id ∧
      s'.onscreen.kms.current_bo = env.front_bo ∧
      s'.onscreen.kms.next_fb_id = 0 ∧
      s'.onscreen.kms.next_bo = 0 ∧
      s'.onscreen.kms.pending_swap_notify = true ∧
      s'.renderer_native.swap_notify_idle = true ∧
      s'.renderer_native.page_flips_not_supported = true ∧
      s'.trace = s.trace ++ T ∧
      List.count Call.add_idle T = (if s.renderer_native.swap_notify_idle then 0 else 1) ∧
      (s.renderer_native.page_flips_not_supported = true →
        T.filter Call.isPageFlip = []) := by
  have hswap : _cogl_winsys_onscreen_swap_buffers_with_damage env s =
      some (swap_resolve (swap_fan_out env fb_id s).1 (swap_fan_out env fb_id s).2) := by
    simp [_cogl_winsys_onscreen_swap_buffers_with_damage, swap_wait_idle _ _ hnext,
      swap_body_eq_resolve env fb_id s hadd]
  obtain ⟨g1, g2, g3, g4, g5, g6, g7⟩ := swap_fan_out_state env fb_id s
  obtain ⟨T0, e0, c0⟩ := swap_fan_out_trace env fb_id s
  have hp : (swap_fan_out env fb_id s).1.pending = 1 := by
    rcases swap_fan_out_cases env fb_id s with hA | hB | hC
    · rw [hA.1] at hend
      cases hend
    · exact hB.2.1
    · omega
  refine ⟨hp, _, T0 ++ ([Call.cogl_object_ref s.onscreen.id] ++
    setCrtcCalls fb_id s.renderer_native.crtcs ++ queueCalls s.renderer_native ++
    freeCalls (swap_fan_out env fb_id s).2.onscreen.kms ++
    [Call.cogl_object_unref s.onscreen.id]), hswap, ?_⟩
  rw [swap_resolve_sync _ _ hp hend]
  refine ⟨rfl, g3, g4, rfl, rfl, rfl, rfl, hend, ?_, ?_, ?_⟩
  · simp only [e0, g3, g5, g7, List.append_assoc,
      queueCalls_congr s.renderer_native (swap_fan_out env fb_id s).2.renderer_native g6]
  · simp only [List.count_append, c0, count_add_idle_queueCalls, count_add_idle_freeCalls,
      count_add_idle_of_quiet _ (quiet_setCrtcCalls _ _)]
    simp [List.count_cons]
  · intro hflag
    obtain ⟨T1, e1, q1⟩ := swap_fan_out_trace_unsupported env fb_id s hflag
    have hT : T0 = T1 := List.append_cancel_left (e0.symm.trans e1)
    subst hT
    simp only [List.filter_append, filter_isPageFlip_of_quiet _ q1,
      filter_isPageFlip_of_quiet _ (quiet_setCrtcCalls _ _),
      filter_isPageFlip_of_quiet _ (quiet_freeCalls _), filter_isPageFlip_queueCalls]
    simp [Call.isPageFlip]

theorem Degraded_swap_body (env : SwapEnv) (s : State) (h : Degraded s) :
    Degraded (swap_body env s) := by
  obtain ⟨hflag, hnext, hflip⟩ := h
  refine ⟨swap_body_flag env s hflag, ?_⟩
  cases hadd : env.add_fb with
  | none =>
    obtain ⟨_, p2, _, _, _, _⟩ := swap_prepare_frame s
    simp [swap_body, swap_submit, hadd, State.call, State.setKms, p2, hflip]
  | some fb_id =>
    obtain ⟨g1, _, _, _, _, _, _⟩ := swap_fan_out_state env fb_id s
    rw [swap_body_eq_resolve env fb_id s hadd]
    rcases swap_fan_out_cases env fb_id s with hA | hB | hC
    · rw [hflag] at hA
      cases hA.2.1
    · rw [swap_resolve_sync _ _ hB.2.1 hB.1]
      exact ⟨rfl, rfl⟩
    · rw [swap_resolve_zero _ _ hC.2.1]
      exact ⟨rfl, by simp only [g1, hflip]⟩

/-- Every operation keeps the degraded regime. -/
theorem Degraded_run (op : Op) (s s' : State) (h : Degraded s)
    (hrun : op.run s = some s') : Degraded s' := by
  have hflag' := flag_sticky_run op s s' h.1 hrun
  obtain ⟨hflag, hnext, hflip⟩ := h
  refine ⟨hflag', ?_⟩
  cases op with
  | swap_buffers_with_damage env =>
    simp only [Op.run, _cogl_winsys_onscreen_swap_buffers_with_damage,
      swap_wait_idle _ _ hnext, Option.map_some', Option.some.injEq] at hrun
    subst hrun
    exact (Degraded_swap_body env s ⟨hflag, hnext, hflip⟩).2
  | flip_event =>
    simp only [Op.run, hflip] at hrun
    cases hrun
  | dispatch revents n =>
    simp only [Op.run, dispatch_kms_events, handle_drm_event, hflag, if_true, ite_self,
      Option.some.injEq] at hrun
    subst hrun
    exact ⟨hnext, hflip⟩
  | set_layout new_surface new_egl_surface width height crtcs =>
    simp only [Op.run, Option.some.injEq] at hrun
    subst hrun
    obtain ⟨a, b, _, _⟩ := set_layout_frame new_surface new_egl_surface width height crtcs s
    exact ⟨by rw [b, hnext], by rw [a, hflip]⟩
  | set_ignore_crtc id ignore =>
    simp only [Op.run, Option.some.injEq] at hrun
    subst hrun
    exact ⟨hnext, hflip⟩
  | queue_modes_reset =>
    simp only [Op.run, Option.some.injEq] at hrun
    subst hrun
    exact ⟨hnext, hflip⟩
  | flush =>
    simp only [Op.run, Option.some.injEq] at hrun
    subst hrun
    obtain ⟨a, b, _, _⟩ := flush_frame s
    exact ⟨by rw [b, hnext], by rw [a, hflip]⟩
  | display_setup =>
    simp only [Op.run, Option.some.injEq] at hrun
    subst hrun
    exact ⟨hnext, hflip⟩
  | onscreen_init egl_context surface egl_surface =>
    simp only [Op.run, Option.some.injEq] at hrun
    subst hrun
    unfold _cogl_winsys_onscreen_init
    simp only [State.call, State.setKms, State.setRenderer]
    split
    · exact ⟨hnext, hflip⟩
    · split
      · exact ⟨hnext, hflip⟩
      · split
        · exact ⟨rfl, hflip⟩
        · split
          · exact ⟨rfl, hflip⟩
          · split <;> exact ⟨rfl, hflip⟩
  | onscreen_deinit =>
    simp only [Op.run, Option.some.injEq] at hrun
    subst hrun
    unfold _cogl_winsys_onscreen_deinit
    simp only [State.call, State.setKms, State.setRenderer, free_current_bo_eq]
    split
    · exact ⟨hnext, hflip⟩
    · split
      · exact ⟨hnext, hflip⟩
      · split <;> split <;> exact ⟨hnext, hflip⟩
  | free_bo =>
    simp only [Op.run, Option.some.injEq] at hrun
    subst hrun
    rw [free_current_bo_eq]
    exact ⟨hnext, hflip⟩

theorem Degraded_runOps (ops : List Op) (s s' : State) (h : Degraded s)
    (hrun : runOps ops s = some s') : Degraded s' := by
  induction ops generalizing s with
  | nil =>
    simp only [runOps, Option.some.injEq] at hrun
    subst hrun
    exact h
  | cons op ops ih =>
    simp only [runOps, Option.bind_eq_some] at hrun
    obtain ⟨s1, h1, h2⟩ := hrun
    exact ih s1 (Degraded_run op s s1 h h1) h2

/-- C5. A submission whose framebuffer is registered, that has no flip to
wait for, and at the end of whose fan-out `page_flips_not_supported` is set
with at least one active controller, goes the degraded way
(`ResolvesInCall`): `flip->pending` is forced to `1`, no event is awaited,
the new frame is current, the next slot is empty and one notification is
queued. After it, whatever operations follow, the flag is still set and no
flip is pending, and every later submission with a registered framebuffer
and an active controller goes the degraded way again, without any
`drmModePageFlip` call. -/
theorem degraded_submission_resolves (env : SwapEnv) (fb_id : Nat) (s : State)
    (hadd : env.add_fb = some fb_id)
    (hnext : s.onscreen.kms.next_fb_id = 0)
    (hend : (swap_fan_out env fb_id s).2.renderer_native.page_flips_not_supported = true)
    (hact : 0 < activeCount s.renderer_native.crtcs) :
    ResolvesInCall env fb_id s ∧
    ∀ (s' : State) (ops : List Op) (s2 : State) (env2 : SwapEnv) (fb2 : Nat),
      _cogl_winsys_onscreen_swap_buffers_with_damage env s = some s' →
      runOps ops s' = some s2 →
      env2.add_fb = some fb2 →
      0 < activeCount s2.renderer_native.crtcs →
      s2.renderer_native.page_flips_not_supported = true ∧
      s2.onscreen.kms.next_fb_id = 0 ∧
      ResolvesInCall env2 fb2 s2 ∧
      ∃ s3 T, _cogl_winsys_onscreen_swap_buffers_with_damage env2 s2 = some s3 ∧
        s3.trace = s2.trace ++ T ∧ T.filter Call.isPageFlip = [] := by
  have h1 := degraded_frame env fb_id s hadd hnext hend hact
  refine ⟨h1, ?_⟩
  intro s' ops s2 env2 fb2 hs' hrun hadd2 hact2
  obtain ⟨_, s1, T, e1, f1, _, _, f4, _, _, _, f8, _, _, _⟩ := h1
  rw [e1] at hs'
  have hs1 : s1 = s' := Option.some.inj hs'
  subst hs1
  have hD : Degraded s2 := Degraded_runOps ops s1 s2 ⟨f8, f4, f1⟩ hrun
  have h2 := degraded_frame env2 fb2 s2 hadd2 hD.2.1
    (by
      obtain ⟨p1, _, _, _, _, _⟩ := swap_prepare_frame s2
      unfold swap_fan_out
      apply flip_all_crtcs_flag
      rw [swap_set_crtc_eq]
      simpa [State.call, State.setKms, p1] using hD.1) hact2
  refine ⟨hD.1, hD.2.1, h2, ?_⟩
  obtain ⟨_, s3, T3, e3, _, _, _, _, _, _, _, _, t3, _, n3⟩ := h2
  exact ⟨s3, T3, e3, t3, n3 hD.1⟩

/-- The theorem of C5 at a concrete input: two active controllers, the first
accepts the flip and the second fails with `-EINVAL`. -/
theorem degraded_submission_resolves_witness :
    (swap_fan_out { exampleEnv with page_flip := fun i => if i = 1 then -22 else 0 } 11
      (exampleState [exampleCrtc 1, exampleCrtc 2])).2.renderer_native.page_flips_not_supported
      = true ∧
    ResolvesInCall { exampleEnv with page_flip := fun i => if i = 1 then -22 else 0 } 11
      (exampleState [exampleCrtc 1, exampleCrtc 2]) :=
  ⟨by decide,
    (degraded_submission_resolves
      { exampleEnv with page_flip := fun i => if i = 1 then -22 else 0 } 11
      (exampleState [exampleCrtc 1, exampleCrtc 2]) rfl rfl (by decide) (by decide)).1⟩

/-! ### C6 -/

/-- C6. In `flip_all_crtcs` entered with page flips supported:
`page_flips_not_supported` is set on exit exactly when some active
controller gets an answer other than `0` and `-EACCES`. When the first such
controller is at place `k` of the list, the `drmModePageFlip` calls are
those for the active controllers of the first `k + 1` places, in order, and
none for the places after it. When there is none, every active controller
is asked, in order, the flag stays clear, and `flip->pending` grows by the
number of controllers that answered `0`: one that answers `-EACCES` is
asked, is not counted, does not set the flag, and does not stop the loop. -/
theorem flip_all_crtcs_failure_handling (page_flip : Nat → Int) (flip : CoglFlipKMS)
    (fb_id : Nat) (s : State)
    (hflag : s.renderer_native.page_flips_not_supported = false) :
    ((flip_all_crtcs page_flip flip fb_id s).2.renderer_native.page_flips_not_supported
        = true ↔
      ∃ k crtc, s.renderer_native.crtcs[k]? = some crtc ∧ crtc.active = true ∧
        page_flip k ≠ 0 ∧ page_flip k ≠ -EACCES) ∧
    (∀ k, hardFailure page_flip 0 s.renderer_native.crtcs = some k →
      (∃ crtc, s.renderer_native.crtcs[k]? = some crtc ∧ crtc.active = true ∧
        page_flip k ≠ 0 ∧ page_flip k ≠ -EACCES) ∧
      noHardFailure page_flip 0 (s.renderer_native.crtcs.take k) ∧
      (flip_all_crtcs page_flip flip fb_id s).2.trace =
        s.trace ++ flipCalls fb_id (s.renderer_native.crtcs.take (k + 1))) ∧
    (noHardFailure page_flip 0 s.renderer_native.crtcs →
      (flip_all_crtcs page_flip flip fb_id s).2.trace =
        s.trace ++ flipCalls fb_id s.renderer_native.crtcs ∧
      (flip_all_crtcs page_flip flip fb_id s).2.renderer_native.page_flips_not_supported
        = false ∧
      (flip_all_crtcs page_flip flip fb_id s).1.pending =
        flip.pending + acceptCount page_flip 0 s.renderer_native.crtcs) := by
  refine ⟨?_, ?_, ?_⟩
  · cases hk : hardFailure page_flip 0 s.renderer_native.crtcs with
    | none =>
      have hok := (hardFailure_none_iff page_flip 0 _).1 hk
      rw [flip_all_crtcs_soft _ _ _ _ hflag hok]
      simp only [hflag, Bool.false_eq_true, false_iff, not_exists, not_and]
      intro k crtc hget hact h0 he
      exact noHardFailure_getElem page_flip 0 _ hok k crtc hget hact (by simpa using h0)
        (by simpa using he)
    | some k =>
      rw [flip_all_crtcs_hard _ _ _ _ k hflag hk]
      obtain ⟨⟨crtc, hget, hact, h0, he⟩, _⟩ := hardFailure_some page_flip 0 _ k hk
      simp only [true_iff]
      exact ⟨k, crtc, hget, hact, by simpa using h0, by simpa using he⟩
  · intro k hk
    obtain ⟨⟨crtc, hget, hact, h0, he⟩, hpre⟩ := hardFailure_some page_flip 0 _ k hk
    rw [flip_all_crtcs_hard _ _ _ _ k hflag hk]
    exact ⟨⟨crtc, hget, hact, by simpa using h0, by simpa using he⟩, hpre, rfl⟩
  · intro hok
    rw [flip_all_crtcs_soft _ _ _ _ hflag hok]
    exact ⟨rfl, hflag, rfl⟩

/-- The theorem of C6 at a concrete input: three active controllers, the
first answers `-EACCES`, the second fails with `-EINVAL`; the third is not
asked and the flag is set. -/
theorem flip_all_crtcs_failure_handling_witness :
    (flip_all_crtcs (fun i => if i = 0 then -13 else if i = 1 then -22 else 0) ⟨1, 0⟩ 11
      (exampleState [exampleCrtc 1, exampleCrtc 2, exampleCrtc 3])).2.trace =
      [Call.drmModePageFlip 1 11, Call.drmModePageFlip 2 11] ∧
    (flip_all_crtcs (fun i => if i = 0 then -13 else if i = 1 then -22 else 0) ⟨1, 0⟩ 11
      (exampleState [exampleCrtc 1, exampleCrtc 2,
        exampleCrtc 3])).2.renderer_native.page_flips_not_supported = true := by
  have h := flip_all_crtcs_failure_handling
    (fun i => if i = 0 then -13 else if i = 1 then -22 else 0) ⟨1, 0⟩ 11
    (exampleState [exampleCrtc 1, exampleCrtc 2, exampleCrtc 3]) rfl
  refine ⟨?_, h.1.2 ⟨1, exampleCrtc 2, rfl, rfl, by decide, by decide⟩⟩
  rw [(h.2.1 1 (by decide)).2.2]
  decide

/-! ### C7 -/

/-- C7. `page_flips_not_supported` is sticky: from a state in which it is
set, it is still set after any operation of the renderer that comes back
(submission, flip event, event dispatch, layout change, ignore setter,
mode reset, flush, display set-up, onscreen init and deinit,
`free_current_bo`) whatever the outside world answers, after any sequence of
them, and after `flip_all_crtcs`, `process_flip`, `handle_drm_event` and
`setup_crtc_modes` called with any arguments. -/
theorem page_flips_not_supported_sticky (s : State)
    (h : s.renderer_native.page_flips_not_supported = true) :
    (∀ (op : Op) (s' : State), op.run s = some s' →
      s'.renderer_native.page_flips_not_supported = true) ∧
    (∀ (ops : List Op) (s' : State), runOps ops s = some s' →
      s'.renderer_native.page_flips_not_supported = true) ∧
    (∀ (page_flip : Nat → Int) (flip : CoglFlipKMS) (fb_id : Nat),
      (flip_all_crtcs page_flip flip fb_id s).2.renderer_native.page_flips_not_supported
        = true) ∧
    (∀ flip : CoglFlipKMS,
      (process_flip flip s).renderer_native.page_flips_not_supported = true) ∧
    (∀ n : Nat, (handle_drm_event n s).renderer_native.page_flips_not_supported = true) ∧
    (∀ fb_id : Nat,
      (setup_crtc_modes fb_id s).renderer_native.page_flips_not_supported = true) := by
  refine ⟨fun op s' hrun => flag_sticky_run op s s' h hrun,
    fun ops s' hrun => flag_sticky_runOps ops s s' h hrun,
    fun page_flip flip fb_id => flip_all_crtcs_flag page_flip flip fb_id s h,
    fun flip => by rw [process_flip_flag, h],
    fun n => by rw [handle_drm_event_flag, h],
    fun fb_id => by rw [setup_crtc_modes_eq]; exact h⟩

/-- The theorem of C7 at a concrete input: with the flag set, a layout
change followed by a submission that every controller would accept leaves
the flag set. -/
theorem page_flips_not_supported_sticky_witness :
    ∃ s', runOps [Op.set_layout 7 8 1920 1080 [exampleCrtc 1],
        Op.swap_buffers_with_damage exampleEnv] exampleUnsupported = some s' ∧
      s'.renderer_native.page_flips_not_supported = true :=
  ⟨_, rfl, (page_flips_not_supported_sticky exampleUnsupported rfl).2.1
    [Op.set_layout 7 8 1920 1080 [exampleCrtc 1], Op.swap_buffers_with_damage exampleEnv]
    _ rfl⟩

/-! ### C8 and C9 -/

theorem flush_pending_swap_notify_cb_calls (fb : CoglFramebuffer) :
    (flush_pending_swap_notify_cb fb).2 = notifyCalls fb := by
  unfold flush_pending_swap_notify_cb notifyCalls
  by_cases h1 : fb.type = CoglFramebufferType.ONSCREEN
  · cases h2 : fb.onscreen.kms.pending_swap_notify <;> simp [h1, h2]
  · simp [h1]

theorem flush_pending_swap_notify_cb_fb (fb : CoglFramebuffer) :
    (flush_pending_swap_notify_cb fb).1.type = fb.type ∧
    (flush_pending_swap_notify_cb fb).1.onscreen.id = fb.onscreen.id ∧
    ((flush_pending_swap_notify_cb fb).1.type = CoglFramebufferType.ONSCREEN →
      (flush_pending_swap_notify_cb fb).1.onscreen.kms.pending_swap_notify = false) := by
  unfold flush_pending_swap_notify_cb
  by_cases h1 : fb.type = CoglFramebufferType.ONSCREEN
  · cases h2 : fb.onscreen.kms.pending_swap_notify <;> simp [h1, h2]
  · simp [h1]

theorem g_list_foreach_flush_eq (fbs : List CoglFramebuffer) :
    g_list_foreach_flush fbs =
      (fbs.map (fun fb => (flush_pending_swap_notify_cb fb).1), fbs.flatMap notifyCalls) := by
  induction fbs with
  | nil => rfl
  | cons fb fbs ih =>
    simp only [g_list_foreach_flush, ih, List.map_cons, List.flatMap_cons,
      flush_pending_swap_notify_cb_calls]

/-- The flush in closed form, on the whole framebuffer list of the context. -/
theorem flush_pending_swap_notify_idle_eq (s : State) :
    (flush_pending_swap_notify_idle s).trace =
      s.trace ++ [Call.closure_disconnect] ++ s.framebuffers.flatMap notifyCalls ∧
    (flush_pending_swap_notify_idle s).framebuffers =
      s.framebuffers.map (fun fb => (flush_pending_swap_notify_cb fb).1) ∧
    (flush_pending_swap_notify_idle s).renderer_native =
      { s.renderer_native with swap_notify_idle := false } ∧
    (flush_pending_swap_notify_idle s).flip = s.flip := by
  unfold flush_pending_swap_notify_idle State.framebuffers
  simp only [g_list_foreach_flush_eq, State.call, State.setRenderer,
    flush_pending_swap_notify_cb_calls, List.flatMap_append, List.flatMap_cons,
    List.flatMap_nil, List.map_append, List.map_cons, List.map_nil, List.append_assoc,
    List.append_nil, and_true, true_and]
  have h : (flush_pending_swap_notify_cb ⟨CoglFramebufferType.ONSCREEN, s.onscreen⟩).1.type
      = CoglFramebufferType.ONSCREEN := (flush_pending_swap_notify_cb_fb _).1
  generalize flush_pending_swap_notify_cb ⟨CoglFramebufferType.ONSCREEN, s.onscreen⟩ = r at h
  obtain ⟨⟨t, o⟩, c⟩ := r
  simp only at h
  subst h
  rfl

theorem countP_completesFor_others (id : Nat) (fbs : List CoglFramebuffer)
    (h : ∀ fb ∈ fbs, fb.type = CoglFramebufferType.ONSCREEN → fb.onscreen.id ≠ id) :
    List.countP (Call.completesFor id) (fbs.flatMap notifyCalls) = 0 := by
  induction fbs with
  | nil => rfl
  | cons fb fbs ih =>
    rw [List.flatMap_cons, List.countP_append,
      ih (fun fb' hfb' => h fb' (List.mem_cons_of_mem _ hfb'))]
    unfold notifyCalls
    split
    · next hc =>
      have hne := h fb (List.mem_cons_self _ _) hc.1
      simp [List.countP_cons, Call.completesFor, hne]
    · rfl

theorem countP_completesFor_queueCalls (id : Nat) (r : MetaRendererNative) :
    List.countP (Call.completesFor id) (queueCalls r) = 0 := by
  unfold queueCalls
  cases r.swap_notify_idle <;> simp [List.countP_cons, Call.completesFor]

/-- The flush of a state whose onscreen is marked fires one frame-complete
callback for it. -/
theorem flush_marked (s : State) (hd : OthersDistinct s)
    (hm : s.onscreen.kms.pending_swap_notify = true) :
    (∃ T, (flush_pending_swap_notify_idle s).trace = s.trace ++ T ∧
      List.countP (Call.completesFor s.onscreen.id) T = 1) ∧
    (flush_pending_swap_notify_idle s).renderer_native.swap_notify_idle = false ∧
    (flush_pending_swap_notify_idle s).onscreen.id = s.onscreen.id ∧
    OthersDistinct (flush_pending_swap_notify_idle s) := by
  obtain ⟨e1, _, e3, _⟩ := flush_pending_swap_notify_idle_eq s
  have hid : (flush_pending_swap_notify_idle s).onscreen.id = s.onscreen.id := by
    unfold flush_pending_swap_notify_idle
    exact (flush_pending_swap_notify_cb_fb ⟨CoglFramebufferType.ONSCREEN, s.onscreen⟩).2.1
  refine ⟨⟨_, by rw [e1, List.append_assoc], ?_⟩, by rw [e3], hid, ?_⟩
  · unfold State.framebuffers
    simp only [List.flatMap_append, List.flatMap_cons, List.flatMap_nil, List.append_nil,
      List.countP_append]
    rw [countP_completesFor_others _ _ (fun fb hfb => hd fb (List.mem_append_left _ hfb)),
      countP_completesFor_others _ _ (fun fb hfb => hd fb (List.mem_append_right _ hfb))]
    simp [notifyCalls, hm, List.countP_cons, Call.completesFor]
  · intro fb hfb hty
    rw [hid]
    have hfb' : fb ∈ (s.fbs_before ++ s.fbs_after).map
        (fun fb => (flush_pending_swap_notify_cb fb).1) := by
      unfold flush_pending_swap_notify_idle at hfb
      simpa [g_list_foreach_flush_eq] using hfb
    simp only [List.mem_map] at hfb'
    obtain ⟨fb0, hfb0, rfl⟩ := hfb'
    obtain ⟨c1, c2, _⟩ := flush_pending_swap_notify_cb_fb fb0
    rw [c2]
    exact hd fb0 hfb0 (by rw [← c1]; exact hty)

/-- C8. Marking is idempotent between flushes: marking twice gives the same
state as marking once, in which the idle closure is registered and the
onscreen is marked, the closure having been added once if it was not
registered and not at all otherwise; the flush that follows fires exactly
one frame-complete callback for the onscreen. Mark, flush, mark, flush
fires exactly two, and the second mark adds a fresh idle closure. The other
framebuffers of the context are taken to be other objects than the
onscreen. -/
theorem queue_swap_notify_idempotent (s : State) (hd : OthersDistinct s) :
    queue_swap_notify_for_onscreen (queue_swap_notify_for_onscreen s) =
      queue_swap_notify_for_onscreen s ∧
    (queue_swap_notify_for_onscreen s).renderer_native.swap_notify_idle = true ∧
    (queue_swap_notify_for_onscreen s).onscreen.kms.pending_swap_notify = true ∧
    (queue_swap_notify_for_onscreen s).trace =
      s.trace ++ (if s.renderer_native.swap_notify_idle then [] else [Call.add_idle]) ∧
    (∃ T, (flush_pending_swap_notify_idle
        (queue_swap_notify_for_onscreen (queue_swap_notify_for_onscreen s))).trace =
          s.trace ++ T ∧
      List.countP (Call.completesFor s.onscreen.id) T = 1) ∧
    (∃ T, (flush_pending_swap_notify_idle (queue_swap_notify_for_onscreen
        (flush_pending_swap_notify_idle (queue_swap_notify_for_onscreen s)))).trace =
          s.trace ++ T ∧
      List.countP (Call.completesFor s.onscreen.id) T = 2) ∧
    (queue_swap_notify_for_onscreen
        (flush_pending_swap_notify_idle (queue_swap_notify_for_onscreen s))).trace =
      (flush_pending_swap_notify_idle (queue_swap_notify_for_onscreen s)).trace ++
        [Call.add_idle] := by
  have hq : ∀ t : State, OthersDistinct t →
      OthersDistinct (queue_swap_notify_for_onscreen t) := by
    intro t ht
    rw [queue_swap_notify_for_onscreen_eq]
    exact ht
  have hidem : queue_swap_notify_for_onscreen (queue_swap_notify_for_onscreen s) =
      queue_swap_notify_for_onscreen s := by
    rw [queue_swap_notify_for_onscreen_eq (queue_swap_notify_for_onscreen s),
      queue_swap_notify_for_onscreen_eq s]
    simp [queueCalls]
  obtain ⟨⟨T1, e1, c1⟩, i1, id1, d1⟩ :=
    flush_marked (queue_swap_notify_for_onscreen s) (hq s hd)
      (by rw [queue_swap_notify_for_onscreen_eq])
  have hqid : (queue_swap_notify_for_onscreen s).onscreen.id = s.onscreen.id := by
    rw [queue_swap_notify_for_onscreen_eq]
  have hqtr : (queue_swap_notify_for_onscreen s).trace =
      s.trace ++ queueCalls s.renderer_native := by
    rw [queue_swap_notify_for_onscreen_eq]
  obtain ⟨⟨T2, e2, c2⟩, _, _, _⟩ :=
    flush_marked (queue_swap_notify_for_onscreen
      (flush_pending_swap_notify_idle (queue_swap_notify_for_onscreen s))) (hq _ d1)
      (by rw [queue_swap_notify_for_onscreen_eq])
  have hq2tr : (queue_swap_notify_for_onscreen
      (flush_pending_swap_notify_idle (queue_swap_notify_for_onscreen s))).trace =
      (flush_pending_swap_notify_idle (queue_swap_notify_for_onscreen s)).trace ++
        [Call.add_idle] := by
    rw [queue_swap_notify_for_onscreen_eq]
    simp [queueCalls, i1]
  have hq2id : (queue_swap_notify_for_onscreen
      (flush_pending_swap_notify_idle (queue_swap_notify_for_onscreen s))).onscreen.id =
      s.onscreen.id := by
    rw [queue_swap_notify_for_onscreen_eq]
    simp only [id1, hqid]
  refine ⟨hidem, by rw [queue_swap_notify_for_onscreen_eq],
    by rw [queue_swap_notify_for_onscreen_eq], ?_, ?_, ?_, hq2tr⟩
  · rw [hqtr]
    unfold queueCalls
    rfl
  · refine ⟨queueCalls s.renderer_native ++ T1, ?_, ?_⟩
    · rw [hidem, e1, hqtr, List.append_assoc]
    · rw [List.countP_append, countP_completesFor_queueCalls, ← hqid, c1]
  · refine ⟨queueCalls s.renderer_native ++ T1 ++ [Call.add_idle] ++ T2, ?_, ?_⟩
    · rw [e2, hq2tr, e1, hqtr]
      simp only [List.append_assoc]
    · rw [hq2id] at c2
      rw [hqid] at c1
      simp only [List.countP_append, countP_completesFor_queueCalls, c1, c2]
      simp [List.countP_cons, Call.completesFor]

/-- The theorem of C8 at a concrete context (an offscreen framebuffer, the
onscreen `1`, and another onscreen `3` that is marked): after two marks and
a flush, one frame-complete callback was fired for onscreen `1`. -/
theorem queue_swap_notify_idempotent_witness :
    OthersDistinct exampleContext ∧
    (flush_pending_swap_notify_idle
      (queue_swap_notify_for_onscreen (queue_swap_notify_for_onscreen exampleContext))).trace =
      [Call.add_idle, Call.closure_disconnect,
       Call.notify_frame_sync 1 (some 100), Call.notify_complete 1 (some 100),
       Call.cogl_object_unref_info (some 100),
       Call.notify_frame_sync 3 (some 300), Call.notify_complete 3 (some 300),
       Call.cogl_object_unref_info (some 300)] ∧
    ∃ T, (flush_pending_swap_notify_idle
        (queue_swap_notify_for_onscreen (queue_swap_notify_for_onscreen exampleContext))).trace =
          exampleContext.trace ++ T ∧
      List.countP (Call.completesFor exampleContext.onscreen.id) T = 1 := by
  have hd : OthersDistinct exampleContext := by
    intro fb hfb hty
    simp only [exampleContext, List.mem_append, List.mem_singleton] at hfb
    rcases hfb with rfl | rfl
    · cases hty
    · decide
  exact ⟨hd, by decide, (queue_swap_notify_idempotent exampleContext hd).2.2.2.2.1⟩

theorem isSetCrtc_freeCalls (kms : CoglOnscreenKMS) :
    ∀ c ∈ freeCalls kms, c.isSetCrtc = false := by
  intro c hc
  unfold freeCalls at hc
  by_cases h1 : kms.current_fb_id = 0 <;> by_cases h2 : kms.current_bo = 0 <;>
    simp [h1, h2] at hc
  · subst hc; rfl
  · subst hc; rfl
  · rcases hc with rfl | rfl <;> rfl

/-- The submission makes no mode-set before it locks the front buffer. -/
theorem swap_prepare_no_set_crtc (s : State) :
    ∃ T, (swap_prepare s).trace = s.trace ++ T ∧ ∀ c ∈ T, c.isSetCrtc = false := by
  have h1 : ∃ T1, (swap_pending_egl_surface s).trace = s.trace ++ T1 ∧
      ∀ c ∈ T1, c.isSetCrtc = false := by
    unfold swap_pending_egl_surface
    by_cases h : s.onscreen.kms.pending_egl_surface = 0
    · exact ⟨[], by simp [h], by simp⟩
    · refine ⟨[Call.eglDestroySurface s.onscreen.egl_surface,
        Call.update_size s.renderer_native.width s.renderer_native.height],
        by simp [h, State.call, State.setKms], ?_⟩
      intro c hc
      simp only [List.mem_cons, List.mem_singleton, List.not_mem_nil, or_false] at hc
      rcases hc with rfl | rfl <;> rfl
  have h2 : ∀ s2 : State, ∃ T2, (swap_pending_surface s2).trace = s2.trace ++ T2 ∧
      ∀ c ∈ T2, c.isSetCrtc = false := by
    intro s2
    unfold swap_pending_surface
    by_cases h : s2.onscreen.kms.pending_surface = 0
    · exact ⟨[], by simp [h], by simp⟩
    · rw [if_pos h, free_current_bo_eq]
      by_cases hs : s2.onscreen.kms.surface = 0
      · exact ⟨freeCalls s2.onscreen.kms, by simp [hs, State.setKms],
          isSetCrtc_freeCalls _⟩
      · refine ⟨freeCalls s2.onscreen.kms ++
          [Call.gbm_surface_destroy s2.onscreen.kms.surface],
          by simp [hs, State.setKms, State.call], ?_⟩
        intro c hc
        rcases List.mem_append.1 hc with hc | hc
        · exact isSetCrtc_freeCalls _ c hc
        · simp only [List.mem_singleton] at hc
          subst hc
          rfl
  obtain ⟨T1, e1, q1⟩ := h1
  obtain ⟨T2, e2, q2⟩ :=
    h2 ((swap_pending_egl_surface s).call Call.parent_swap_buffers_with_damage)
  refine ⟨T1 ++ [Call.parent_swap_buffers_with_damage] ++ T2, ?_, ?_⟩
  · unfold swap_prepare
    rw [e2]
    simp [State.call, e1]
  · intro c hc
    simp only [List.mem_append, List.mem_singleton] at hc
    rcases hc with (hc | rfl) | hc
    · exact q1 c hc
    · rfl
    · exact q2 c hc

/-- C10, as the code has it. When `drmModeAddFB` is rejected in a submission
that has no flip to wait for: the buffer just locked is released to the
pool it was locked from (the last call of the submission); no flip request
is created; no `drmModeSetCrtc` and no `drmModePageFlip` is made and the
idle closure is not registered; the renderer (with `pending_set_crtc`) and
the notification mark are unchanged; `next_fb_id == 0` and
`next_bo == NULL`. When no replacement pool was pending, `current_fb_id`,
`current_bo` and the pool are those of before the call. When one was
pending, it has become the pool and the current slot is empty. -/
theorem add_fb_rejected_drops_frame (env : SwapEnv) (s : State)
    (hadd : env.add_fb = none)
    (hnext : s.onscreen.kms.next_fb_id = 0) :
    ∃ s' T, _cogl_winsys_onscreen_swap_buffers_with_damage env s = some s' ∧
      s'.trace = s.trace ++ T ++
        [Call.gbm_surface_lock_front_buffer s'.onscreen.kms.surface,
         Call.drmModeAddFB s.renderer_native.width s.renderer_native.height env.front_bo,
         Call.gbm_surface_release_buffer s'.onscreen.kms.surface env.front_bo] ∧
      (∀ c ∈ T, c ≠ Call.add_idle ∧ c.isPageFlip = false ∧ c.isSetCrtc = false) ∧
      s'.flip = s.flip ∧
      s'.renderer_native = s.renderer_native ∧
      s'.onscreen.kms.pending_swap_notify = s.onscreen.kms.pending_swap_notify ∧
      s'.onscreen.kms.next_fb_id = 0 ∧
      s'.onscreen.kms.next_bo = 0 ∧
      (s.onscreen.kms.pending_surface = 0 →
        s'.onscreen.kms.current_fb_id = s.onscreen.kms.current_fb_id ∧
        s'.onscreen.kms.current_bo = s.onscreen.kms.current_bo ∧
        s'.onscreen.kms.surface = s.onscreen.kms.surface) ∧
      (s.onscreen.kms.pending_surface ≠ 0 →
        s'.onscreen.kms.current_fb_id = 0 ∧
        s'.onscreen.kms.current_bo = 0 ∧
        s'.onscreen.kms.surface = s.onscreen.kms.pending_surface ∧
        s'.onscreen.kms.pending_surface = 0) := by
  obtain ⟨p1, p2, p3, p4, p5, p6⟩ := swap_prepare_frame s
  obtain ⟨T, eT, qT⟩ := swap_prepare_trace s
  obtain ⟨T', eT', qT'⟩ := swap_prepare_no_set_crtc s
  have hTT : T = T' := List.append_cancel_left (eT.symm.trans eT')
  subst hTT
  refine ⟨swap_body env s, T, by simp [_cogl_winsys_onscreen_swap_buffers_with_damage,
    swap_wait_idle _ _ hnext], ?_⟩
  simp only [swap_body, swap_submit, hadd, State.call, State.setKms]
  refine ⟨by simp [eT, p1], fun c hc => ⟨(qT c hc).1, (qT c hc).2, qT' c hc⟩, p2, p1, p6,
    trivial, trivial, ?_, ?_⟩
  · intro h
    simp [swap_prepare_kms_none s h]
  · intro h
    simp [swap_prepare_kms_some s h]

/-- A rejected `drmModeAddFB` while a replacement pool is pending: frame `10`
(buffer `20`, pool `5`) was current before the call; after it the current
slot is empty and the pool is `7`. -/
theorem add_fb_rejected_counterexample :
    examplePendingPool.onscreen.kms.next_fb_id = 0 ∧
    examplePendingPool.onscreen.kms.current_fb_id = 10 ∧
    examplePendingPool.onscreen.kms.current_bo = 20 ∧
    examplePendingPool.onscreen.kms.surface = 5 ∧
    (_cogl_winsys_onscreen_swap_buffers_with_damage exampleEnvRejected
      examplePendingPool).map
      (fun s => (s.onscreen.kms.current_fb_id, s.onscreen.kms.current_bo,
        s.onscreen.kms.surface)) = some (0, 0, 7) := by
  decide

/-- The theorem of C10 at concrete inputs: with no pool pending the current
slot and the pool are kept; with a pool pending the trace of the call is
the one shown. -/
theorem add_fb_rejected_drops_frame_witness :
    (∃ s', _cogl_winsys_onscreen_swap_buffers_with_damage exampleEnvRejected
        (exampleState [exampleCrtc 1]) = some s' ∧
      s'.onscreen.kms.current_fb_id = 10 ∧ s'.onscreen.kms.current_bo = 20 ∧
      s'.onscreen.kms.surface = 5 ∧ s'.onscreen.kms.next_fb_id = 0 ∧
      s'.onscreen.kms.next_bo = 0 ∧ s'.flip = none) ∧
    (_cogl_winsys_onscreen_swap_buffers_with_damage exampleEnvRejected
        examplePendingPool).map (fun s => s.trace) =
      some [Call.eglDestroySurface 6, Call.update_size 640 480,
        Call.parent_swap_buffers_with_damage, Call.drmModeRmFB 10,
        Call.gbm_surface_release_buffer 5 20, Call.gbm_surface_destroy 5,
        Call.gbm_surface_lock_front_buffer 7, Call.drmModeAddFB 640 480 21,
        Call.gbm_surface_release_buffer 7 21] := by
  obtain ⟨s', T, h1, _, _, h4, _, _, h7, h8, h9, _⟩ :=
    add_fb_rejected_drops_frame exampleEnvRejected (exampleState [exampleCrtc 1]) rfl rfl
  obtain ⟨c1, c2, c3⟩ := h9 rfl
  exact ⟨⟨s', h1, c1, c2, c3, h7, h8, h4⟩, by decide⟩

/-! ### C11 -/

/-- The buffer pool, the rendering surface and their pending replacements. -/
theorem process_flip_pool (flip : CoglFlipKMS) (s : State) :
    (process_flip flip s).onscreen.kms.surface = s.onscreen.kms.surface ∧
    (process_flip flip s).onscreen.egl_surface = s.onscreen.egl_surface ∧
    (process_flip flip s).onscreen.kms.pending_surface = s.onscreen.kms.pending_surface ∧
    (process_flip flip s).onscreen.kms.pending_egl_surface =
      s.onscreen.kms.pending_egl_surface := by
  by_cases h : flip.pending = 1
  · rw [process_flip_last _ _ h]
    exact ⟨rfl, rfl, rfl, rfl⟩
  · rw [process_flip_more _ _ h]
    exact ⟨rfl, rfl, rfl, rfl⟩

theorem page_flip_handler_pool (s : State) :
    (page_flip_handler s).onscreen.kms.surface = s.onscreen.kms.surface ∧
    (page_flip_handler s).onscreen.egl_surface = s.onscreen.egl_surface ∧
    (page_flip_handler s).onscreen.kms.pending_surface = s.onscreen.kms.pending_surface ∧
    (page_flip_handler s).onscreen.kms.pending_egl_surface =
      s.onscreen.kms.pending_egl_surface := by
  unfold page_flip_handler
  split
  · exact process_flip_pool _ _
  · exact ⟨rfl, rfl, rfl, rfl⟩

theorem page_flip_handler_iterate_pool (n : Nat) (s : State) :
    (page_flip_handler^[n] s).onscreen.kms.surface = s.onscreen.kms.surface ∧
    (page_flip_handler^[n] s).onscreen.egl_surface = s.onscreen.egl_surface ∧
    (page_flip_handler^[n] s).onscreen.kms.pending_surface =
      s.onscreen.kms.pending_surface ∧
    (page_flip_handler^[n] s).onscreen.kms.pending_egl_surface =
      s.onscreen.kms.pending_egl_surface := by
  induction n with
  | zero => exact ⟨rfl, rfl, rfl, rfl⟩
  | succ n ih =>
    rw [Function.iterate_succ_apply']
    obtain ⟨a, b, c, d⟩ := page_flip_handler_pool (page_flip_handler^[n] s)
    exact ⟨a.trans ih.1, b.trans ih.2.1, c.trans ih.2.2.1, d.trans ih.2.2.2⟩

theorem handle_drm_event_pool (n : Nat) (s : State) :
    (handle_drm_event n s).onscreen.kms.surface = s.onscreen.kms.surface ∧
    (handle_drm_event n s).onscreen.egl_surface = s.onscreen.egl_surface ∧
    (handle_drm_event n s).onscreen.kms.pending_surface = s.onscreen.kms.pending_surface ∧
    (handle_drm_event n s).onscreen.kms.pending_egl_surface =
      s.onscreen.kms.pending_egl_surface := by
  unfold handle_drm_event
  split
  · exact ⟨rfl, rfl, rfl, rfl⟩
  · exact page_flip_handler_iterate_pool n (s.call Call.drmHandleEvent)

/-- The blocking loop comes back with no flip pending and the pool, the
rendering surface and their pending replacements as they were. -/
theorem swap_wait_pool (events : List Nat) (s s1 : State)
    (h : swap_wait events s = some s1) :
    s1.onscreen.kms.next_fb_id = 0 ∧
    s1.onscreen.kms.surface = s.onscreen.kms.surface ∧
    s1.onscreen.egl_surface = s.onscreen.egl_surface ∧
    s1.onscreen.kms.pending_surface = s.onscreen.kms.pending_surface ∧
    s1.onscreen.kms.pending_egl_surface = s.onscreen.kms.pending_egl_surface := by
  induction events generalizing s with
  | nil =>
    unfold swap_wait at h
    split at h
    · cases h
    · next hn =>
      cases h
      exact ⟨by simpa using hn, rfl, rfl, rfl, rfl⟩
  | cons n events ih =>
    unfold swap_wait at h
    split at h
    · obtain ⟨a, b, c, d, e⟩ := ih _ h
      obtain ⟨b', c', d', e'⟩ := handle_drm_event_pool n s
      exact ⟨a, b.trans b', c.trans c', d.trans d', e.trans e'⟩
    · next hn =>
      cases h
      exact ⟨by simpa using hn, rfl, rfl, rfl, rfl⟩

theorem swap_resolve_pool (flip : CoglFlipKMS) (s : State) :
    (swap_resolve flip s).onscreen.kms.surface = s.onscreen.kms.surface ∧
    (swap_resolve flip s).onscreen.egl_surface = s.onscreen.egl_surface ∧
    (swap_resolve flip s).onscreen.kms.pending_surface = s.onscreen.kms.pending_surface ∧
    (swap_resolve flip s).onscreen.kms.pending_egl_surface =
      s.onscreen.kms.pending_egl_surface := by
  by_cases h : flip.pending = 0
  · rw [swap_resolve_zero _ _ h]
    exact ⟨rfl, rfl, rfl, rfl⟩
  · cases hflag : s.renderer_native.page_flips_not_supported with
    | true =>
      rw [swap_resolve_sync_def _ _ h hflag]
      exact process_flip_pool _ _
    | false =>
      rw [swap_resolve_async _ _ h hflag]
      exact ⟨rfl, rfl, rfl, rfl⟩

/-- The submission leaves the pool, the rendering surface and their pending
replacements alone from the lock of the front buffer on. -/
theorem swap_submit_pool (env : SwapEnv) (s : State) :
    (swap_submit env s).onscreen.kms.surface = s.onscreen.kms.surface ∧
    (swap_submit env s).onscreen.egl_surface = s.onscreen.egl_surface ∧
    (swap_submit env s).onscreen.kms.pending_surface = s.onscreen.kms.pending_surface ∧
    (swap_submit env s).onscreen.kms.pending_egl_surface =
      s.onscreen.kms.pending_egl_surface := by
  unfold swap_submit
  cases env.add_fb with
  | none => exact ⟨rfl, rfl, rfl, rfl⟩
  | some fb_id =>
    simp only [swap_present]
    obtain ⟨a, b, c, d⟩ := swap_resolve_pool
      (flip_all_crtcs env.page_flip
        ⟨(swap_set_crtc ((((s.call (Call.gbm_surface_lock_front_buffer
          s.onscreen.kms.surface)).setKms _).call _).setKms _)).onscreen.id, 0⟩ _ _).1
      (flip_all_crtcs env.page_flip
        ⟨(swap_set_crtc ((((s.call (Call.gbm_surface_lock_front_buffer
          s.onscreen.kms.surface)).setKms _).call _).setKms _)).onscreen.id, 0⟩ _ _).2
    rw [a, b, c, d, flip_all_crtcs_frame, swap_set_crtc_eq]
    exact ⟨rfl, rfl, rfl, rfl⟩

theorem swap_prepare_egl_surface (s : State) :
    (swap_prepare s).onscreen.egl_surface =
      if s.onscreen.kms.pending_egl_surface ≠ 0 then s.onscreen.kms.pending_egl_surface
      else s.onscreen.egl_surface := by
  have h2 : ∀ s2 : State, (swap_pending_surface s2).onscreen.egl_surface =
      s2.onscreen.egl_surface := by
    intro s2
    unfold swap_pending_surface
    split
    · rw [free_current_bo_eq]
      by_cases hs : s2.onscreen.kms.surface = 0 <;> simp [hs, State.call, State.setKms]
    · rfl
  unfold swap_prepare
  rw [h2]
  unfold swap_pending_egl_surface
  split <;> rfl

/-- A layout change with new dimensions on an onscreen that has a pool: the
call succeeds and the onscreen only gets the new pool and rendering surface
as pending replacements. -/
theorem set_layout_pending (new_surface new_egl_surface : Nat) (width height : Int)
    (crtcs : List CoglKmsCrtc) (s : State)
    (hdim : width ≠ s.renderer_native.width ∨ height ≠ s.renderer_native.height)
    (hon : s.renderer_native.onscreen = true)
    (hsurf : s.onscreen.kms.surface ≠ 0)
    (hnew : new_surface ≠ 0) (hegl : new_egl_surface ≠ 0) :
    (meta_renderer_native_set_layout new_surface new_egl_surface width height crtcs s).1
      = true ∧
    (meta_renderer_native_set_layout new_surface new_egl_surface width height crtcs
      s).2.onscreen =
      { s.onscreen with
        kms := { s.onscreen.kms with
          pending_surface := new_surface, pending_egl_surface := new_egl_surface } } := by
  unfold meta_renderer_native_set_layout set_layout_crtcs
  rw [if_pos ⟨hdim, hon⟩]
  simp only [hnew, hegl, if_false, State.call, State.setKms, State.setRenderer]
  by_cases h1 : s.onscreen.kms.pending_egl_surface = 0 <;>
    by_cases h2 : s.onscreen.kms.pending_surface = 0 <;>
    simp [h1, h2, hsurf]

/-- A layout change with new dimensions on an onscreen that has no pool: the
call succeeds and the new pool and rendering surface are installed. -/
theorem set_layout_install (new_surface new_egl_surface : Nat) (width height : Int)
    (crtcs : List CoglKmsCrtc) (s : State)
    (hdim : width ≠ s.renderer_native.width ∨ height ≠ s.renderer_native.height)
    (hon : s.renderer_native.onscreen = true)
    (hsurf : s.onscreen.kms.surface = 0)
    (hnew : new_surface ≠ 0) (hegl : new_egl_surface ≠ 0) :
    (meta_renderer_native_set_layout new_surface new_egl_surface width height crtcs s).1
      = true ∧
    (meta_renderer_native_set_layout new_surface new_egl_surface width height crtcs
      s).2.onscreen =
      { s.onscreen with
        egl_surface := new_egl_surface
        kms := { s.onscreen.kms with surface := new_surface } } := by
  unfold meta_renderer_native_set_layout set_layout_crtcs
  rw [if_pos ⟨hdim, hon⟩]
  simp only [hnew, hegl, if_false, State.call, State.setKms, State.setRenderer]
  by_cases h1 : s.onscreen.kms.pending_egl_surface = 0 <;>
    by_cases h2 : s.onscreen.kms.pending_surface = 0 <;>
    simp [h1, h2, hsurf]

/-- C11. A successful `meta_renderer_native_set_layout` with new dimensions on
an onscreen that has a buffer pool, a frame being mid-flight or not, leaves
`surface`, `egl_surface`, `current_fb_id`, `current_bo`, `next_fb_id` and
`next_bo` as they were and stores the new pool and rendering surface in
`pending_surface` and `pending_egl_surface`. Flip events (`process_flip` on
any request, any number of delivered events) leave all four pool fields as
the layout change left them. A later submission that comes back installs
them: its blocking loop ends with no flip pending and the old pool still in
place, and the call returns with the new pool as `surface`, the new
rendering surface as `egl_surface` and both pending fields `NULL`. -/
theorem set_layout_defers_pool (new_surface new_egl_surface : Nat) (width height : Int)
    (crtcs : List CoglKmsCrtc) (s : State)
    (hdim : width ≠ s.renderer_native.width ∨ height ≠ s.renderer_native.height)
    (hon : s.renderer_native.onscreen = true)
    (hsurf : s.onscreen.kms.surface ≠ 0)
    (hnew : new_surface ≠ 0) (hegl : new_egl_surface ≠ 0) :
    (meta_renderer_native_set_layout new_surface new_egl_surface width height crtcs s).1
      = true ∧
    (meta_renderer_native_set_layout new_surface new_egl_surface width height crtcs
      s).2.onscreen =
      { s.onscreen with
        kms := { s.onscreen.kms with
          pending_surface := new_surface, pending_egl_surface := new_egl_surface } } ∧
    (∀ (flip : CoglFlipKMS),
      (process_flip flip (meta_renderer_native_set_layout new_surface new_egl_surface
        width height crtcs s).2).onscreen.kms.surface = s.onscreen.kms.surface ∧
      (process_flip flip (meta_renderer_native_set_layout new_surface new_egl_surface
        width height crtcs s).2).onscreen.egl_surface = s.onscreen.egl_surface ∧
      (process_flip flip (meta_renderer_native_set_layout new_surface new_egl_surface
        width height crtcs s).2).onscreen.kms.pending_surface = new_surface ∧
      (process_flip flip (meta_renderer_native_set_layout new_surface new_egl_surface
        width height crtcs s).2).onscreen.kms.pending_egl_surface = new_egl_surface) ∧
    (∀ (n : Nat),
      (page_flip_handler^[n] (meta_renderer_native_set_layout new_surface new_egl_surface
        width height crtcs s).2).onscreen.kms.surface = s.onscreen.kms.surface ∧
      (page_flip_handler^[n] (meta_renderer_native_set_layout new_surface new_egl_surface
        width height crtcs s).2).onscreen.egl_surface = s.onscreen.egl_surface ∧
      (page_flip_handler^[n] (meta_renderer_native_set_layout new_surface new_egl_surface
        width height crtcs s).2).onscreen.kms.pending_surface = new_surface ∧
      (page_flip_handler^[n] (meta_renderer_native_set_layout new_surface new_egl_surface
        width height crtcs s).2).onscreen.kms.pending_egl_surface = new_egl_surface) ∧
    (∀ (env : SwapEnv) (s3 : State),
      _cogl_winsys_onscreen_swap_buffers_with_damage env
        (meta_renderer_native_set_layout new_surface new_egl_surface width height crtcs
          s).2 = some s3 →
      (∃ s1, swap_wait env.events (meta_renderer_native_set_layout new_surface
          new_egl_surface width height crtcs s).2 = some s1 ∧
        s1.onscreen.kms.next_fb_id = 0 ∧
        s1.onscreen.kms.surface = s.onscreen.kms.surface ∧
        s1.onscreen.kms.pending_surface = new_surface ∧
        s3 = swap_body env s1) ∧
      s3.onscreen.kms.surface = new_surface ∧
      s3.onscreen.egl_surface = new_egl_surface ∧
      s3.onscreen.kms.pending_surface = 0 ∧
      s3.onscreen.kms.pending_egl_surface = 0) := by
  obtain ⟨h1, h2⟩ := set_layout_pending new_surface new_egl_surface width height crtcs s
    hdim hon hsurf hnew hegl
  refine ⟨h1, h2, ?_, ?_, ?_⟩
  · intro flip
    obtain ⟨a, b, c, d⟩ := process_flip_pool flip
      (meta_renderer_native_set_layout new_surface new_egl_surface width height crtcs s).2
    rw [a, b, c, d, h2]
    exact ⟨rfl, rfl, rfl, rfl⟩
  · intro n
    obtain ⟨a, b, c, d⟩ := page_flip_handler_iterate_pool n
      (meta_renderer_native_set_layout new_surface new_egl_surface width height crtcs s).2
    rw [a, b, c, d, h2]
    exact ⟨rfl, rfl, rfl, rfl⟩
  · intro env s3 hs3
    simp only [_cogl_winsys_onscreen_swap_buffers_with_damage, Option.map_eq_some'] at hs3
    obtain ⟨s1, hw, rfl⟩ := hs3
    obtain ⟨w0, w1, w2, w3, w4⟩ := swap_wait_pool _ _ _ hw
    rw [h2] at w1 w2 w3 w4
    simp only at w1 w2 w3 w4
    obtain ⟨a, b, c, d⟩ := swap_submit_pool env (swap_prepare s1)
    have hk := swap_prepare_kms_some s1 (by rw [w3]; exact hnew)
    have he := swap_prepare_egl_surface s1
    rw [w4, if_pos hegl] at he
    refine ⟨⟨s1, hw, w0, w1, w3, rfl⟩, ?_, ?_, ?_, ?_⟩
    · show (swap_submit env (swap_prepare s1)).onscreen.kms.surface = new_surface
      rw [a, hk]
      exact w3
    · show (swap_submit env (swap_prepare s1)).onscreen.egl_surface = new_egl_surface
      rw [b, he]
    · show (swap_submit env (swap_prepare s1)).onscreen.kms.pending_surface = 0
      rw [c, hk]
    · show (swap_submit env (swap_prepare s1)).onscreen.kms.pending_egl_surface = 0
      rw [d, hk]

/-- The theorem of C11 at a concrete input: a layout change to 1920x1080
(new pool `7`, new rendering surface `8`) while frame `11` is mid-flight.
The pool is still `5` after the layout change and after the flip event,
and `7` after the next submission. -/
theorem set_layout_defers_pool_witness :
    exampleMidFlight.onscreen.kms.next_fb_id = 11 ∧
    (meta_renderer_native_set_layout 7 8 1920 1080 [exampleCrtc 1]
      exampleMidFlight).2.onscreen.kms.surface = 5 ∧
    (meta_renderer_native_set_layout 7 8 1920 1080 [exampleCrtc 1]
      exampleMidFlight).2.onscreen.kms.pending_surface = 7 ∧
    (page_flip_handler^[1] (meta_renderer_native_set_layout 7 8 1920 1080 [exampleCrtc 1]
      exampleMidFlight).2).onscreen.kms.surface = 5 ∧
    ((_cogl_winsys_onscreen_swap_buffers_with_damage { exampleEnv with events := [1] }
      (meta_renderer_native_set_layout 7 8 1920 1080 [exampleCrtc 1]
        exampleMidFlight).2).map (fun s => s.onscreen.kms.surface)) = some 7 := by
  have h := set_layout_defers_pool 7 8 1920 1080 [exampleCrtc 1] exampleMidFlight
    (Or.inl (by decide)) (by decide) (by decide) (by decide) (by decide)
  refine ⟨by decide, ?_, ?_, (h.2.2.2.1 1).1.trans (by decide), by decide⟩
  · rw [h.2.1]
    decide
  · rw [h.2.1]

/-! ### C12 -/

/-- What a successful `_cogl_winsys_onscreen_init` leaves: the onscreen is
registered with the renderer and the dimensions are those of before; with a
zero dimension the swap chain is zeroed and there is no pool; otherwise the
pool and the rendering surface are the ones just created. -/
theorem onscreen_init_true (egl_context : Bool) (surface egl_surface : Nat) (s0 s : State)
    (h : _cogl_winsys_onscreen_init egl_context surface egl_surface s0 = (true, s)) :
    s.renderer_native.onscreen = true ∧
    s.renderer_native.width = s0.renderer_native.width ∧
    s.renderer_native.height = s0.renderer_native.height ∧
    ((s0.renderer_native.width = 0 ∨ s0.renderer_native.height = 0) →
      s.onscreen.kms = CoglOnscreenKMS.zero ∧ s.onscreen.egl_surface = 0) ∧
    (¬ (s0.renderer_native.width = 0 ∨ s0.renderer_native.height = 0) →
      s.onscreen.kms = { CoglOnscreenKMS.zero with surface := surface } ∧
      s.onscreen.egl_surface = egl_surface ∧ surface ≠ 0 ∧ egl_surface ≠ 0) := by
  unfold _cogl_winsys_onscreen_init at h
  split at h
  · simp at h
  · split at h
    · simp at h
    · simp only [State.setRenderer, State.call, State.setKms] at h
      split at h
      · next hz =>
        obtain ⟨_, rfl⟩ := Prod.mk.inj h
        exact ⟨rfl, rfl, rfl, fun _ => ⟨rfl, rfl⟩, fun hn => absurd hz hn⟩
      · next hz =>
        split at h
        · simp at h
        · next hs =>
          split at h
          · simp at h
          · next he =>
            obtain ⟨_, rfl⟩ := Prod.mk.inj h
            exact ⟨rfl, rfl, rfl, fun hz' => absurd hz' hz,
              fun _ => ⟨rfl, rfl, hs, he⟩⟩

/-- C12, as the code has it. A successful `meta_renderer_native_set_layout`
with new dimensions, called right after a successful
`_cogl_winsys_onscreen_init`: when the init deferred surface creation
(width or height was `0`) the new pool and rendering surface are installed
at once and the pending fields stay `NULL`; when the init created a surface
at non-zero dimensions, the pool and rendering surface of the init stay in
place and the new ones are stored as pending, although no frame has been
presented. In general, on any state `t` with an onscreen, the new pool is
installed at once when the onscreen has no pool
(`kms_onscreen->surface == NULL`) and stored as pending when it has one. -/
theorem set_layout_installs_when_no_pool (egl_context : Bool)
    (surface egl_surface new_surface new_egl_surface : Nat) (width height : Int)
    (crtcs : List CoglKmsCrtc) (s0 s t : State)
    (hinit : _cogl_winsys_onscreen_init egl_context surface egl_surface s0 = (true, s))
    (hdim : width ≠ s.renderer_native.width ∨ height ≠ s.renderer_native.height)
    (hnew : new_surface ≠ 0) (hegl : new_egl_surface ≠ 0) :
    (meta_renderer_native_set_layout new_surface new_egl_surface width height crtcs s).1
      = true ∧
    ((s0.renderer_native.width = 0 ∨ s0.renderer_native.height = 0) →
      (meta_renderer_native_set_layout new_surface new_egl_surface width height crtcs
        s).2.onscreen.kms.surface = new_surface ∧
      (meta_renderer_native_set_layout new_surface new_egl_surface width height crtcs
        s).2.onscreen.egl_surface = new_egl_surface ∧
      (meta_renderer_native_set_layout new_surface new_egl_surface width height crtcs
        s).2.onscreen.kms.pending_surface = 0 ∧
      (meta_renderer_native_set_layout new_surface new_egl_surface width height crtcs
        s).2.onscreen.kms.pending_egl_surface = 0) ∧
    (¬ (s0.renderer_native.width = 0 ∨ s0.renderer_native.height = 0) →
      (meta_renderer_native_set_layout new_surface new_egl_surface width height crtcs
        s).2.onscreen.kms.surface = surface ∧
      (meta_renderer_native_set_layout new_surface new_egl_surface width height crtcs
        s).2.onscreen.egl_surface = egl_surface ∧
      (meta_renderer_native_set_layout new_surface new_egl_surface width height crtcs
        s).2.onscreen.kms.pending_surface = new_surface ∧
      (meta_renderer_native_set_layout new_surface new_egl_surface width height crtcs
        s).2.onscreen.kms.pending_egl_surface = new_egl_surface) ∧
    (t.renderer_native.onscreen = true →
      (width ≠ t.renderer_native.width ∨ height ≠ t.renderer_native.height) →
      (t.onscreen.kms.surface = 0 →
        (meta_renderer_native_set_layout new_surface new_egl_surface width height crtcs
          t).2.onscreen.kms.surface = new_surface ∧
        (meta_renderer_native_set_layout new_surface new_egl_surface width height crtcs
          t).2.onscreen.egl_surface = new_egl_surface) ∧
      (t.onscreen.kms.surface ≠ 0 →
        (meta_renderer_native_set_layout new_surface new_egl_surface width height crtcs
          t).2.onscreen.kms.surface = t.onscreen.kms.surface ∧
        (meta_renderer_native_set_layout new_surface new_egl_surface width height crtcs
          t).2.onscreen.egl_surface = t.onscreen.egl_surface ∧
        (meta_renderer_native_set_layout new_surface new_egl_surface width height crtcs
          t).2.onscreen.kms.pending_surface = new_surface ∧
        (meta_renderer_native_set_layout new_surface new_egl_surface width height crtcs
          t).2.onscreen.kms.pending_egl_surface = new_egl_surface)) := by
  obtain ⟨i1, i2, i3, i4, i5⟩ := onscreen_init_true _ _ _ _ _ hinit
  refine ⟨?_, ?_, ?_, ?_⟩
  · by_cases hz : s0.renderer_native.width = 0 ∨ s0.renderer_native.height = 0
    · exact (set_layout_install new_surface new_egl_surface width height crtcs s hdim i1
        (by rw [(i4 hz).1]; rfl) hnew hegl).1
    · exact (set_layout_pending new_surface new_egl_surface width height crtcs s hdim i1
        (by rw [(i5 hz).1]; exact (i5 hz).2.2.1) hnew hegl).1
  · intro hz
    obtain ⟨k, e⟩ := i4 hz
    rw [(set_layout_install new_surface new_egl_surface width height crtcs s hdim i1
        (by rw [k]; rfl) hnew hegl).2, k]
    exact ⟨rfl, rfl, rfl, rfl⟩
  · intro hz
    obtain ⟨k, e, hs, he⟩ := i5 hz
    rw [(set_layout_pending new_surface new_egl_surface width height crtcs s hdim i1
        (by rw [k]; exact hs) hnew hegl).2, k, e]
    exact ⟨rfl, rfl, rfl, rfl⟩
  · intro hon hd
    constructor
    · intro hs
      rw [(set_layout_install new_surface new_egl_surface width height crtcs t hd hon hs
        hnew hegl).2]
      exact ⟨rfl, rfl⟩
    · intro hs
      rw [(set_layout_pending new_surface new_egl_surface width height crtcs t hd hon hs
        hnew hegl).2]
      exact ⟨rfl, rfl, rfl, rfl⟩

/-- An onscreen initialised at 640x480 (pool `5`, rendering surface `6`) on
which no frame has been presented: a successful layout change to 1920x1080
(pool `7`, rendering surface `8`) leaves pool `5` and surface `6` in place
and stores the new ones as pending. -/
theorem set_layout_after_init_counterexample :
    _cogl_winsys_onscreen_init true 5 6 examplePreInit = (true, exampleFresh) ∧
    exampleFresh.trace = [Call.gbm_surface_create 640 480, Call.eglCreateWindowSurface 5,
      Call.update_size 640 480] ∧
    (meta_renderer_native_set_layout 7 8 1920 1080 [exampleCrtc 1] exampleFresh).1 = true ∧
    (meta_renderer_native_set_layout 7 8 1920 1080 [exampleCrtc 1]
      exampleFresh).2.onscreen.kms.surface = 5 ∧
    (meta_renderer_native_set_layout 7 8 1920 1080 [exampleCrtc 1]
      exampleFresh).2.onscreen.egl_surface = 6 ∧
    (meta_renderer_native_set_layout 7 8 1920 1080 [exampleCrtc 1]
      exampleFresh).2.onscreen.kms.pending_surface = 7 ∧
    (meta_renderer_native_set_layout 7 8 1920 1080 [exampleCrtc 1]
      exampleFresh).2.onscreen.kms.pending_egl_surface = 8 := by
  decide

/-- The theorem of C12 at a concrete input: an onscreen initialised while the
dimensions were still `0` gets pool `7` and rendering surface `8` at once
from the first layout change. -/
theorem set_layout_installs_when_no_pool_witness :
    (_cogl_winsys_onscreen_init true 5 6
      { examplePreInit with renderer_native :=
        { examplePreInit.renderer_native with width := 0, height := 0 } }).1 = true ∧
    (meta_renderer_native_set_layout 7 8 1920 1080 [exampleCrtc 1]
      (_cogl_winsys_onscreen_init true 5 6
        { examplePreInit with renderer_native :=
          { examplePreInit.renderer_native with width := 0, height := 0 } }).2
      ).2.onscreen.kms.surface = 7 ∧
    (meta_renderer_native_set_layout 7 8 1920 1080 [exampleCrtc 1]
      (_cogl_winsys_onscreen_init true 5 6
        { examplePreInit with renderer_native :=
          { examplePreInit.renderer_native with width := 0, height := 0 } }).2
      ).2.onscreen.kms.pending_surface = 0 := by
  have h := (set_layout_installs_when_no_pool true 5 6 7 8 1920 1080 [exampleCrtc 1]
    { examplePreInit with renderer_native :=
      { examplePreInit.renderer_native with width := 0, height := 0 } }
    (_cogl_winsys_onscreen_init true 5 6
      { examplePreInit with renderer_native :=
        { examplePreInit.renderer_native with width := 0, height := 0 } }).2
    exampleFresh rfl (Or.inl (by decide)) (by decide) (by decide)).2.1 (Or.inl rfl)
  exact ⟨rfl, h.1, h.2.2.1⟩

/-! ### C13 -/

theorem foldl_crtc_copy (crtcs acc : List CoglKmsCrtc) :
    crtcs.foldl (fun acc crtc => crtc_copy crtc :: acc) acc =
      (crtcs.map crtc_copy).reverse ++ acc := by
  induction crtcs generalizing acc with
  | nil => rfl
  | cons c l ih => simp [List.foldl_cons, ih]

/-- The end of the layout change in closed form. -/
theorem set_layout_crtcs_eq (width height : Int) (crtcs : List CoglKmsCrtc) (s : State) :
    set_layout_crtcs width height crtcs s =
      { s with renderer_native :=
        { s.renderer_native with
          width := width, height := height, crtcs := crtcs.map crtc_copy,
          pending_set_crtc := true } } := by
  unfold set_layout_crtcs
  simp [State.setRenderer, foldl_crtc_copy]

/-- The copy of a descriptor whose connector array has no more than `count`
elements is equal to the descriptor. -/
theorem crtc_copy_eq (crtc : CoglKmsCrtc) (h : crtc.connectors.length ≤ crtc.count) :
    crtc_copy crtc = crtc := by
  unfold crtc_copy
  rw [List.take_of_length_le h]

/-- When the layout change fails: nothing but the trace has changed. -/
theorem set_layout_false (new_surface new_egl_surface : Nat) (width height : Int)
    (crtcs : List CoglKmsCrtc) (s : State)
    (h : (meta_renderer_native_set_layout new_surface new_egl_surface width height crtcs
      s).1 = false) :
    ((width ≠ s.renderer_native.width ∨ height ≠ s.renderer_native.height) ∧
      s.renderer_native.onscreen = true ∧ (new_surface = 0 ∨ new_egl_surface = 0)) ∧
    (meta_renderer_native_set_layout new_surface new_egl_surface width height crtcs
      s).2.renderer_native = s.renderer_native ∧
    (meta_renderer_native_set_layout new_surface new_egl_surface width height crtcs
      s).2.onscreen = s.onscreen := by
  unfold meta_renderer_native_set_layout at h ⊢
  split at h
  · next hc =>
    rw [if_pos hc]
    simp only [State.call] at h ⊢
    split at h
    · next h0 =>
      rw [if_pos h0]
      exact ⟨⟨hc.1, hc.2, Or.inl h0⟩, rfl, rfl⟩
    · next h0 =>
      rw [if_neg h0]
      split at h
      · next h1 =>
        rw [if_pos h1]
        exact ⟨⟨hc.1, hc.2, Or.inr h1⟩, rfl, rfl⟩
      · simp at h
  · simp at h

/-- When the layout change succeeds: the controller list is the copy of the
new descriptors and the mode-set is due. -/
theorem set_layout_true (new_surface new_egl_surface : Nat) (width height : Int)
    (crtcs : List CoglKmsCrtc) (s : State)
    (h : (meta_renderer_native_set_layout new_surface new_egl_surface width height crtcs
      s).1 = true) :
    (meta_renderer_native_set_layout new_surface new_egl_surface width height crtcs
      s).2.renderer_native =
      { s.renderer_native with
        width := width, height := height, crtcs := crtcs.map crtc_copy,
        pending_set_crtc := true } := by
  unfold meta_renderer_native_set_layout at h ⊢
  simp only [set_layout_crtcs_eq, State.call, State.setKms] at h ⊢
  by_cases hc : (width ≠ s.renderer_native.width ∨ height ≠ s.renderer_native.height) ∧
      s.renderer_native.onscreen = true
  · rw [if_pos hc] at h ⊢
    by_cases h0 : new_surface = 0
    · simp [h0] at h
    · rw [if_neg h0] at h ⊢
      by_cases h1 : new_egl_surface = 0
      · simp [h1] at h
      · rw [if_neg h1]
        split <;> split <;> split <;> rfl
  · rw [if_neg hc]

/-- When an allocation of the layout change fails: the call returns `FALSE`
and the renderer is as before. -/
theorem set_layout_fails (new_surface new_egl_surface : Nat) (width height : Int)
    (crtcs : List CoglKmsCrtc) (s : State)
    (hdim : width ≠ s.renderer_native.width ∨ height ≠ s.renderer_native.height)
    (hon : s.renderer_native.onscreen = true)
    (hfail : new_surface = 0 ∨ new_egl_surface = 0) :
    (meta_renderer_native_set_layout new_surface new_egl_surface width height crtcs s).1
      = false ∧
    (meta_renderer_native_set_layout new_surface new_egl_surface width height crtcs
      s).2.renderer_native = s.renderer_native ∧
    (meta_renderer_native_set_layout new_surface new_egl_surface width height crtcs
      s).2.onscreen = s.onscreen := by
  unfold meta_renderer_native_set_layout
  simp only [State.call]
  rw [if_pos ⟨hdim, hon⟩]
  by_cases h0 : new_surface = 0
  · rw [if_pos h0]
    exact ⟨rfl, rfl, rfl⟩
  · rw [if_neg h0]
    rcases hfail with h | h
    · exact absurd h h0
    · rw [if_pos h]
      exact ⟨rfl, rfl, rfl⟩

/-- C13, as the code has it. When `meta_renderer_native_set_layout` returns
`TRUE` (no allocation was needed, or both allocations succeeded),
`renderer_native->crtcs` is afterwards the list of the copies of the
`n_crtcs` descriptors passed, in the same order, whatever the list was
before; a copy has the fields of its original and the first `count`
elements of its connector array, so that it is equal to the original when
that array has `count` elements; and `pending_set_crtc` is `TRUE`. When the
call returns `FALSE` (the dimensions differ, an onscreen exists and the
pool or the rendering surface could not be created), the controller list
and `pending_set_crtc` are those of before the call. The call returns `TRUE`
when no allocation is needed or both succeed, and when the dimensions
differ, an onscreen exists and the pool or the rendering surface cannot be
created it returns `FALSE` and leaves the controller list, whatever it is,
`pending_set_crtc` and the onscreen as they were. -/
theorem set_layout_replaces_crtcs (new_surface new_egl_surface : Nat) (width height : Int)
    (crtcs : List CoglKmsCrtc) (s : State) :
    ((meta_renderer_native_set_layout new_surface new_egl_surface width height crtcs s).1
        = true →
      (meta_renderer_native_set_layout new_surface new_egl_surface width height crtcs
        s).2.renderer_native.crtcs = crtcs.map crtc_copy ∧
      (meta_renderer_native_set_layout new_surface new_egl_surface width height crtcs
        s).2.renderer_native.crtcs.length = crtcs.length ∧
      (∀ crtc : CoglKmsCrtc,
        (crtc_copy crtc).id = crtc.id ∧ (crtc_copy crtc).x = crtc.x ∧
        (crtc_copy crtc).y = crtc.y ∧ (crtc_copy crtc).mode = crtc.mode ∧
        (crtc_copy crtc).count = crtc.count ∧ (crtc_copy crtc).ignore = crtc.ignore ∧
        (crtc_copy crtc).connectors = crtc.connectors.take crtc.count) ∧
      ((∀ crtc ∈ crtcs, crtc.connectors.length ≤ crtc.count) →
        (meta_renderer_native_set_layout new_surface new_egl_surface width height crtcs
          s).2.renderer_native.crtcs = crtcs) ∧
      (meta_renderer_native_set_layout new_surface new_egl_surface width height crtcs
        s).2.renderer_native.pending_set_crtc = true) ∧
    ((meta_renderer_native_set_layout new_surface new_egl_surface width height crtcs s).1
        = false →
      ((width ≠ s.renderer_native.width ∨ height ≠ s.renderer_native.height) ∧
        s.renderer_native.onscreen = true ∧ (new_surface = 0 ∨ new_egl_surface = 0)) ∧
      (meta_renderer_native_set_layout new_surface new_egl_surface width height crtcs
        s).2.renderer_native.crtcs = s.renderer_native.crtcs ∧
      (meta_renderer_native_set_layout new_surface new_egl_surface width height crtcs
        s).2.renderer_native.pending_set_crtc = s.renderer_native.pending_set_crtc) ∧
    ((¬ ((width ≠ s.renderer_native.width ∨ height ≠ s.renderer_native.height) ∧
          s.renderer_native.onscreen = true) ∨
        (new_surface ≠ 0 ∧ new_egl_surface ≠ 0)) →
      (meta_renderer_native_set_layout new_surface new_egl_surface width height crtcs s).1
        = true) ∧
    ((width ≠ s.renderer_native.width ∨ height ≠ s.renderer_native.height) →
      s.renderer_native.onscreen = true → (new_surface = 0 ∨ new_egl_surface = 0) →
      (meta_renderer_native_set_layout new_surface new_egl_surface width height crtcs s).1
        = false ∧
      (meta_renderer_native_set_layout new_surface new_egl_surface width height crtcs
        s).2.renderer_native.crtcs = s.renderer_native.crtcs ∧
      (meta_renderer_native_set_layout new_surface new_egl_surface width height crtcs
        s).2.renderer_native.pending_set_crtc = s.renderer_native.pending_set_crtc ∧
      (meta_renderer_native_set_layout new_surface new_egl_surface width height crtcs
        s).2.onscreen = s.onscreen) := by
  refine ⟨?_, ?_, ?_, ?_⟩
  · intro h
    rw [set_layout_true _ _ _ _ _ _ h]
    refine ⟨rfl, by simp, fun crtc => ⟨rfl, rfl, rfl, rfl, rfl, rfl, rfl⟩, ?_, rfl⟩
    intro hwf
    show crtcs.map crtc_copy = crtcs
    conv_rhs => rw [← List.map_id crtcs]
    exact List.map_congr_left (fun c hc => crtc_copy_eq c (hwf c hc))
  · intro h
    obtain ⟨a, b, _⟩ := set_layout_false _ _ _ _ _ _ h
    exact ⟨a, by rw [b], by rw [b]⟩
  · intro h
    cases hb : (meta_renderer_native_set_layout new_surface new_egl_surface width height
      crtcs s).1 with
    | true => rfl
    | false =>
      obtain ⟨⟨a1, a2, a3⟩, _, _⟩ := set_layout_false _ _ _ _ _ _ hb
      rcases h with h | h
      · exact absurd ⟨a1, a2⟩ h
      · rcases a3 with a3 | a3
        · exact absurd a3 h.1
        · exact absurd a3 h.2
  · intro hdim hon hfail
    obtain ⟨a, b, c⟩ := set_layout_fails new_surface new_egl_surface width height crtcs s
      hdim hon hfail
    exact ⟨a, by rw [b], by rw [b], c⟩

/-- A layout change to 1920x1080 whose `gbm_surface_create` fails: the call
returns `FALSE`, the controller list is still the old one and
`pending_set_crtc` is still `FALSE`. -/
theorem set_layout_failure_counterexample :
    (exampleState [exampleCrtc 1]).renderer_native.crtcs = [exampleCrtc 1] ∧
    (exampleState [exampleCrtc 1]).renderer_native.pending_set_crtc = false ∧
    (meta_renderer_native_set_layout 0 0 1920 1080 [exampleCrtc 2, exampleCrtc 3]
      (exampleState [exampleCrtc 1])).1 = false ∧
    (meta_renderer_native_set_layout 0 0 1920 1080 [exampleCrtc 2, exampleCrtc 3]
      (exampleState [exampleCrtc 1])).2.renderer_native.crtcs = [exampleCrtc 1] ∧
    (meta_renderer_native_set_layout 0 0 1920 1080 [exampleCrtc 2, exampleCrtc 3]
      (exampleState [exampleCrtc 1])).2.renderer_native.pending_set_crtc = false := by
  decide

/-- The theorem of C13 at concrete inputs: a successful layout change to two
controllers, and one whose `eglCreateWindowSurface` fails. -/
theorem set_layout_replaces_crtcs_witness :
    (meta_renderer_native_set_layout 7 8 1920 1080 [exampleCrtc 2, exampleCrtc 3]
      (exampleState [exampleCrtc 1])).2.renderer_native.crtcs =
      [exampleCrtc 2, exampleCrtc 3] ∧
    (meta_renderer_native_set_layout 7 8 1920 1080 [exampleCrtc 2, exampleCrtc 3]
      (exampleState [exampleCrtc 1])).2.renderer_native.pending_set_crtc = true ∧
    (meta_renderer_native_set_layout 7 0 1920 1080 [exampleCrtc 2, exampleCrtc 3]
      (exampleState [exampleCrtc 1])).1 = false ∧
    (meta_renderer_native_set_layout 7 0 1920 1080 [exampleCrtc 2, exampleCrtc 3]
      (exampleState [exampleCrtc 1])).2.renderer_native.crtcs = [exampleCrtc 1] := by
  have h := (set_layout_replaces_crtcs 7 8 1920 1080 [exampleCrtc 2, exampleCrtc 3]
    (exampleState [exampleCrtc 1])).1 (by decide)
  have h2 := (set_layout_replaces_crtcs 7 0 1920 1080 [exampleCrtc 2, exampleCrtc 3]
    (exampleState [exampleCrtc 1])).2.2.2 (Or.inl (by decide)) rfl (Or.inr rfl)
  exact ⟨h.2.2.2.1 (by decide), h.2.2.2.2, h2.1, h2.2.1⟩

/-! ### C14 and C15 -/

theorem fanOutCalls_unsupported (page_flip : Nat → Int) (fb_id : Nat)
    (r : MetaRendererNative) (h : r.page_flips_not_supported = true) :
    fanOutCalls page_flip fb_id r = [] := by
  unfold fanOutCalls
  rw [flip_loop_unsupported _ _ _ _ _ h]

theorem fanOutCalls_soft (page_flip : Nat → Int) (fb_id : Nat) (r : MetaRendererNative)
    (h : r.page_flips_not_supported = false) (hok : noHardFailure page_flip 0 r.crtcs) :
    fanOutCalls page_flip fb_id r = flipCalls fb_id r.crtcs := by
  unfold fanOutCalls
  rw [flip_loop_soft _ _ _ _ _ h hok]
  simp

theorem fanOutCalls_hard (page_flip : Nat → Int) (fb_id : Nat) (r : MetaRendererNative)
    (k : Nat) (h : r.page_flips_not_supported = false)
    (hk : hardFailure page_flip 0 r.crtcs = some k) :
    fanOutCalls page_flip fb_id r = flipCalls fb_id (r.crtcs.take (k + 1)) := by
  unfold fanOutCalls
  rw [flip_loop_hard _ _ _ _ _ k h hk]
  simp

theorem filter_isPageFlip_flipCalls (fb_id : Nat) (l : List CoglKmsCrtc) :
    (flipCalls fb_id l).filter Call.isPageFlip = flipCalls fb_id l := by
  unfold flipCalls
  induction l.filter CoglKmsCrtc.active with
  | nil => rfl
  | cons c l ih =>
    rw [List.map_cons, List.filter_cons_of_pos (by simp [Call.isPageFlip]), ih]

theorem filter_isSetCrtc_flipCalls (fb_id : Nat) (l : List CoglKmsCrtc) :
    (flipCalls fb_id l).filter Call.isSetCrtc = [] := by
  unfold flipCalls
  induction l.filter CoglKmsCrtc.active with
  | nil => rfl
  | cons c l ih =>
    rw [List.map_cons, List.filter_cons_of_neg (by simp [Call.isSetCrtc]), ih]

/-- The calls of a fan-out are page flips and nothing else. -/
theorem fanOutCalls_kind (page_flip : Nat → Int) (fb_id : Nat) (r : MetaRendererNative) :
    (fanOutCalls page_flip fb_id r).filter Call.isPageFlip = fanOutCalls page_flip fb_id r ∧
    (fanOutCalls page_flip fb_id r).filter Call.isSetCrtc = [] := by
  cases hflag : r.page_flips_not_supported with
  | true =>
    rw [fanOutCalls_unsupported _ _ _ hflag]
    exact ⟨rfl, rfl⟩
  | false =>
    cases hk : hardFailure page_flip 0 r.crtcs with
    | none =>
      rw [fanOutCalls_soft _ _ _ hflag ((hardFailure_none_iff _ _ _).1 hk)]
      exact ⟨filter_isPageFlip_flipCalls _ _, filter_isSetCrtc_flipCalls _ _⟩
    | some k =>
      rw [fanOutCalls_hard _ _ _ k hflag hk]
      exact ⟨filter_isPageFlip_flipCalls _ _, filter_isSetCrtc_flipCalls _ _⟩

theorem filter_isSetCrtc_setCrtcCalls (fb_id : Nat) (l : List CoglKmsCrtc) :
    (setCrtcCalls fb_id l).filter Call.isSetCrtc = setCrtcCalls fb_id l := by
  induction l with
  | nil => rfl
  | cons c l ih =>
    simp only [setCrtcCalls, List.map_cons] at ih ⊢
    rw [List.filter_cons_of_pos (by simp [Call.isSetCrtc]), ih]

theorem filter_isSetCrtc_queueCalls (r : MetaRendererNative) :
    (queueCalls r).filter Call.isSetCrtc = [] := by
  unfold queueCalls
  cases r.swap_notify_idle <;> simp [Call.isSetCrtc]

theorem filter_isSetCrtc_freeCalls (kms : CoglOnscreenKMS) :
    (freeCalls kms).filter Call.isSetCrtc = [] :=
  List.filter_eq_nil_iff.2 (fun c hc => by simp [isSetCrtc_freeCalls kms c hc])

/-- The calls of the block that ends the submission: no page flip; the
mode-set calls once more when the request is resolved within the call, and
none otherwise. -/
theorem swap_resolve_trace (flip : CoglFlipKMS) (s : State) :
    ∃ R, (swap_resolve flip s).trace = s.trace ++ R ∧
      R.filter Call.isPageFlip = [] ∧
      R.filter Call.isSetCrtc =
        (if flip.pending ≠ 0 ∧ s.renderer_native.page_flips_not_supported = true then
          setCrtcCalls s.onscreen.kms.next_fb_id s.renderer_native.crtcs else []) := by
  by_cases h0 : flip.pending = 0
  · refine ⟨_, by rw [swap_resolve_zero _ _ h0, List.append_assoc], ?_, ?_⟩
    · simp [List.filter_append, filter_isPageFlip_queueCalls, Call.isPageFlip]
    · simp [List.filter_append, filter_isSetCrtc_queueCalls, Call.isSetCrtc, h0]
  · cases hflag : s.renderer_native.page_flips_not_supported with
    | false =>
      refine ⟨_, by rw [swap_resolve_async _ _ h0 hflag], ?_, ?_⟩
      · simp [Call.isPageFlip]
      · simp [Call.isSetCrtc]
    | true =>
      rw [swap_resolve_sync_def _ _ h0 hflag]
      by_cases h1 : flip.pending = 1
      · refine ⟨_, by rw [process_flip_last _ _ h1]; simp only [List.append_assoc]; rfl,
          ?_, ?_⟩
        · simp [List.filter_append, filter_isPageFlip_queueCalls,
            filter_isPageFlip_of_quiet _ (quiet_setCrtcCalls _ _),
            filter_isPageFlip_of_quiet _ (quiet_freeCalls _), Call.isPageFlip]
        · simp [List.filter_append, filter_isSetCrtc_queueCalls,
            filter_isSetCrtc_setCrtcCalls, filter_isSetCrtc_freeCalls, Call.isSetCrtc, h0]
      · refine ⟨_, by rw [process_flip_more _ _ h1]; simp only [List.append_assoc]; rfl,
          ?_, ?_⟩
        · simp [List.filter_append,
            filter_isPageFlip_of_quiet _ (quiet_setCrtcCalls _ _), Call.isPageFlip]
        · simp [List.filter_append, filter_isSetCrtc_setCrtcCalls, Call.isSetCrtc, h0]

/-- The trace of a submission up to the end of its fan-out: what precedes the
lock, the lock and the registration, the mode-set calls when the mode-set
is due, the page flips of the fan-out. -/
theorem swap_fan_out_trace_eq (env : SwapEnv) (fb_id : Nat) (s : State) :
    (swap_fan_out env fb_id s).2.trace =
      (swap_prepare s).trace ++
        [Call.gbm_surface_lock_front_buffer (swap_prepare s).onscreen.kms.surface,
         Call.drmModeAddFB s.renderer_native.width s.renderer_native.height env.front_bo] ++
        (if s.renderer_native.pending_set_crtc then
          setCrtcCalls fb_id s.renderer_native.crtcs else []) ++
        fanOutCalls env.page_flip fb_id s.renderer_native ∧
    (swap_fan_out env fb_id s).2.renderer_native.pending_set_crtc = false := by
  obtain ⟨p1, _, _, _, _, _⟩ := swap_prepare_frame s
  unfold swap_fan_out fanOutCalls
  rw [flip_all_crtcs_frame, swap_set_crtc_eq]
  simp [State.call, State.setKms, p1]

theorem swap_resolve_pending_set_crtc (flip : CoglFlipKMS) (s : State) :
    (swap_resolve flip s).renderer_native.pending_set_crtc =
      s.renderer_native.pending_set_crtc := by
  by_cases h : flip.pending = 0
  · rw [swap_resolve_zero _ _ h]
  · cases hflag : s.renderer_native.page_flips_not_supported with
    | true =>
      rw [swap_resolve_sync_def _ _ h hflag]
      by_cases h1 : flip.pending = 1
      · rw [process_flip_last _ _ h1]
      · rw [process_flip_more _ _ h1]
    | false => rw [swap_resolve_async _ _ h hflag]

/-- The trace of a submission whose framebuffer is registered: the calls up
to the registration (`T1`), the mode-set calls when the mode-set is due, the
page flips of the fan-out, the calls of the resolution (`T3`). -/
theorem swap_body_trace (env : SwapEnv) (fb_id : Nat) (s : State)
    (hadd : env.add_fb = some fb_id) :
    ∃ T1 T3, (swap_body env s).trace =
        s.trace ++ T1 ++
          (if s.renderer_native.pending_set_crtc then
            setCrtcCalls fb_id s.renderer_native.crtcs else []) ++
          fanOutCalls env.page_flip fb_id s.renderer_native ++ T3 ∧
      T1.filter Call.isSetCrtc = [] ∧
      T1.filter Call.isPageFlip = [] ∧
      T3.filter Call.isPageFlip = [] ∧
      T3.filter Call.isSetCrtc =
        (if (swap_fan_out env fb_id s).1.pending ≠ 0 ∧
            (swap_fan_out env fb_id s).2.renderer_native.page_flips_not_supported = true then
          setCrtcCalls fb_id s.renderer_native.crtcs else []) ∧
      (swap_body env s).renderer_native.pending_set_crtc = false := by
  obtain ⟨P, eP, qP⟩ := swap_prepare_trace s
  obtain ⟨P', eP', qP'⟩ := swap_prepare_no_set_crtc s
  have hPP : P = P' := List.append_cancel_left (eP.symm.trans eP')
  subst hPP
  obtain ⟨e1, e2⟩ := swap_fan_out_trace_eq env fb_id s
  obtain ⟨_, _, g3, _, g5, _, _⟩ := swap_fan_out_state env fb_id s
  obtain ⟨R, eR, r1, r2⟩ := swap_resolve_trace (swap_fan_out env fb_id s).1
    (swap_fan_out env fb_id s).2
  rw [g3, g5] at r2
  refine ⟨P ++ [Call.gbm_surface_lock_front_buffer (swap_prepare s).onscreen.kms.surface,
      Call.drmModeAddFB s.renderer_native.width s.renderer_native.height env.front_bo],
    R, ?_, ?_, ?_, r1, r2, ?_⟩
  · rw [swap_body_eq_resolve env fb_id s hadd, eR, e1, eP]
    simp only [List.append_assoc]
  · rw [List.filter_append, List.filter_eq_nil_iff.2 (fun c hc => by simp [qP' c hc])]
    simp [Call.isSetCrtc]
  · rw [List.filter_append, filter_isPageFlip_of_quiet _ qP]
    simp [Call.isPageFlip]
  · rw [swap_body_eq_resolve env fb_id s hadd, swap_resolve_pending_set_crtc, e2]

/-- The frame is resolved within the call with page flips unsupported
exactly when a controller is active and either the flag is set on entry or
a flip fails hard. -/
theorem swap_fan_out_degraded_iff (env : SwapEnv) (fb_id : Nat) (s : State) :
    ((swap_fan_out env fb_id s).1.pending ≠ 0 ∧
      (swap_fan_out env fb_id s).2.renderer_native.page_flips_not_supported = true) ↔
    (0 < activeCount s.renderer_native.crtcs ∧
      (s.renderer_native.page_flips_not_supported = true ∨
        ¬ noHardFailure env.page_flip 0 s.renderer_native.crtcs)) := by
  rcases swap_fan_out_cases env fb_id s with hA | hB | hC
  · constructor
    · rintro ⟨_, hf⟩
      rw [hA.1] at hf
      cases hf
    · rintro ⟨_, h | h⟩
      · rw [hA.2.1] at h
        cases h
      · exact absurd hA.2.2.1 h
  · constructor
    · intro _
      exact ⟨hB.2.2.1, hB.2.2.2⟩
    · intro _
      exact ⟨by rw [hB.2.1]; decide, hB.1⟩
  · constructor
    · rintro ⟨hp, _⟩
      exact absurd hC.2.1 hp
    · rintro ⟨ha, _⟩
      rw [hC.2.2.1] at ha
      exact absurd ha (lt_irrefl 0)

/-- C14, as the code has it. In a submission whose framebuffer is registered
as `fb_id` while `pending_set_crtc` is `TRUE`, the calls made up to the
registration contain no `drmModeSetCrtc`; then come the calls of
`setup_crtc_modes`: exactly one `drmModeSetCrtc` per entry of
`renderer_native->crtcs`, in list order, with `fb_id`, the position and the
connectors of the entry (and its mode when it has connectors), whether the
entry is ignored or not, has connectors or not, and whether
`page_flips_not_supported` is set or not; the value that `drmModeSetCrtc`
returns is not read by the code (it only decides a warning) and so has no
part in the model. `pending_set_crtc` is `FALSE` when the submission
returns. These are not always the only `drmModeSetCrtc` calls of the
submission: when the request is resolved within the call with page flips
unsupported, which is exactly when a controller is active and either the
flag is set on entry or a flip fails with an error other than `-EACCES`,
the code calls `setup_crtc_modes` a second time and every entry gets the
same `drmModeSetCrtc` again; otherwise the calls that follow contain no
`drmModeSetCrtc`. -/
theorem mode_set_for_every_controller (env : SwapEnv) (fb_id : Nat) (s : State)
    (hadd : env.add_fb = some fb_id)
    (hnext : s.onscreen.kms.next_fb_id = 0)
    (hpsc : s.renderer_native.pending_set_crtc = true) :
    (∀ (fb : Nat) (t : State),
      setup_crtc_modes fb t =
        { t with trace := t.trace ++ setCrtcCalls fb t.renderer_native.crtcs }) ∧
    (setCrtcCalls fb_id s.renderer_native.crtcs).length = s.renderer_native.crtcs.length ∧
    (∀ (i : Nat) (crtc : CoglKmsCrtc), s.renderer_native.crtcs[i]? = some crtc →
      (setCrtcCalls fb_id s.renderer_native.crtcs)[i]? =
        some (Call.drmModeSetCrtc crtc.id fb_id crtc.x crtc.y crtc.connectors crtc.count
          (if crtc.count ≠ 0 then some crtc.mode else none))) ∧
    (∃ s' T1 T2, _cogl_winsys_onscreen_swap_buffers_with_damage env s = some s' ∧
      s'.trace = s.trace ++ T1 ++ setCrtcCalls fb_id s.renderer_native.crtcs ++ T2 ∧
      T1.filter Call.isSetCrtc = [] ∧
      s'.renderer_native.pending_set_crtc = false ∧
      T2.filter Call.isSetCrtc =
        (if (swap_fan_out env fb_id s).1.pending ≠ 0 ∧
            (swap_fan_out env fb_id s).2.renderer_native.page_flips_not_supported = true then
          setCrtcCalls fb_id s.renderer_native.crtcs else []) ∧
      (s.trace ++ T1 ++ setCrtcCalls fb_id s.renderer_native.crtcs ++ T2).filter
          Call.isSetCrtc =
        s.trace.filter Call.isSetCrtc ++ setCrtcCalls fb_id s.renderer_native.crtcs ++
          (if 0 < activeCount s.renderer_native.crtcs ∧
              (s.renderer_native.page_flips_not_supported = true ∨
                ¬ noHardFailure env.page_flip 0 s.renderer_native.crtcs) then
            setCrtcCalls fb_id s.renderer_native.crtcs else [])) ∧
    (((swap_fan_out env fb_id s).1.pending ≠ 0 ∧
        (swap_fan_out env fb_id s).2.renderer_native.page_flips_not_supported = true) ↔
      (0 < activeCount s.renderer_native.crtcs ∧
        (s.renderer_native.page_flips_not_supported = true ∨
          ¬ noHardFailure env.page_flip 0 s.renderer_native.crtcs))) := by
  refine ⟨fun fb t => setup_crtc_modes_eq fb t, by simp [setCrtcCalls], ?_, ?_,
    swap_fan_out_degraded_iff env fb_id s⟩
  · intro i crtc hget
    simp [setCrtcCalls, List.getElem?_map, hget]
  · obtain ⟨T1, T3, e, a1, _, _, a4, a5⟩ := swap_body_trace env fb_id s hadd
    rw [hpsc] at e
    have hT2 : (fanOutCalls env.page_flip fb_id s.renderer_native ++ T3).filter
        Call.isSetCrtc =
        (if (swap_fan_out env fb_id s).1.pending ≠ 0 ∧
            (swap_fan_out env fb_id s).2.renderer_native.page_flips_not_supported = true then
          setCrtcCalls fb_id s.renderer_native.crtcs else []) := by
      rw [List.filter_append, (fanOutCalls_kind _ _ _).2, List.nil_append, a4]
    refine ⟨swap_body env s, T1, fanOutCalls env.page_flip fb_id s.renderer_native ++ T3,
      by simp [_cogl_winsys_onscreen_swap_buffers_with_damage, swap_wait_idle _ _ hnext],
      ?_, a1, a5, hT2, ?_⟩
    · rw [e]
      simp only [if_true, List.append_assoc]
    · rw [List.filter_append, List.filter_append, List.filter_append, a1, hT2,
        filter_isSetCrtc_setCrtcCalls, List.append_nil]
      simp only [swap_fan_out_degraded_iff env fb_id s]

/-- The theorem of C14 at a concrete input: two controllers of which the
second is ignored; both get their `drmModeSetCrtc` with framebuffer `11`. -/
theorem mode_set_for_every_controller_witness :
    (_cogl_winsys_onscreen_swap_buffers_with_damage exampleEnv examplePendingSetCrtc).map
      (fun s => (s.trace.filter Call.isSetCrtc, s.renderer_native.pending_set_crtc)) =
      some ([Call.drmModeSetCrtc 1 11 0 0 [41] 1 (some 1),
             Call.drmModeSetCrtc 2 11 0 0 [42] 1 (some 1)], false) ∧
    ∃ s' T1 T2, _cogl_winsys_onscreen_swap_buffers_with_damage exampleEnv
        examplePendingSetCrtc = some s' ∧
      s'.trace = examplePendingSetCrtc.trace ++ T1 ++
        setCrtcCalls 11 examplePendingSetCrtc.renderer_native.crtcs ++ T2 ∧
      T1.filter Call.isSetCrtc = [] ∧
      s'.renderer_native.pending_set_crtc = false := by
  obtain ⟨s', T1, T2, h1, h2, h3, h4, _⟩ :=
    (mode_set_for_every_controller exampleEnv 11 examplePendingSetCrtc rfl rfl rfl).2.2.2.1
  exact ⟨by decide, s', T1, T2, h1, h2, h3, h4⟩

/-- A fresh onscreen with two controllers, the mode-set being due, whose
first page flip is answered `-EINVAL`: page flips become unsupported, the
frame is resolved within the call, and each of the two controllers gets two
`drmModeSetCrtc` calls with framebuffer `11` in that one submission. -/
theorem mode_set_twice_counterexample :
    exampleFresh.renderer_native.pending_set_crtc = true ∧
    exampleFresh.renderer_native.page_flips_not_supported = false ∧
    exampleFresh.onscreen.kms.next_fb_id = 0 ∧
    exampleFresh.trace.filter Call.isSetCrtc = [] ∧
    (_cogl_winsys_onscreen_swap_buffers_with_damage
      { events := [], front_bo := 21, add_fb := some 11, page_flip := fun _ => -22 }
      exampleFresh).map
      (fun s => (s.trace.filter Call.isSetCrtc, s.renderer_native.pending_set_crtc,
        s.onscreen.kms.current_fb_id, s.onscreen.kms.next_fb_id)) =
      some ([Call.drmModeSetCrtc 1 11 0 0 [41] 1 (some 1),
             Call.drmModeSetCrtc 2 11 0 0 [42] 1 (some 1),
             Call.drmModeSetCrtc 1 11 0 0 [41] 1 (some 1),
             Call.drmModeSetCrtc 2 11 0 0 [42] 1 (some 1)], false, 11, 0) := by
  decide

/-- C15, as the code has it. In a submission whose framebuffer is registered
as `fb_id` while `pending_set_crtc` is `TRUE`, the mode-set does not replace
the flip: after the `drmModeSetCrtc` calls the fan-out runs as in any other
frame, and the `drmModePageFlip` calls of the submission are exactly those
of the fan-out. With page flips supported and no hard failure that is one
`drmModePageFlip` per active controller; with a hard failure at place `k`,
one per active controller of the first `k + 1` places; and none when page
flips are unsupported on entry. -/
theorem mode_set_then_flip (env : SwapEnv) (fb_id : Nat) (s : State)
    (hadd : env.add_fb = some fb_id)
    (hnext : s.onscreen.kms.next_fb_id = 0)
    (hpsc : s.renderer_native.pending_set_crtc = true) :
    (∃ s' T1 T3, _cogl_winsys_onscreen_swap_buffers_with_damage env s = some s' ∧
      s'.trace = s.trace ++ T1 ++ setCrtcCalls fb_id s.renderer_native.crtcs ++
        fanOutCalls env.page_flip fb_id s.renderer_native ++ T3 ∧
      T1.filter Call.isPageFlip = [] ∧ T3.filter Call.isPageFlip = [] ∧
      (s.trace ++ T1 ++ setCrtcCalls fb_id s.renderer_native.crtcs ++
        fanOutCalls env.page_flip fb_id s.renderer_native ++ T3).filter Call.isPageFlip =
        s.trace.filter Call.isPageFlip ++
          fanOutCalls env.page_flip fb_id s.renderer_native) ∧
    (s.renderer_native.page_flips_not_supported = false →
      noHardFailure env.page_flip 0 s.renderer_native.crtcs →
      fanOutCalls env.page_flip fb_id s.renderer_native =
        flipCalls fb_id s.renderer_native.crtcs) ∧
    (s.renderer_native.page_flips_not_supported = false →
      ∀ k, hardFailure env.page_flip 0 s.renderer_native.crtcs = some k →
      fanOutCalls env.page_flip fb_id s.renderer_native =
        flipCalls fb_id (s.renderer_native.crtcs.take (k + 1))) ∧
    (s.renderer_native.page_flips_not_supported = true →
      fanOutCalls env.page_flip fb_id s.renderer_native = []) := by
  refine ⟨?_, fun hf hok => fanOutCalls_soft _ _ _ hf hok,
    fun hf k hk => fanOutCalls_hard _ _ _ k hf hk,
    fun hf => fanOutCalls_unsupported _ _ _ hf⟩
  obtain ⟨T1, T3, e, _, a2, a3, _, _⟩ := swap_body_trace env fb_id s hadd
  rw [hpsc] at e
  refine ⟨swap_body env s, T1, T3,
    by simp [_cogl_winsys_onscreen_swap_buffers_with_damage, swap_wait_idle _ _ hnext],
    by rw [e]; simp only [if_true], a2, a3, ?_⟩
  simp only [List.filter_append, a2, a3, (fanOutCalls_kind _ _ _).1,
    filter_isPageFlip_of_quiet _ (quiet_setCrtcCalls _ _), List.append_nil]

/-- A submission made while the mode-set is due, to two controllers of which
the second is ignored, with page flips supported: after the two
`drmModeSetCrtc` calls the submission asks for the page flip of the active
controller, and the request waits for its event. -/
theorem mode_set_then_flip_counterexample :
    examplePendingSetCrtc.renderer_native.pending_set_crtc = true ∧
    examplePendingSetCrtc.onscreen.kms.next_fb_id = 0 ∧
    (_cogl_winsys_onscreen_swap_buffers_with_damage exampleEnv examplePendingSetCrtc).map
      (fun s => (s.trace.filter (fun c => c.isSetCrtc || c.isPageFlip), s.flip)) =
      some ([Call.drmModeSetCrtc 1 11 0 0 [41] 1 (some 1),
             Call.drmModeSetCrtc 2 11 0 0 [42] 1 (some 1),
             Call.drmModePageFlip 1 11], some ⟨1, 1⟩) := by
  decide

/-- The theorem of C15 at a concrete input: the page flips of the submission
of `examplePendingSetCrtc` are those of its fan-out, one for the active
controller. -/
theorem mode_set_then_flip_witness :
    fanOutCalls exampleEnv.page_flip 11 examplePendingSetCrtc.renderer_native =
      [Call.drmModePageFlip 1 11] ∧
    ∃ s' T1 T3, _cogl_winsys_onscreen_swap_buffers_with_damage exampleEnv
        examplePendingSetCrtc = some s' ∧
      s'.trace = examplePendingSetCrtc.trace ++ T1 ++
        setCrtcCalls 11 examplePendingSetCrtc.renderer_native.crtcs ++
        fanOutCalls exampleEnv.page_flip 11 examplePendingSetCrtc.renderer_native ++ T3 ∧
      T1.filter Call.isPageFlip = [] ∧ T3.filter Call.isPageFlip = [] := by
  have h := mode_set_then_flip exampleEnv 11 examplePendingSetCrtc rfl rfl rfl
  obtain ⟨s', T1, T3, h1, h2, h3, h4, _⟩ := h.1
  refine ⟨?_, s', T1, T3, h1, h2, h3, h4⟩
  rw [h.2.1 rfl (by decide)]
  decide

/-! ### C16 -/

theorem BufferSlotInv_congr (s s' : State)
    (h1 : s'.onscreen.kms.current_fb_id = s.onscreen.kms.current_fb_id)
    (h2 : s'.onscreen.kms.current_bo = s.onscreen.kms.current_bo)
    (h3 : s'.onscreen.kms.next_fb_id = s.onscreen.kms.next_fb_id)
    (h4 : s'.onscreen.kms.next_bo = s.onscreen.kms.next_bo) (h : BufferSlotInv s) :
    BufferSlotInv s' := by
  unfold BufferSlotInv at h ⊢
  rw [h1, h2, h3, h4]
  exact h

theorem BufferSlotInv_process_flip (flip : CoglFlipKMS) (s : State) (h : BufferSlotInv s) :
    BufferSlotInv (process_flip flip s) := by
  by_cases h1 : flip.pending = 1
  · rw [process_flip_last _ _ h1]
    exact ⟨h.2, fun hn => absurd rfl hn⟩
  · rw [process_flip_more _ _ h1]
    exact h

theorem BufferSlotInv_page_flip_handler (s : State) (h : BufferSlotInv s) :
    BufferSlotInv (page_flip_handler s) := by
  unfold page_flip_handler
  split
  · exact BufferSlotInv_process_flip _ s h
  · exact h

theorem BufferSlotInv_iterate (n : Nat) (s : State) (h : BufferSlotInv s) :
    BufferSlotInv (page_flip_handler^[n] s) := by
  induction n with
  | zero => exact h
  | succ n ih =>
    rw [Function.iterate_succ_apply']
    exact BufferSlotInv_page_flip_handler _ ih

theorem BufferSlotInv_handle_drm_event (n : Nat) (s : State) (h : BufferSlotInv s) :
    BufferSlotInv (handle_drm_event n s) := by
  unfold handle_drm_event
  split
  · exact h
  · exact BufferSlotInv_iterate n _ (BufferSlotInv_congr s _ rfl rfl rfl rfl h)

theorem BufferSlotInv_swap_wait (events : List Nat) (s s1 : State) (h : BufferSlotInv s)
    (hw : swap_wait events s = some s1) : BufferSlotInv s1 := by
  induction events generalizing s with
  | nil =>
    unfold swap_wait at hw
    split at hw
    · cases hw
    · cases hw; exact h
  | cons n events ih =>
    unfold swap_wait at hw
    split at hw
    · exact ih _ (BufferSlotInv_handle_drm_event n s h) hw
    · cases hw; exact h

theorem BufferSlotInv_free_current_bo (s : State) (h : BufferSlotInv s) :
    BufferSlotInv (free_current_bo s) := by
  rw [free_current_bo_eq]
  exact ⟨fun hn => absurd rfl hn, h.2⟩

theorem BufferSlotInv_swap_prepare (s : State) (h : BufferSlotInv s) :
    BufferSlotInv (swap_prepare s) := by
  unfold BufferSlotInv
  by_cases hp : s.onscreen.kms.pending_surface = 0
  · rw [swap_prepare_kms_none s hp]
    exact h
  · rw [swap_prepare_kms_some s hp]
    exact ⟨fun hn => absurd rfl hn, h.2⟩

theorem BufferSlotInv_swap_resolve (flip : CoglFlipKMS) (s : State) (h : BufferSlotInv s) :
    BufferSlotInv (swap_resolve flip s) := by
  by_cases h0 : flip.pending = 0
  · rw [swap_resolve_zero _ _ h0]
    exact ⟨h.1, fun hn => absurd rfl hn⟩
  · cases hflag : s.renderer_native.page_flips_not_supported with
    | true =>
      rw [swap_resolve_sync_def _ _ h0 hflag]
      exact BufferSlotInv_process_flip _ _ (BufferSlotInv_congr s _ rfl rfl rfl rfl h)
    | false =>
      rw [swap_resolve_async _ _ h0 hflag]
      exact h

theorem BufferSlotInv_swap_submit (env : SwapEnv) (s : State)
    (hbo : env.front_bo ≠ 0) (hfb : env.add_fb ≠ some 0) (h : BufferSlotInv s) :
    BufferSlotInv (swap_submit env s) := by
  unfold swap_submit
  cases hadd : env.add_fb with
  | none => exact ⟨h.1, fun hn => absurd rfl hn⟩
  | some fb_id =>
    have hne : fb_id ≠ 0 := by
      rintro rfl
      exact hfb hadd
    simp only [swap_present]
    apply BufferSlotInv_swap_resolve
    rw [flip_all_crtcs_frame, swap_set_crtc_eq]
    exact ⟨h.1, fun _ => hbo⟩

theorem set_layout_slots (new_surface new_egl_surface : Nat) (width height : Int)
    (crtcs : List CoglKmsCrtc) (s : State) :
    (meta_renderer_native_set_layout new_surface new_egl_surface width height crtcs
      s).2.onscreen.kms.current_fb_id = s.onscreen.kms.current_fb_id ∧
    (meta_renderer_native_set_layout new_surface new_egl_surface width height crtcs
      s).2.onscreen.kms.current_bo = s.onscreen.kms.current_bo := by
  unfold meta_renderer_native_set_layout
  simp only [set_layout_crtcs_eq, State.call, State.setKms]
  split
  · split
    · exact ⟨rfl, rfl⟩
    · split
      · exact ⟨rfl, rfl⟩
      · split <;> split <;> split <;> exact ⟨rfl, rfl⟩
  · exact ⟨rfl, rfl⟩

theorem flush_slots (s : State) :
    (flush_pending_swap_notify_idle s).onscreen.kms.current_fb_id =
      s.onscreen.kms.current_fb_id ∧
    (flush_pending_swap_notify_idle s).onscreen.kms.current_bo =
      s.onscreen.kms.current_bo := by
  unfold flush_pending_swap_notify_idle flush_pending_swap_notify_cb
  simp only [State.call, State.setRenderer]
  cases s.onscreen.kms.pending_swap_notify <;> simp

theorem BufferSlotInv_onscreen_init (egl_context : Bool) (surface egl_surface : Nat)
    (s : State) (h : BufferSlotInv s) :
    BufferSlotInv (_cogl_winsys_onscreen_init egl_context surface egl_surface s).2 := by
  have hz : ∀ t : State, t.onscreen.kms.current_fb_id = 0 → t.onscreen.kms.next_fb_id = 0 →
      BufferSlotInv t := fun t h1 h2 => ⟨fun hn => absurd h1 hn, fun hn => absurd h2 hn⟩
  unfold _cogl_winsys_onscreen_init
  simp only [State.call, State.setKms, State.setRenderer]
  split
  · exact h
  · split
    · exact h
    · split
      · exact hz _ rfl rfl
      · split
        · exact hz _ rfl rfl
        · split <;> exact hz _ rfl rfl

theorem BufferSlotInv_onscreen_deinit (s : State) (h : BufferSlotInv s) :
    BufferSlotInv (_cogl_winsys_onscreen_deinit s) := by
  unfold _cogl_winsys_onscreen_deinit
  simp only [State.call, State.setKms, State.setRenderer, free_current_bo_eq]
  split
  · exact h
  · split
    · exact h
    · split <;> split <;> exact ⟨fun hn => absurd rfl hn, h.2⟩

/-- Every operation keeps the buffer-slot invariant, given what is assumed of
the outside world. -/
theorem BufferSlotInv_run (op : Op) (s s' : State) (hop : op.kernelOk)
    (h : BufferSlotInv s) (hrun : op.run s = some s') : BufferSlotInv s' := by
  cases op with
  | swap_buffers_with_damage env =>
    simp only [Op.run, _cogl_winsys_onscreen_swap_buffers_with_damage,
      Option.map_eq_some'] at hrun
    obtain ⟨s1, hw, rfl⟩ := hrun
    exact BufferSlotInv_swap_submit env _ hop.1 hop.2
      (BufferSlotInv_swap_prepare s1 (BufferSlotInv_swap_wait _ _ _ h hw))
  | flip_event =>
    simp only [Op.run] at hrun
    split at hrun
    · cases hrun
      exact BufferSlotInv_process_flip _ s h
    · cases hrun
  | dispatch revents n =>
    simp only [Op.run, dispatch_kms_events, Option.some.injEq] at hrun
    subst hrun
    split
    · exact h
    · exact BufferSlotInv_handle_drm_event n s h
  | set_layout new_surface new_egl_surface width height crtcs =>
    simp only [Op.run, Option.some.injEq] at hrun
    subst hrun
    obtain ⟨_, c, d, _⟩ := set_layout_frame new_surface new_egl_surface width height crtcs s
    obtain ⟨a, b⟩ := set_layout_slots new_surface new_egl_surface width height crtcs s
    exact BufferSlotInv_congr s _ a b c d h
  | set_ignore_crtc id ignore =>
    simp only [Op.run, Option.some.injEq] at hrun
    subst hrun
    exact h
  | queue_modes_reset =>
    simp only [Op.run, Option.some.injEq] at hrun
    subst hrun
    exact h
  | flush =>
    simp only [Op.run, Option.some.injEq] at hrun
    subst hrun
    obtain ⟨_, c, d, _⟩ := flush_frame s
    obtain ⟨a, b⟩ := flush_slots s
    exact BufferSlotInv_congr s _ a b c d h
  | display_setup =>
    simp only [Op.run, Option.some.injEq] at hrun
    subst hrun
    exact h
  | onscreen_init egl_context surface egl_surface =>
    simp only [Op.run, Option.some.injEq] at hrun
    subst hrun
    exact BufferSlotInv_onscreen_init _ _ _ s h
  | onscreen_deinit =>
    simp only [Op.run, Option.some.injEq] at hrun
    subst hrun
    exact BufferSlotInv_onscreen_deinit s h
  | free_bo =>
    simp only [Op.run, Option.some.injEq] at hrun
    subst hrun
    exact BufferSlotInv_free_current_bo s h

theorem BufferSlotInv_runOps (ops : List Op) (s s' : State)
    (hops : ∀ op ∈ ops, op.kernelOk) (h : BufferSlotInv s)
    (hrun : runOps ops s = some s') : BufferSlotInv s' := by
  induction ops generalizing s with
  | nil =>
    simp only [runOps, Option.some.injEq] at hrun
    subst hrun
    exact h
  | cons op ops ih =>
    simp only [runOps, Option.bind_eq_some] at hrun
    obtain ⟨s1, h1, h2⟩ := hrun
    exact ih s1 (fun o ho => hops o (List.mem_cons_of_mem _ ho))
      (BufferSlotInv_run op s s1 (hops op (List.mem_cons_self _ _)) h h1) h2

theorem BufferSlotInv_fresh (s : State) (h : FreshOnscreen s) : BufferSlotInv s := by
  obtain ⟨s0, egl_context, surface, egl_surface, _, hinit⟩ := h
  obtain ⟨_, _, _, i4, i5⟩ := onscreen_init_true _ _ _ _ _ hinit
  unfold BufferSlotInv
  by_cases hz : s0.renderer_native.width = 0 ∨ s0.renderer_native.height = 0
  · rw [(i4 hz).1]
    exact ⟨fun hn => absurd rfl hn, fun hn => absurd rfl hn⟩
  · rw [(i5 hz).1]
    exact ⟨fun hn => absurd rfl hn, fun hn => absurd rfl hn⟩

/-- C16. Assuming that `gbm_surface_lock_front_buffer` returns a non-null
buffer and that a successful `drmModeAddFB` yields a non-zero id, in every
state reached from a freshly initialised onscreen by any sequence of
operations (`_cogl_winsys_onscreen_init`, submissions, flip events,
`free_current_bo`, layout changes, `_cogl_winsys_onscreen_deinit`, and the
other entry points), `current_fb_id != 0` implies `current_bo != NULL` and
`next_fb_id != 0` implies `next_bo != NULL`. -/
theorem buffer_slot_invariant (ops : List Op) (s0 s : State)
    (hfresh : FreshOnscreen s0)
    (hops : ∀ op ∈ ops, op.kernelOk)
    (hrun : runOps ops s0 = some s) :
    (s.onscreen.kms.current_fb_id ≠ 0 → s.onscreen.kms.current_bo ≠ 0) ∧
    (s.onscreen.kms.next_fb_id ≠ 0 → s.onscreen.kms.next_bo ≠ 0) :=
  BufferSlotInv_runOps ops s0 s hops (BufferSlotInv_fresh s0 hfresh) hrun

/-- The theorem of C16 at a concrete run: a fresh onscreen, a frame that both
controllers accept, one of its two events, a layout change, a
`free_current_bo`. Frame `11` is still in the next slot with its buffer
`21`. -/
theorem buffer_slot_invariant_witness :
    ∃ s, runOps [Op.swap_buffers_with_damage exampleEnv, Op.flip_event,
        Op.set_layout 7 8 1920 1080 [exampleCrtc 1], Op.free_bo] exampleFresh = some s ∧
      s.onscreen.kms.next_fb_id = 11 ∧ s.onscreen.kms.next_bo = 21 ∧
      (s.onscreen.kms.current_fb_id ≠ 0 → s.onscreen.kms.current_bo ≠ 0) ∧
      (s.onscreen.kms.next_fb_id ≠ 0 → s.onscreen.kms.next_bo ≠ 0) := by
  have hrun : runOps [Op.swap_buffers_with_damage exampleEnv, Op.flip_event,
      Op.set_layout 7 8 1920 1080 [exampleCrtc 1], Op.free_bo] exampleFresh =
      some (free_current_bo (meta_renderer_native_set_layout 7 8 1920 1080 [exampleCrtc 1]
        (process_flip ⟨1, 2⟩ (swap_body exampleEnv exampleFresh))).2) := rfl
  refine ⟨_, hrun, by decide, by decide,
    buffer_slot_invariant _ exampleFresh _ ⟨examplePreInit, true, 5, 6, rfl, rfl⟩ ?_ hrun⟩
  intro op hop
  simp only [List.mem_cons, List.mem_singleton, List.not_mem_nil, or_false] at hop
  rcases hop with rfl | rfl | rfl | rfl
  · exact ⟨by decide, by simp [exampleEnv]⟩
  · trivial
  · trivial
  · trivial

/-! ### C17 -/

/-- C17. On an onscreen that was allocated (`onscreen->winsys` is not `NULL`),
`_cogl_winsys_onscreen_deinit` clears `renderer_native->onscreen` and then:
when a flip is pending (`next_fb_id != 0`) it does nothing else, so that no
call is made and the swap chain and both surfaces are as before; when no
flip is pending it makes the calls of `free_current_bo` (the unregistration
of `current_fb_id`, then the release of `current_bo`, each when there is
one), then destroys the rendering surface, then the buffer pool (each when
there is one), leaving the current slot, `egl_surface` and `surface` empty
and `onscreen->winsys` `NULL`. The macro `g_return_if_fail` is taken to
return when its condition fails. -/
theorem onscreen_deinit_teardown (s : State) (hw : s.onscreen.winsys = true) :
    (s.onscreen.kms.next_fb_id ≠ 0 →
      _cogl_winsys_onscreen_deinit s =
        { s with renderer_native := { s.renderer_native with onscreen := false } }) ∧
    (s.onscreen.kms.next_fb_id = 0 →
      (_cogl_winsys_onscreen_deinit s).trace =
        s.trace ++ freeCalls s.onscreen.kms ++
          (if s.onscreen.egl_surface ≠ 0 then
            [Call.eglDestroySurface s.onscreen.egl_surface] else []) ++
          (if s.onscreen.kms.surface ≠ 0 then
            [Call.gbm_surface_destroy s.onscreen.kms.surface] else []) ∧
      (_cogl_winsys_onscreen_deinit s).renderer_native =
        { s.renderer_native with onscreen := false } ∧
      (_cogl_winsys_onscreen_deinit s).onscreen.kms.current_fb_id = 0 ∧
      (_cogl_winsys_onscreen_deinit s).onscreen.kms.current_bo = 0 ∧
      (_cogl_winsys_onscreen_deinit s).onscreen.egl_surface = 0 ∧
      (_cogl_winsys_onscreen_deinit s).onscreen.kms.surface = 0 ∧
      (_cogl_winsys_onscreen_deinit s).onscreen.winsys = false) ∧
    (s.onscreen.kms.next_fb_id = 0 → s.onscreen.kms.current_fb_id ≠ 0 →
      s.onscreen.kms.current_bo ≠ 0 → s.onscreen.egl_surface ≠ 0 →
      s.onscreen.kms.surface ≠ 0 →
      (_cogl_winsys_onscreen_deinit s).trace =
        s.trace ++ [Call.drmModeRmFB s.onscreen.kms.current_fb_id,
          Call.gbm_surface_release_buffer s.onscreen.kms.surface s.onscreen.kms.current_bo,
          Call.eglDestroySurface s.onscreen.egl_surface,
          Call.gbm_surface_destroy s.onscreen.kms.surface]) := by
  have key : s.onscreen.kms.next_fb_id = 0 →
      (_cogl_winsys_onscreen_deinit s).trace =
        s.trace ++ freeCalls s.onscreen.kms ++
          (if s.onscreen.egl_surface ≠ 0 then
            [Call.eglDestroySurface s.onscreen.egl_surface] else []) ++
          (if s.onscreen.kms.surface ≠ 0 then
            [Call.gbm_surface_destroy s.onscreen.kms.surface] else []) ∧
      (_cogl_winsys_onscreen_deinit s).renderer_native =
        { s.renderer_native with onscreen := false } ∧
      (_cogl_winsys_onscreen_deinit s).onscreen.kms.current_fb_id = 0 ∧
      (_cogl_winsys_onscreen_deinit s).onscreen.kms.current_bo = 0 ∧
      (_cogl_winsys_onscreen_deinit s).onscreen.egl_surface = 0 ∧
      (_cogl_winsys_onscreen_deinit s).onscreen.kms.surface = 0 ∧
      (_cogl_winsys_onscreen_deinit s).onscreen.winsys = false := by
    intro hn
    unfold _cogl_winsys_onscreen_deinit
    simp only [hw, State.call, State.setKms, State.setRenderer, free_current_bo_eq, hn]
    by_cases he : s.onscreen.egl_surface = 0 <;>
      by_cases hs : s.onscreen.kms.surface = 0 <;> simp [he, hs]
  refine ⟨?_, key, ?_⟩
  · intro hn
    unfold _cogl_winsys_onscreen_deinit
    simp [hw, State.setRenderer, hn]
  · intro hn h1 h2 h3 h4
    rw [(key hn).1]
    simp [freeCalls, h1, h2, h3, h4]

/-- The theorem of C17 at concrete inputs: with frame `11` in the next slot
the tear-down only clears `renderer_native->onscreen`; with the next slot
empty it makes its four calls in order. -/
theorem onscreen_deinit_teardown_witness :
    (_cogl_winsys_onscreen_deinit exampleFlipPending).trace = exampleFlipPending.trace ∧
    (_cogl_winsys_onscreen_deinit exampleFlipPending).onscreen = exampleFlipPending.onscreen ∧
    (_cogl_winsys_onscreen_deinit exampleFlipPending).renderer_native.onscreen = false ∧
    (_cogl_winsys_onscreen_deinit (exampleState [exampleCrtc 1])).trace =
      [Call.drmModeRmFB 10, Call.gbm_surface_release_buffer 5 20,
       Call.eglDestroySurface 6, Call.gbm_surface_destroy 5] := by
  have h1 := (onscreen_deinit_teardown exampleFlipPending rfl).1 (by decide)
  have h2 := (onscreen_deinit_teardown (exampleState [exampleCrtc 1]) rfl).2.2 rfl
    (by decide) (by decide) (by decide) (by decide)
  exact ⟨by rw [h1], by rw [h1], by rw [h1], h2⟩

/-! ### C18 -/

theorem FlagInv_process_flip (flip : CoglFlipKMS) (s : State) (h : FlagInv s) :
    FlagInv (process_flip flip s) := by
  intro hf
  rw [process_flip_flag] at hf
  by_cases hp : flip.pending = 1
  · rw [process_flip_last _ _ hp]
  · rw [process_flip_more _ _ hp]
    exact h hf

theorem FlagInv_handle_drm_event (n : Nat) (s : State) (h : FlagInv s) :
    FlagInv (handle_drm_event n s) := by
  intro hf
  rw [handle_drm_event_flag] at hf
  simp only [handle_drm_event, hf, if_true]
  exact h hf

/-- A submission leaves the next slot empty whenever it leaves the flag set,
whatever the state after its blocking loop. -/
theorem FlagInv_swap_body (env : SwapEnv) (s : State) : FlagInv (swap_body env s) := by
  intro hf
  cases hadd : env.add_fb with
  | none =>
    simp [swap_body, swap_submit, hadd, State.call, State.setKms]
  | some fb_id =>
    rw [swap_body_eq_resolve env fb_id s hadd] at hf ⊢
    rw [swap_resolve_flag] at hf
    rcases swap_fan_out_cases env fb_id s with hA | hB | hC
    · rw [hA.1] at hf
      cases hf
    · rw [swap_resolve_sync _ _ hB.2.1 hB.1]
    · rw [swap_resolve_zero _ _ hC.2.1]

/-- Every operation keeps the invariant of the flag. -/
theorem FlagInv_run (op : Op) (s s' : State) (h : FlagInv s)
    (hrun : op.run s = some s') : FlagInv s' := by
  cases op with
  | swap_buffers_with_damage env =>
    simp only [Op.run, _cogl_winsys_onscreen_swap_buffers_with_damage,
      Option.map_eq_some'] at hrun
    obtain ⟨s1, _, rfl⟩ := hrun
    exact FlagInv_swap_body env s1
  | flip_event =>
    simp only [Op.run] at hrun
    split at hrun
    · cases hrun
      exact FlagInv_process_flip _ s h
    · cases hrun
  | dispatch revents n =>
    simp only [Op.run, dispatch_kms_events, Option.some.injEq] at hrun
    subst hrun
    split
    · exact h
    · exact FlagInv_handle_drm_event n s h
  | set_layout new_surface new_egl_surface width height crtcs =>
    simp only [Op.run, Option.some.injEq] at hrun
    subst hrun
    obtain ⟨_, b, _, d⟩ := set_layout_frame new_surface new_egl_surface width height crtcs s
    intro hf
    rw [d] at hf
    rw [b]
    exact h hf
  | set_ignore_crtc id ignore =>
    simp only [Op.run, Option.some.injEq] at hrun
    subst hrun
    exact h
  | queue_modes_reset =>
    simp only [Op.run, Option.some.injEq] at hrun
    subst hrun
    exact h
  | flush =>
    simp only [Op.run, Option.some.injEq] at hrun
    subst hrun
    obtain ⟨_, b, _, d⟩ := flush_frame s
    intro hf
    rw [d] at hf
    rw [b]
    exact h hf
  | display_setup =>
    simp only [Op.run, Option.some.injEq] at hrun
    subst hrun
    exact h
  | onscreen_init egl_context surface egl_surface =>
    simp only [Op.run, Option.some.injEq] at hrun
    subst hrun
    intro hf
    rw [onscreen_init_flag] at hf
    have hn := h hf
    unfold _cogl_winsys_onscreen_init
    simp only [State.call, State.setKms, State.setRenderer]
    split
    · exact hn
    · split
      · exact hn
      · split
        · rfl
        · split
          · rfl
          · split <;> rfl
  | onscreen_deinit =>
    simp only [Op.run, Option.some.injEq] at hrun
    subst hrun
    intro hf
    rw [onscreen_deinit_flag] at hf
    have hn := h hf
    unfold _cogl_winsys_onscreen_deinit
    simp only [State.call, State.setKms, State.setRenderer, free_current_bo_eq]
    split
    · exact hn
    · split
      · exact hn
      · split <;> split <;> exact hn
  | free_bo =>
    simp only [Op.run, Option.some.injEq] at hrun
    subst hrun
    rw [free_current_bo_eq]
    exact h

theorem FlagInv_runOps (ops : List Op) (s s' : State) (h : FlagInv s)
    (hrun : runOps ops s = some s') : FlagInv s' := by
  induction ops generalizing s with
  | nil =>
    simp only [runOps, Option.some.injEq] at hrun
    subst hrun
    exact h
  | cons op ops ih =>
    simp only [runOps, Option.bind_eq_some] at hrun
    obtain ⟨s1, h1, h2⟩ := hrun
    exact ih s1 (FlagInv_run op s s1 h h1) h2

/-- With the flag set and a flip pending the blocking loop does not come
back, whatever the answers. -/
theorem swap_wait_spins (events : List Nat) (t : State)
    (hf : t.renderer_native.page_flips_not_supported = true)
    (hn : t.onscreen.kms.next_fb_id ≠ 0) : swap_wait events t = none := by
  induction events with
  | nil => simp [swap_wait, hn]
  | cons n events ih =>
    have e : handle_drm_event n t = t := by simp [handle_drm_event, hf]
    unfold swap_wait
    rw [if_pos hn, e]
    exact ih

/-- C18. In every state reached by any sequence of operations (submissions,
flip events, layout changes, flushes, and the other entry points) from a
state in which `page_flips_not_supported` is clear, the flag being set
implies `next_fb_id == 0`. Hence, when the flag is set, `handle_drm_event`
changes nothing and the blocking loop at the start of a submission makes no
iteration: it comes back at once with the state it was entered in, for any
sequence of answers and for none, and the submission goes on to its body.
Were a flip pending with the flag set, the loop would not come back. -/
theorem flag_set_no_pending_flip (ops : List Op) (s0 s : State)
    (hflag0 : s0.renderer_native.page_flips_not_supported = false)
    (hrun : runOps ops s0 = some s) :
    (s.renderer_native.page_flips_not_supported = true → s.onscreen.kms.next_fb_id = 0) ∧
    (s.renderer_native.page_flips_not_supported = true →
      ∀ n, handle_drm_event n s = s) ∧
    (s.renderer_native.page_flips_not_supported = true →
      swap_wait [] s = some s ∧ ∀ events, swap_wait events s = some s) ∧
    (s.renderer_native.page_flips_not_supported = true →
      ∀ env, _cogl_winsys_onscreen_swap_buffers_with_damage env s =
        some (swap_body env s)) ∧
    (∀ t : State, t.renderer_native.page_flips_not_supported = true →
      t.onscreen.kms.next_fb_id ≠ 0 → ∀ events, swap_wait events t = none) := by
  have hinv : FlagInv s :=
    FlagInv_runOps ops s0 s (by intro hf; rw [hflag0] at hf; cases hf) hrun
  refine ⟨hinv, ?_, ?_, ?_, ?_⟩
  · intro hf n
    simp [handle_drm_event, hf]
  · intro hf
    exact ⟨swap_wait_idle _ _ (hinv hf), fun events => swap_wait_idle events _ (hinv hf)⟩
  · intro hf env
    simp [_cogl_winsys_onscreen_swap_buffers_with_damage, swap_wait_idle _ _ (hinv hf)]
  · intro t hf hn events
    exact swap_wait_spins events t hf hn

/-- The theorem of C18 at a concrete run: on a fresh onscreen a frame is
submitted to which the first controller answers `-EINVAL`; the flag is set
and the next slot is empty, so the loop of the next submission comes back
at once. -/
theorem flag_set_no_pending_flip_witness :
    ∃ s, runOps [Op.swap_buffers_with_damage
        { events := [], front_bo := 21, add_fb := some 11, page_flip := fun _ => -22 }]
        exampleFresh = some s ∧
      s.renderer_native.page_flips_not_supported = true ∧
      s.onscreen.kms.current_fb_id = 11 ∧
      s.onscreen.kms.next_fb_id = 0 ∧
      swap_wait [] s = some s := by
  have hrun : runOps [Op.swap_buffers_with_damage
      { events := [], front_bo := 21, add_fb := some 11, page_flip := fun _ => -22 }]
      exampleFresh =
      some (swap_body
        { events := [], front_bo := 21, add_fb := some 11, page_flip := fun _ => -22 }
        exampleFresh) := rfl
  have hf : (swap_body
      { events := [], front_bo := 21, add_fb := some 11, page_flip := fun _ => -22 }
      exampleFresh).renderer_native.page_flips_not_supported = true := by decide
  have h := flag_set_no_pending_flip _ exampleFresh _ rfl hrun
  exact ⟨_, hrun, hf, by decide, h.1 hf, (h.2.2.1 hf).1⟩

end MetaRendererNativeModel
